import Mathlib

/-!
# GrimEngine (engines/grim/grim.cpp)

A shallow embedding of the engine core of `engines/grim/grim.cpp`: the mode
controller, the active-actor cache, the scene (Set) manager, the engine section
of the save-game codec, and the save / restore / device-reset paths of the main
loop.

Conventions of the embedding.

* The engine object and the process-wide collaborators (`g_driver`, `g_movie`,
  `g_imuse`, `g_sound`, the Lua instance, the save-file manager) are fields of one
  record, `GrimEngine`; every member function is a function on that record.
* A pointer to a pooled entity (`Actor *`, `Set *`, `Font *`, `TextObject *`) is
  the identity of the entity it points to; the null pointer is `none`.
  Dereferencing looks the identity up in the entity's pool.
* A call to a collaborator whose effect lies outside the engine core is recorded
  in the field `log`, in call order.
* `error(...)` and the dereference of a null pointer end the run with an `Err`.
* Classes whose source is not part of `grim.cpp` (`SaveGame`, `PoolObject`,
  `Actor`, `Set`, the renderer, the movie player) are modelled from their
  description in the specification; each such definition says so.
-/

namespace Grim

/-! ## Errors -/

/-- Ways in which a run of the engine ends abnormally. -/
inductive Err where
  /-- A call of `error(...)` with its message. -/
  | fatal (msg : String)
  /-- The dereference of a pointer that is null or names no live entity. -/
  | nullDeref (what : String)
  /-- A read from a save stream that holds no value of the requested kind. -/
  | badStream (what : String)
  /-- An integer division by zero. -/
  | divByZero
deriving DecidableEq, Repr

/-! ## Scalars of the data model -/

/-- Modelled from the spec: the engine mode (`enum EngineMode`, declared in
`grim.h`, which is not part of the sources). A C++ enumeration is an integer
with named values; the record holds that integer, so that a mode read back from
a save stream is representable whatever the stream holds. The five modes of the
specification get five distinct values. -/
structure EngineMode where
  raw : Nat
deriving DecidableEq, Repr

/-- Modelled from the spec: the enumerator `PauseMode`. -/
def PauseMode : EngineMode := ⟨1⟩

/-- Modelled from the spec: the enumerator `NormalMode`. -/
def NormalMode : EngineMode := ⟨2⟩

/-- Modelled from the spec: the enumerator `SmushMode`. -/
def SmushMode : EngineMode := ⟨3⟩

/-- Modelled from the spec: the enumerator `DrawMode`. -/
def DrawMode : EngineMode := ⟨4⟩

/-- Modelled from the spec: the enumerator `OverworldMode`. -/
def OverworldMode : EngineMode := ⟨5⟩

/-- Modelled from the spec: the game variant (`enum GrimGameType`, declared in
`grim.h`): Grim Fandango or Escape from Monkey Island. -/
inductive GrimGameType where
  | GType_GRIM
  | GType_MONKEY4
deriving DecidableEq, Repr

open GrimGameType

/-- Modelled from the spec: the platform of the game (`enum Common::Platform`);
the engine core tests only for the PS2. -/
inductive Platform where
  | kPlatformPS2
  | kPlatformOther
deriving DecidableEq, Repr

open Platform

/-- Modelled from the spec: an RGB colour (`class Color`, declared in
`color.h`). -/
structure Color where
  r : Nat
  g : Nat
  b : Nat
deriving DecidableEq, Repr

/-! ## Pooled entities -/

/-- The entity types that have a pool. -/
inductive PoolKind where
  | Bitmap
  | Font
  | ObjectState
  | Set
  | TextObject
  | PrimitiveObject
  | Actor
  | PoolSound
  | Layer
deriving DecidableEq, Repr

/-- Modelled from the spec: a pooled entity whose fields the engine core never
inspects (Bitmap, Font, ObjectState, TextObject, PrimitiveObject, PoolSound,
Layer): its pool-local identity and the scalar fields of its save record. -/
structure PoolObject where
  id : Int
  state : List Int
deriving DecidableEq, Repr

/-- Modelled from the spec: a camera / rendering configuration of a Set
(`Set::Setup`); only its name is read by the engine core. -/
structure Setup where
  _name : String
deriving DecidableEq, Repr

/-- Modelled from the spec: a scene (`class Set`, declared in `set.h`), with
the members that `grim.cpp` reads or writes: its identity, its name, the lock
flag, the setups with the index of the current one, and the ambient sound
parameters set by `setSoundParameters`. -/
structure Set where
  id : Int
  _name : String
  _locked : Bool
  _setups : List Setup
  _currSetup : Nat
  _minVolume : Int
  _maxVolume : Int
deriving DecidableEq, Repr

/-- Modelled from the spec: `Set::getCurrSetup()`, the setup a Set currently
shows. -/
def Set.getCurrSetup (s : Set) : Setup :=
  s._setups.getD s._currSetup ⟨""⟩

/-- Modelled from the spec: the effect of
`Set::setSoundParameters(minVolume, maxVolume)`. -/
def Set.setSoundParameters (s : Set) (minVolume maxVolume : Int) : Set :=
  { s with _minVolume := minVolume, _maxVolume := maxVolume }

/-- Modelled from the spec: an actor (`class Actor`, declared in `actor.h`),
with the members that `grim.cpp` reads or writes: its identity, the name of the
Set it is in, the overworld flag, visibility, whether it is walking, the handle
of its clean render buffer (0 for none) and its sort order. -/
structure Actor where
  id : Int
  _setName : String
  _inOverworld : Bool
  _visible : Bool
  _walking : Bool
  _cleanBuffer : Nat
  _sortOrder : Int
deriving DecidableEq, Repr

/-- Modelled from the spec: the test `Actor::isInSet(name)`, a match on the
name of the Set. -/
def Actor.isInSet (a : Actor) (name : String) : Bool :=
  a._setName == name

/-- Modelled from the spec: the getter `Actor::isInOverworld()`. -/
def Actor.isInOverworld (a : Actor) : Bool :=
  a._inOverworld

/-- Modelled from the spec: the effect of `Actor::stopWalking()`. -/
def Actor.stopWalking (a : Actor) : Actor :=
  { a with _walking := false }

/-- Modelled from the spec: the effect of `Actor::clearCleanBuffer()`, the
clean buffer is released. -/
def Actor.clearCleanBuffer (a : Actor) : Actor :=
  { a with _cleanBuffer := 0 }

/-- Modelled from the spec: the effect of `Actor::setSortOrder(order)`. -/
def Actor.setSortOrder (a : Actor) (order : Int) : Actor :=
  { a with _sortOrder := order }

/-- Modelled from the spec: `Pool::getObject(id)`, the lookup of an entity by
identity; it answers null when no live entity has the identity. -/
def getObject {α : Type} (ident : α → Int) (pool : List α) (id : Int) : Option α :=
  pool.find? (fun o => ident o == id)

/-- Modelled from the spec: the removal of an entity from its pool when it is
destroyed (`delete`). -/
def deleteObject {α : Type} (ident : α → Int) (pool : List α) (id : Int) : List α :=
  pool.filter (fun o => !(ident o == id))

/-- Modelled from the spec: the default text style of a kind of text line
(`class TextObjectDefaults`, declared in `textobject.h`), with the members
`saveGRIM` writes. The font is a pointer into the Font pool. -/
structure TextObjectDefaults where
  _fgColor : Color
  _font : Option Int
  _height : Int
  _justify : Int
  _width : Int
  _x : Int
  _y : Int
  _duration : Int
deriving DecidableEq, Repr

/-! ## The save stream -/

/-- Modelled from the spec: the tag of a section of a save file. `SIMG` and
`GRIM` are the tags written by `grim.cpp` itself; a pool and each collaborator
have a tag of their own. -/
inductive SectionTag where
  | SIMG
  | pool (k : PoolKind)
  | GRIM
  | renderer
  | sound
  | movie
  | iris
  | lua
deriving DecidableEq, Repr

/-- Modelled from the spec: one value of a save stream, as written by one call
of a `SaveGame` writer. -/
inductive Field where
  | uint32 (v : Nat)
  | sint32 (v : Int)
  | uint16 (v : Nat)
  | bool (b : Bool)
  | color (c : Color)
  | string (s : String)
deriving DecidableEq, Repr

/-- Modelled from the spec: a closed section of a save file, its tag and
payload. -/
structure Section where
  tag : SectionTag
  data : List Field
deriving DecidableEq, Repr

/-- Modelled from the spec: the handle of an open save stream (`class
SaveGame`, declared in `savegame.h`): the direction, the format version of the
stream, the closed sections (those written so far, or those not yet read), and
the section that is open with its payload (written so far, or left to read). -/
structure SaveGame where
  _saving : Bool
  _filename : String
  _majorVersion : Nat
  _minorVersion : Nat
  _sections : List Section
  _currentSection : Option SectionTag
  _sectionBuffer : List Field
deriving DecidableEq, Repr

/-- Modelled from the spec: the first section with the given tag, and the
sections after it. -/
def findSection (tag : SectionTag) : List Section → Option (Section × List Section)
  | [] => none
  | s :: rest => if s.tag = tag then some (s, rest) else findSection tag rest

/-- Modelled from the spec: `SaveGame::beginSection(tag)`. A writer opens an
empty section. A reader moves to the next section with that tag, passing over
the sections before it; a stream without one is a fatal error. -/
def SaveGame.beginSection (h : SaveGame) (tag : SectionTag) : Except Err SaveGame :=
  if h._currentSection.isSome then
    .error (.fatal "Tried to begin a new save game section with ending old section")
  else if h._saving then
    .ok { h with _currentSection := some tag, _sectionBuffer := [] }
  else
    match findSection tag h._sections with
    | none => .error (.fatal "Unable to find requested section of savegame")
    | some (s, rest) =>
      .ok { h with _sections := rest, _currentSection := some tag, _sectionBuffer := s.data }

/-- Modelled from the spec: `SaveGame::endSection()`. A writer appends the
open section to the stream; a reader leaves it. -/
def SaveGame.endSection (h : SaveGame) : Except Err SaveGame :=
  match h._currentSection with
  | none => .error (.fatal "Tried to end a save game section without starting a section")
  | some tag =>
    if h._saving then
      .ok { h with _sections := h._sections ++ [⟨tag, h._sectionBuffer⟩],
                   _currentSection := none, _sectionBuffer := [] }
    else
      .ok { h with _currentSection := none, _sectionBuffer := [] }

/-- Modelled from the spec: a writer appends one value to the open section;
without an open section it is a fatal error. -/
def SaveGame.write (h : SaveGame) (f : Field) : Except Err SaveGame :=
  if h._saving && h._currentSection.isSome then
    .ok { h with _sectionBuffer := h._sectionBuffer ++ [f] }
  else
    .error (.fatal "Tried to write a save game without starting a section")

/-- Modelled from the spec: `SaveGame::writeLEUint32(v)`. -/
def SaveGame.writeLEUint32 (h : SaveGame) (v : Nat) : Except Err SaveGame :=
  h.write (.uint32 v)

/-- Modelled from the spec: `SaveGame::writeLESint32(v)`. -/
def SaveGame.writeLESint32 (h : SaveGame) (v : Int) : Except Err SaveGame :=
  h.write (.sint32 v)

/-- Modelled from the spec: `SaveGame::writeLEUint16(v)`. -/
def SaveGame.writeLEUint16 (h : SaveGame) (v : Nat) : Except Err SaveGame :=
  h.write (.uint16 v)

/-- Modelled from the spec: `SaveGame::writeColor(c)`. -/
def SaveGame.writeColor (h : SaveGame) (c : Color) : Except Err SaveGame :=
  h.write (.color c)

/-- Modelled from the spec: `SaveGame::writeString(s)`. -/
def SaveGame.writeString (h : SaveGame) (s : String) : Except Err SaveGame :=
  h.write (.string s)

/-- Modelled from the spec: a writer appends values to the open section, in
order. -/
def SaveGame.writeFields (h : SaveGame) (fs : List Field) : Except Err SaveGame :=
  if h._saving && h._currentSection.isSome then
    .ok { h with _sectionBuffer := h._sectionBuffer ++ fs }
  else
    .error (.fatal "Tried to write a save game without starting a section")

/-- Modelled from the spec: a reader takes the next value of the open section;
without an open section it is a fatal error. -/
def SaveGame.read (h : SaveGame) : Except Err (Field × SaveGame) :=
  if h._saving || h._currentSection.isNone then
    .error (.fatal "Tried to read a save game without starting a section")
  else
    match h._sectionBuffer with
    | [] => .error (.badStream "read past the end of the section")
    | f :: rest => .ok (f, { h with _sectionBuffer := rest })

/-- Modelled from the spec: `SaveGame::readLEUint32()`. -/
def SaveGame.readLEUint32 (h : SaveGame) : Except Err (Nat × SaveGame) :=
  match h.read with
  | .ok (.uint32 v, h1) => .ok (v, h1)
  | .ok _ => .error (.badStream "uint32 expected")
  | .error e => .error e

/-- Modelled from the spec: `SaveGame::readLESint32()`. -/
def SaveGame.readLESint32 (h : SaveGame) : Except Err (Int × SaveGame) :=
  match h.read with
  | .ok (.sint32 v, h1) => .ok (v, h1)
  | .ok _ => .error (.badStream "sint32 expected")
  | .error e => .error e

/-- Modelled from the spec: `SaveGame::readColor()`. -/
def SaveGame.readColor (h : SaveGame) : Except Err (Color × SaveGame) :=
  match h.read with
  | .ok (.color c, h1) => .ok (c, h1)
  | .ok _ => .error (.badStream "color expected")
  | .error e => .error e

/-- Modelled from the spec: `SaveGame::readString()`. -/
def SaveGame.readString (h : SaveGame) : Except Err (String × SaveGame) :=
  match h.read with
  | .ok (.string s, h1) => .ok (s, h1)
  | .ok _ => .error (.badStream "string expected")
  | .error e => .error e

/-- Modelled from the spec: the accessor `SaveGame::saveMinorVersion()`. -/
def SaveGame.saveMinorVersion (h : SaveGame) : Nat :=
  h._minorVersion

/-! ## Save records of the pools -/

/-- Modelled from the spec: the save record of an entity the engine core never
inspects, after its identity: the number of its scalar fields, then the fields. -/
def PoolObject.saveState (o : PoolObject) : List Field :=
  Field.uint32 o.state.length :: o.state.map Field.sint32

/-- Modelled from the spec: reads `n` signed scalars of a save record. -/
def readInts : Nat → List Field → Option (List Int × List Field)
  | 0, fs => some ([], fs)
  | n + 1, Field.sint32 v :: fs =>
    match readInts n fs with
    | some (vs, rest) => some (v :: vs, rest)
    | none => none
  | _ + 1, _ => none

/-- Modelled from the spec: the entity with identity `id` rebuilt from its save
record, and the rest of the stream. -/
def PoolObject.restoreState (id : Int) (fs : List Field) : Option (PoolObject × List Field) :=
  match fs with
  | Field.uint32 n :: rest =>
    match readInts n rest with
    | some (vs, rest1) => some (⟨id, vs⟩, rest1)
    | none => none
  | _ => none

/-- Modelled from the spec: the save record of an actor, after its identity. -/
def Actor.saveState (a : Actor) : List Field :=
  [ Field.string a._setName, Field.bool a._inOverworld, Field.bool a._visible,
    Field.bool a._walking, Field.uint32 a._cleanBuffer, Field.sint32 a._sortOrder ]

/-- Modelled from the spec: the actor with identity `id` rebuilt from its save
record, and the rest of the stream. -/
def Actor.restoreState (id : Int) (fs : List Field) : Option (Actor × List Field) :=
  match fs with
  | Field.string setName :: Field.bool inOverworld :: Field.bool visible ::
      Field.bool walking :: Field.uint32 cleanBuffer :: Field.sint32 sortOrder :: rest =>
    some ({ id := id, _setName := setName, _inOverworld := inOverworld, _visible := visible,
            _walking := walking, _cleanBuffer := cleanBuffer, _sortOrder := sortOrder }, rest)
  | _ => none

/-- Modelled from the spec: reads the `n` setup names of the save record of a
Set. -/
def readSetups : Nat → List Field → Option (List Setup × List Field)
  | 0, fs => some ([], fs)
  | n + 1, Field.string name :: fs =>
    match readSetups n fs with
    | some (ss, rest) => some (⟨name⟩ :: ss, rest)
    | none => none
  | _ + 1, _ => none

/-- Modelled from the spec: the save record of a Set, after its identity. -/
def Set.saveState (s : Set) : List Field :=
  [ Field.string s._name, Field.bool s._locked, Field.uint32 s._setups.length ] ++
    s._setups.map (fun p => Field.string p._name) ++
    [ Field.uint32 s._currSetup, Field.sint32 s._minVolume, Field.sint32 s._maxVolume ]

/-- Modelled from the spec: the Set with identity `id` rebuilt from its save
record, and the rest of the stream. -/
def Set.restoreState (id : Int) (fs : List Field) : Option (Set × List Field) :=
  match fs with
  | Field.string name :: Field.bool locked :: Field.uint32 n :: rest =>
    match readSetups n rest with
    | some (setups, Field.uint32 currSetup :: Field.sint32 minVolume ::
        Field.sint32 maxVolume :: rest1) =>
      some ({ id := id, _name := name, _locked := locked, _setups := setups,
              _currSetup := currSetup, _minVolume := minVolume, _maxVolume := maxVolume },
            rest1)
    | _ => none
  | _ => none

/-- Modelled from the spec: the records of a pool, in iteration order: for
every entity its identity,
then its save record. -/
def encodeRecords {α : Type} (ident : α → Int) (saveState : α → List Field) :
    List α → List Field
  | [] => []
  | o :: rest =>
    Field.sint32 (ident o) :: (saveState o ++ encodeRecords ident saveState rest)

/-- Modelled from the spec: the payload `Pool::saveObjects` writes: the number
of live entities, then their records. -/
def encodePool {α : Type} (ident : α → Int) (saveState : α → List Field)
    (pool : List α) : List Field :=
  Field.uint32 pool.length :: encodeRecords ident saveState pool

/-- Modelled from the spec: reads `n` records, each an identity followed by a
save record. -/
def decodeRecords {α : Type} (restoreState : Int → List Field → Option (α × List Field)) :
    Nat → List Field → Option (List α)
  | 0, _ => some []
  | n + 1, Field.sint32 id :: fs =>
    match restoreState id fs with
    | some (o, rest) =>
      match decodeRecords restoreState n rest with
      | some os => some (o :: os)
      | none => none
    | none => none
  | _ + 1, _ => none

/-- Modelled from the spec: the pool `Pool::restoreObjects` builds from a
payload: every entity of the stream with the identity the stream gives it, and
no other entity. -/
def decodePool {α : Type} (restoreState : Int → List Field → Option (α × List Field))
    (fs : List Field) : Option (List α) :=
  match fs with
  | Field.uint32 n :: rest => decodeRecords restoreState n rest
  | _ => none

/-! ## Collaborators -/

/-- Modelled from the spec: the renderer behind `g_driver` (`class GfxBase`):
the display mode it was set up with, whether it is the software renderer, the
state it persists in a save file, and the pixels `getScreenshot` would return
(none when no screenshot can be taken). -/
structure GfxBase where
  _isFullscreen : Bool
  _screenWidth : Nat
  _screenHeight : Nat
  _software : Bool
  _state : List Field
  _screenshot : Option (List Nat)
deriving DecidableEq, Repr

/-- Modelled from the spec: the movie player behind `g_movie`: what its getters
answer. -/
structure MoviePlayer where
  _isPlaying : Bool
  _movieTime : Nat
  _updateNeeded : Bool
  _frame : Int
  _x : Int
  _y : Int
deriving DecidableEq, Repr

/-- Modelled from the spec: the payload `MoviePlayer::saveState` writes. -/
def MoviePlayer.saveState (m : MoviePlayer) : List Field :=
  [ Field.bool m._isPlaying, Field.uint32 m._movieTime, Field.bool m._updateNeeded,
    Field.sint32 m._frame, Field.sint32 m._x, Field.sint32 m._y ]

/-- Modelled from the spec: the movie player `MoviePlayer::restoreState` builds
from a payload. -/
def MoviePlayer.restoreState (fs : List Field) : Option MoviePlayer :=
  match fs with
  | [Field.bool isPlaying, Field.uint32 movieTime, Field.bool updateNeeded,
      Field.sint32 frame, Field.sint32 x, Field.sint32 y] =>
    some { _isPlaying := isPlaying, _movieTime := movieTime, _updateNeeded := updateNeeded,
           _frame := frame, _x := x, _y := y }
  | _ => none

/-- Modelled from the spec: the script engine behind `LuaBase::instance()`:
the names of the handlers the scripts have installed and the state it persists
in a save file. -/
structure LuaBase where
  _handlers : List String
  _state : List Field
deriving DecidableEq, Repr

/-- Modelled from the spec: a save file, the version it was written with and
its sections. -/
structure SaveFile where
  majorVersion : Nat
  minorVersion : Nat
  sections : List Section
deriving DecidableEq, Repr

/-- Modelled from the spec: the save-file manager behind
`SaveGame::openForSaving` and `SaveGame::openForLoading`: the files that exist,
by name, and whether a stream can be opened for writing. -/
structure SaveFiles where
  _writable : Bool
  _files : List (String × SaveFile)
deriving DecidableEq, Repr

/-- Modelled from the spec: the stages of `Set::drawBitmaps`
(`ObjectState::Position`, declared in `objectstate.h`). -/
inductive ObjectStatePosition where
  | OBJSTATE_BACKGROUND
  | OBJSTATE_UNDERLAY
  | OBJSTATE_OVERLAY
  | OBJSTATE_STATE
deriving DecidableEq, Repr

open ObjectStatePosition

/-- A call to a collaborator, as recorded in the log of the engine. -/
inductive Ev where
  | imuseStopAllSounds
  | imuseResetState
  | imusePause (p : Bool)
  | imuseFlushTracks
  | imuseRefreshScripts
  | movieStop
  | moviePause (p : Bool)
  | movieClearUpdateNeeded
  | registrySave
  | mixerSetVolumes
  | displayErrorDialog (msg : String)
  | luaCallback (name : String) (args : List Int)
  | luaPostRestoreHandle
  | clearEventQueue
  | beginSection (tag : SectionTag)
  | openForSaving (filename : String)
  | openForLoading (filename : String)
  | closeSaveGame (filename : String)
  | setFeatureFullscreen (fullscreen : Bool)
  | confSetFullscreen (fullscreen : Bool)
  | deleteDriver
  | createRenderer (software : Bool)
  | setupScreen (w h : Nat) (fullscreen : Bool)
  | clearScreen
  | drawBuffers
  | flipBuffer
  | storeDisplay
  | dimScreen
  | refreshBuffers
  | set3DMode
  | getScreenshot (w h : Nat)
  | prepareMovieFrame
  | drawMovieFrame (x y : Int)
  | releaseMovieFrame
  | drawEmergString
  | irisDraw
  | setDrawBackground (set : Int)
  | setDrawBitmaps (set : Int) (stage : ObjectStatePosition)
  | setSetupCamera (set : Int)
  | primitiveDraw (id : Int)
  | textObjectDraw (id : Int)
  | actorDraw (id : Int)
  | actorRestoreCleanBuffer (id : Int)
  | poolSoundStop (id : Int)
  | deleteSet (id : Int)
  | deletePools
  | luaUpdate (frameTime movieTime : Nat)
  | actorUpdateTalk (id : Int) (frameTime : Nat)
  | actorUpdate (id : Int) (frameTime : Nat)
  | irisUpdate (frameTime : Nat)
  | textObjectUpdate (id : Int)
  | setMusicState (state : Int)
  | delayMillis (ms : Nat)
  | debuggerOnFrame
  | handleChars (keycode ascii : Nat)
  | handleControls (keydown : Bool) (keycode : Nat)
  | confSetInt (key : String) (value : Int)
deriving Repr

/-- An argument of a logged call. -/
inductive EvArg where
  | b (v : Bool)
  | n (v : Nat)
  | i (v : Int)
  | s (v : String)
  | l (v : List Int)
  | t (v : SectionTag)
  | p (v : ObjectStatePosition)
deriving DecidableEq, Repr

/-- The number of a logged call in the order of declaration, with its
arguments. -/
def Ev.toSig : Ev → Nat × List EvArg
  | .imuseStopAllSounds => (0, [])
  | .imuseResetState => (1, [])
  | .imusePause p => (2, [EvArg.b p])
  | .imuseFlushTracks => (3, [])
  | .imuseRefreshScripts => (4, [])
  | .movieStop => (5, [])
  | .moviePause p => (6, [EvArg.b p])
  | .movieClearUpdateNeeded => (7, [])
  | .registrySave => (8, [])
  | .mixerSetVolumes => (9, [])
  | .displayErrorDialog msg => (10, [EvArg.s msg])
  | .luaCallback name args => (11, [EvArg.s name, EvArg.l args])
  | .luaPostRestoreHandle => (12, [])
  | .clearEventQueue => (13, [])
  | .beginSection tag => (14, [EvArg.t tag])
  | .openForSaving filename => (15, [EvArg.s filename])
  | .openForLoading filename => (16, [EvArg.s filename])
  | .closeSaveGame filename => (17, [EvArg.s filename])
  | .setFeatureFullscreen fullscreen => (18, [EvArg.b fullscreen])
  | .confSetFullscreen fullscreen => (19, [EvArg.b fullscreen])
  | .deleteDriver => (20, [])
  | .createRenderer software => (21, [EvArg.b software])
  | .setupScreen w h fullscreen => (22, [EvArg.n w, EvArg.n h, EvArg.b fullscreen])
  | .clearScreen => (23, [])
  | .drawBuffers => (24, [])
  | .flipBuffer => (25, [])
  | .storeDisplay => (26, [])
  | .dimScreen => (27, [])
  | .refreshBuffers => (28, [])
  | .set3DMode => (29, [])
  | .getScreenshot w h => (30, [EvArg.n w, EvArg.n h])
  | .prepareMovieFrame => (31, [])
  | .drawMovieFrame x y => (32, [EvArg.i x, EvArg.i y])
  | .releaseMovieFrame => (33, [])
  | .drawEmergString => (34, [])
  | .irisDraw => (35, [])
  | .setDrawBackground set => (36, [EvArg.i set])
  | .setDrawBitmaps set stage => (37, [EvArg.i set, EvArg.p stage])
  | .setSetupCamera set => (38, [EvArg.i set])
  | .primitiveDraw id => (39, [EvArg.i id])
  | .textObjectDraw id => (40, [EvArg.i id])
  | .actorDraw id => (41, [EvArg.i id])
  | .actorRestoreCleanBuffer id => (42, [EvArg.i id])
  | .poolSoundStop id => (43, [EvArg.i id])
  | .deleteSet id => (44, [EvArg.i id])
  | .deletePools => (45, [])
  | .luaUpdate frameTime movieTime => (46, [EvArg.n frameTime, EvArg.n movieTime])
  | .actorUpdateTalk id frameTime => (47, [EvArg.i id, EvArg.n frameTime])
  | .actorUpdate id frameTime => (48, [EvArg.i id, EvArg.n frameTime])
  | .irisUpdate frameTime => (49, [EvArg.n frameTime])
  | .textObjectUpdate id => (50, [EvArg.i id])
  | .setMusicState state => (51, [EvArg.i state])
  | .delayMillis ms => (52, [EvArg.n ms])
  | .debuggerOnFrame => (53, [])
  | .handleChars keycode ascii => (54, [EvArg.n keycode, EvArg.n ascii])
  | .handleControls keydown keycode => (55, [EvArg.b keydown, EvArg.n keycode])
  | .confSetInt key value => (56, [EvArg.s key, EvArg.i value])

/-- The logged call with a given number and arguments. -/
def Ev.ofSig : Nat × List EvArg → Option Ev
  | (0, []) => some Ev.imuseStopAllSounds
  | (1, []) => some Ev.imuseResetState
  | (2, [EvArg.b p]) => some (Ev.imusePause p)
  | (3, []) => some Ev.imuseFlushTracks
  | (4, []) => some Ev.imuseRefreshScripts
  | (5, []) => some Ev.movieStop
  | (6, [EvArg.b p]) => some (Ev.moviePause p)
  | (7, []) => some Ev.movieClearUpdateNeeded
  | (8, []) => some Ev.registrySave
  | (9, []) => some Ev.mixerSetVolumes
  | (10, [EvArg.s msg]) => some (Ev.displayErrorDialog msg)
  | (11, [EvArg.s name, EvArg.l args]) => some (Ev.luaCallback name args)
  | (12, []) => some Ev.luaPostRestoreHandle
  | (13, []) => some Ev.clearEventQueue
  | (14, [EvArg.t tag]) => some (Ev.beginSection tag)
  | (15, [EvArg.s filename]) => some (Ev.openForSaving filename)
  | (16, [EvArg.s filename]) => some (Ev.openForLoading filename)
  | (17, [EvArg.s filename]) => some (Ev.closeSaveGame filename)
  | (18, [EvArg.b fullscreen]) => some (Ev.setFeatureFullscreen fullscreen)
  | (19, [EvArg.b fullscreen]) => some (Ev.confSetFullscreen fullscreen)
  | (20, []) => some Ev.deleteDriver
  | (21, [EvArg.b software]) => some (Ev.createRenderer software)
  | (22, [EvArg.n w, EvArg.n h, EvArg.b fullscreen]) => some (Ev.setupScreen w h fullscreen)
  | (23, []) => some Ev.clearScreen
  | (24, []) => some Ev.drawBuffers
  | (25, []) => some Ev.flipBuffer
  | (26, []) => some Ev.storeDisplay
  | (27, []) => some Ev.dimScreen
  | (28, []) => some Ev.refreshBuffers
  | (29, []) => some Ev.set3DMode
  | (30, [EvArg.n w, EvArg.n h]) => some (Ev.getScreenshot w h)
  | (31, []) => some Ev.prepareMovieFrame
  | (32, [EvArg.i x, EvArg.i y]) => some (Ev.drawMovieFrame x y)
  | (33, []) => some Ev.releaseMovieFrame
  | (34, []) => some Ev.drawEmergString
  | (35, []) => some Ev.irisDraw
  | (36, [EvArg.i set]) => some (Ev.setDrawBackground set)
  | (37, [EvArg.i set, EvArg.p stage]) => some (Ev.setDrawBitmaps set stage)
  | (38, [EvArg.i set]) => some (Ev.setSetupCamera set)
  | (39, [EvArg.i id]) => some (Ev.primitiveDraw id)
  | (40, [EvArg.i id]) => some (Ev.textObjectDraw id)
  | (41, [EvArg.i id]) => some (Ev.actorDraw id)
  | (42, [EvArg.i id]) => some (Ev.actorRestoreCleanBuffer id)
  | (43, [EvArg.i id]) => some (Ev.poolSoundStop id)
  | (44, [EvArg.i id]) => some (Ev.deleteSet id)
  | (45, []) => some Ev.deletePools
  | (46, [EvArg.n frameTime, EvArg.n movieTime]) => some (Ev.luaUpdate frameTime movieTime)
  | (47, [EvArg.i id, EvArg.n frameTime]) => some (Ev.actorUpdateTalk id frameTime)
  | (48, [EvArg.i id, EvArg.n frameTime]) => some (Ev.actorUpdate id frameTime)
  | (49, [EvArg.n frameTime]) => some (Ev.irisUpdate frameTime)
  | (50, [EvArg.i id]) => some (Ev.textObjectUpdate id)
  | (51, [EvArg.i state]) => some (Ev.setMusicState state)
  | (52, [EvArg.n ms]) => some (Ev.delayMillis ms)
  | (53, []) => some Ev.debuggerOnFrame
  | (54, [EvArg.n keycode, EvArg.n ascii]) => some (Ev.handleChars keycode ascii)
  | (55, [EvArg.b keydown, EvArg.n keycode]) => some (Ev.handleControls keydown keycode)
  | (56, [EvArg.s key, EvArg.i value]) => some (Ev.confSetInt key value)
  | _ => none

/-- Equality of logged calls is decided on their numbers and arguments. -/
instance : DecidableEq Ev := fun a b =>
  decidable_of_iff (a.toSig = b.toSig)
    ⟨fun h => by
      have ha : Ev.ofSig a.toSig = some a := by cases a <;> rfl
      have hb : Ev.ofSig b.toSig = some b := by cases b <;> rfl
      rw [h, hb] at ha
      exact (Option.some.inj ha).symm,
     fun h => by rw [h]⟩

/-! ## The engine -/

/-- The state of `GrimEngine` together with the pools and the collaborators it
drives. Member names are those of the source. -/
structure GrimEngine where
  _gameType : GrimGameType
  _gamePlatform : Platform
  _mode : EngineMode
  _previousMode : EngineMode
  _currSet : Option Int
  _selectedActor : Option Int
  _movieSubtitle : Option Int
  _movieSetup : String
  _sayLineDefaults : TextObjectDefaults
  _buildActiveActorsList : Bool
  _activeActors : List Int
  _talkingActors : List Int
  _setupChanged : Bool
  _shortFrame : Bool
  _savegameLoadRequest : Bool
  _savegameSaveRequest : Bool
  _changeHardwareState : Bool
  _changeFullscreenState : Bool
  _savegameFileName : String
  _savedState : Option SaveGame
  _doFlip : Bool
  _flipEnable : Bool
  _showFps : Bool
  _softRenderer : Bool
  _refreshShadowMask : Bool
  _prevSmushFrame : Int
  _movieTime : Nat
  _frameTime : Nat
  _frameStart : Nat
  _pauseStartTime : Nat
  _frameCounter : Nat
  _lastFrameTime : Nat
  _speedLimitMs : Nat
  _textSpeed : Int
  /-- The array `_controlsState`: one flag for every control. -/
  _controlsState : List Bool
  /-- The build constant `SaveGame::SAVEGAME_MAJOR_VERSION`. -/
  SAVEGAME_MAJOR_VERSION : Nat
  /-- The build constant `SaveGame::SAVEGAME_MINOR_VERSION`. -/
  SAVEGAME_MINOR_VERSION : Nat
  /-- Whether the build defines `USE_OPENGL`. -/
  USE_OPENGL : Bool
  /-- The configuration key `soft_renderer`. -/
  conf_soft_renderer : Bool
  /-- Whether the backend has `OSystem::kFeatureOpenGL`. -/
  featureOpenGL : Bool
  Bitmap_pool : List PoolObject
  Font_pool : List PoolObject
  ObjectState_pool : List PoolObject
  Set_pool : List Set
  TextObject_pool : List PoolObject
  PrimitiveObject_pool : List PoolObject
  Actor_pool : List Actor
  PoolSound_pool : List PoolObject
  Layer_pool : List PoolObject
  g_driver : GfxBase
  g_movie : MoviePlayer
  /-- The state `g_sound` persists in a save file. -/
  g_sound : List Field
  /-- The state `_iris` persists in a save file. -/
  _iris : List Field
  g_lua : LuaBase
  /-- The global `g_imuseState`: the music state asked for, or -1. -/
  g_imuseState : Int
  g_saveFiles : SaveFiles
  log : List Ev
deriving DecidableEq, Repr

/-- The getter `getGameType()`. -/
def GrimEngine.getGameType (st : GrimEngine) : GrimGameType :=
  st._gameType

/-- The getter `getMode()`. -/
def GrimEngine.getMode (st : GrimEngine) : EngineMode :=
  st._mode

/-- Appends a collaborator call to the log. -/
def GrimEngine.emit (st : GrimEngine) (e : Ev) : GrimEngine :=
  { st with log := st.log ++ [e] }

/-- Appends collaborator calls to the log, in order. -/
def GrimEngine.emits (st : GrimEngine) (es : List Ev) : GrimEngine :=
  { st with log := st.log ++ es }

/-- The Set that `_currSet` points to, when it points to a live one. -/
def GrimEngine.currSet (st : GrimEngine) : Option Set :=
  st._currSet.bind (getObject Set.id st.Set_pool)

/-- The dereference of `_currSet`. -/
def GrimEngine.derefCurrSet (st : GrimEngine) : Except Err Set :=
  match st.currSet with
  | some s => .ok s
  | none => .error (.nullDeref "_currSet")

/-- The dereference of `_savedState`. -/
def GrimEngine.derefSavedState (st : GrimEngine) : Except Err SaveGame :=
  match st._savedState with
  | some h => .ok h
  | none => .error (.nullDeref "_savedState")

/-- Modelled from the spec: the identity read through a pointer into a pool,
`p->getId()`: the pointer must be non-null and name a live entity. -/
def derefId {α : Type} (ident : α → Int) (pool : List α) (what : String)
    (p : Option Int) : Except Err Int :=
  match p.bind (getObject ident pool) with
  | some o => .ok (ident o)
  | none => .error (.nullDeref what)

/-- Modelled from the spec: the pointer answered by
`T::getPool().getObject(id)`, null when no live entity has the identity. -/
def getObjectPtr {α : Type} (ident : α → Int) (pool : List α) (id : Int) : Option Int :=
  (getObject ident pool id).map ident

/-- Modelled from the spec: the call `LuaBase::instance()->callback(name,
args)`: the call is logged, and the answer is whether a handler of that name
exists. -/
def luaCallback (st : GrimEngine) (name : String) (args : List Int) : GrimEngine × Bool :=
  (st.emit (Ev.luaCallback name args), decide (name ∈ st.g_lua._handlers))

/-! ## Mode controller and active-actor cache -/

/-- The function `GrimEngine::invalidateActiveActorsList()`. -/
def invalidateActiveActorsList (st : GrimEngine) : GrimEngine :=
  { st with _buildActiveActorsList := true }

/-- The function `GrimEngine::setMode(mode)`. -/
def setMode (st : GrimEngine) (mode : EngineMode) : GrimEngine :=
  invalidateActiveActorsList { st with _mode := mode }

/-- The condition under which `buildActiveActorsList` keeps an actor. -/
def isActiveActor (mode : EngineMode) (setName : String) (a : Actor) : Bool :=
  ((mode == NormalMode || mode == DrawMode) && a.isInSet setName) || a.isInOverworld

/-- The function `GrimEngine::buildActiveActorsList()`. The name of the current
Set is read inside the loop, under the mode test, so a missing current Set is
dereferenced only when the mode is Normal or Draw and the pool is not empty. -/
def buildActiveActorsList (st : GrimEngine) : Except Err GrimEngine :=
  if !st._buildActiveActorsList then
    .ok st
  else if (st._mode == NormalMode || st._mode == DrawMode) && !st.Actor_pool.isEmpty then
    match st.currSet with
    | none => .error (.nullDeref "_currSet")
    | some s =>
      .ok { st with
        _activeActors := (st.Actor_pool.filter (isActiveActor st._mode s._name)).map Actor.id,
        _buildActiveActorsList := false }
  else
    .ok { st with
      _activeActors := (st.Actor_pool.filter (fun a => a.isInOverworld)).map Actor.id,
      _buildActiveActorsList := false }

/-! ## Scene manager -/

/-- The function `GrimEngine::clearPools()`. -/
def clearPools (st : GrimEngine) : GrimEngine :=
  { st with
    Set_pool := [],
    Actor_pool := [],
    PrimitiveObject_pool := [],
    TextObject_pool := [],
    Bitmap_pool := [],
    Font_pool := [],
    ObjectState_pool := [],
    _currSet := none,
    log := st.log ++ [Ev.deletePools] }

/-- The function `GrimEngine::setSet(Set *scene)`. In the order of the source:
the pooled sounds are stopped (EMI only), every actor is stopped, loses its
clean buffer and gets sort order 0, the render buffers are refreshed, `_currSet`
becomes `scene` and gets its sound parameters, the previous Set is deleted
unless it is locked, and the flags are set. -/
def setSet (st : GrimEngine) (scene : Option Int) : Except Err GrimEngine :=
  if scene = st._currSet then
    .ok st
  else
    let stops : List Ev :=
      if st.getGameType = GType_MONKEY4 then
        st.PoolSound_pool.map (fun s => Ev.poolSoundStop s.id)
      else []
    let actors : List Actor :=
      st.Actor_pool.map (fun a => ((a.stopWalking).clearCleanBuffer).setSortOrder 0)
    let lastSet : Option Set := st.currSet
    match scene.bind (getObject Set.id st.Set_pool) with
    | none => .error (.nullDeref "_currSet")
    | some cur =>
      let sets : List Set :=
        st.Set_pool.map (fun s => if s.id = cur.id then s.setSoundParameters 20 127 else s)
      let deleted : Option Int :=
        match lastSet with
        | some last => if !last._locked then some last.id else none
        | none => none
      .ok (invalidateActiveActorsList { st with
        Actor_pool := actors,
        _currSet := scene,
        Set_pool :=
          match deleted with
          | some id => deleteObject Set.id sets id
          | none => sets,
        _shortFrame := true,
        _setupChanged := true,
        log := st.log ++
          (stops ++ [Ev.refreshBuffers] ++
            (match deleted with
             | some id => [Ev.deleteSet id]
             | none => [])) })

/-! ## Drawing -/

/-- The function `GrimEngine::cameraPostChangeHandle(num)`; the answer of the
callback is not looked at. -/
def cameraPostChangeHandle (st : GrimEngine) (num : Int) : GrimEngine :=
  (luaCallback st "postCamChangeHandler" [num]).1

/-- The calls made by `GrimEngine::drawTextObjects()`. -/
def drawTextObjects (st : GrimEngine) : List Ev :=
  st.TextObject_pool.map (fun t => Ev.textObjectDraw t.id)

/-- The function `GrimEngine::drawPrimitives()`. -/
def drawPrimitives (st : GrimEngine) : GrimEngine :=
  st.emits (Ev.irisDraw ::
    (if st._mode = SmushMode then
      match st._movieSubtitle with
      | some t => [Ev.textObjectDraw t]
      | none => []
    else drawTextObjects st))

/-- The calls that bring the pending movie frame to the renderer: the frame is
prepared when the player asks for an update. -/
def movieUpdateCalls (m : MoviePlayer) : List Ev :=
  if m._updateNeeded then [Ev.prepareMovieFrame, Ev.movieClearUpdateNeeded] else []

/-- The function `GrimEngine::updateDrawMode()`. -/
def updateDrawMode (st : GrimEngine) : GrimEngine :=
  { st with _doFlip := false, _prevSmushFrame := 0, _movieTime := 0 }

/-- The first part of `GrimEngine::drawNormalMode()`, up to
`g_driver->set3DMode()`: the background, the background and state bitmaps, the
movie frame when a movie plays in the current setup, the underlay bitmaps, the
primitives and the camera. -/
def drawSceneLayers (st : GrimEngine) (set : Set) : GrimEngine :=
  let m := st.g_movie
  let movieHere : Bool := m._isPlaying && st._movieSetup == set.getCurrSetup._name
  { st with
    _prevSmushFrame := 0,
    _movieTime := if movieHere then m._movieTime else 0,
    g_movie := if movieHere then { m with _updateNeeded := false } else m,
    log := st.log ++
      ([Ev.setDrawBackground set.id,
        Ev.setDrawBitmaps set.id OBJSTATE_BACKGROUND,
        Ev.setDrawBitmaps set.id OBJSTATE_STATE] ++
       (if movieHere then
          movieUpdateCalls m ++
            (if m._frame ≥ 0 then [Ev.drawMovieFrame m._x m._y] else [Ev.releaseMovieFrame])
        else []) ++
       [Ev.setDrawBitmaps set.id OBJSTATE_UNDERLAY] ++
       st.PrimitiveObject_pool.map (fun p => Ev.primitiveDraw p.id) ++
       [Ev.setSetupCamera set.id, Ev.set3DMode]) }

/-- The test of `_setupChanged` in `GrimEngine::drawNormalMode()`: the
post-camera-change callback is raised with the index of the current setup and
the flag is cleared. -/
def notifySetupChanged (st : GrimEngine) (set : Set) : GrimEngine :=
  if st._setupChanged then
    { cameraPostChangeHandle st set._currSetup with _setupChanged := false }
  else st

/-- The last part of `GrimEngine::drawNormalMode()`, after the active-actor
list is built: the visible active actors are drawn, the shadow-mask flag is
cleared and the overlay bitmaps are drawn. A pointer of the list that names no
live actor draws nothing. -/
def drawActiveActors (st : GrimEngine) (set : Set) : GrimEngine :=
  { st with
    _refreshShadowMask := false,
    log := st.log ++
      (st._activeActors.filterMap (fun id =>
        match getObject Actor.id st.Actor_pool id with
        | some a => if a._visible then some (Ev.actorDraw id) else none
        | none => none) ++
       [Ev.setDrawBitmaps set.id OBJSTATE_OVERLAY]) }

/-- The function `GrimEngine::drawNormalMode()`. -/
def drawNormalMode (st : GrimEngine) : Except Err GrimEngine := do
  let set ← st.derefCurrSet
  let st1 ← buildActiveActorsList (notifySetupChanged (drawSceneLayers st set) set)
  pure (drawActiveActors st1 set)

/-- The function `GrimEngine::updateNormalMode()`. -/
def updateNormalMode (st : GrimEngine) : Except Err GrimEngine :=
  if st._currSet.isNone then
    .ok st
  else do
    let st1 ← drawNormalMode (st.emit Ev.clearScreen)
    pure (drawPrimitives (st1.emit Ev.drawBuffers))

/-- The Smush branch of `GrimEngine::updateDisplayScene()`, up to the drawing
of the primitives. -/
def updateSmushFrame (st : GrimEngine) : GrimEngine :=
  let m := st.g_movie
  if m._isPlaying then
    let st1 : GrimEngine := { st with
      _movieTime := m._movieTime,
      g_movie := { m with _updateNeeded := false } }
    if m._frame ≥ 0 then
      if m._frame ≠ st._prevSmushFrame then
        { st1 with
          _prevSmushFrame := m._frame,
          log := st.log ++
            (movieUpdateCalls m ++ [Ev.drawMovieFrame m._x m._y] ++
              (if st._showFps then [Ev.drawEmergString] else [])) }
      else
        { st1 with _doFlip := false, log := st.log ++ movieUpdateCalls m }
    else
      { st1 with log := st.log ++ (movieUpdateCalls m ++ [Ev.releaseMovieFrame]) }
  else st

/-- The function `GrimEngine::updateDisplayScene()`. -/
def updateDisplayScene (st : GrimEngine) : Except Err GrimEngine :=
  let st0 : GrimEngine := { st with _doFlip := true }
  if st0._mode = SmushMode then
    let st1 := updateSmushFrame st0
    .ok (drawPrimitives
      (st1.emits (st1.PrimitiveObject_pool.map (fun p => Ev.primitiveDraw p.id))))
  else if st0._mode = NormalMode ∨ st0._mode = OverworldMode then
    updateNormalMode st0
  else if st0._mode = DrawMode then
    .ok (updateDrawMode st0)
  else
    .ok st0

/-! ## Save streams of the engine -/

/-- Modelled from the spec: the function `Common::lastPathComponent(path,
sep)`: the part of the path after its last separator, separators at the end of
the path aside. -/
def lastPathComponent (path : String) (sep : Char) : String :=
  String.mk
    (((path.toList.reverse.dropWhile (fun c => c == sep)).takeWhile
      (fun c => c != sep)).reverse)

/-- The name of the file `savegameRestore` opens: `grim.sav` when no name was
requested. -/
def GrimEngine.loadFileName (st : GrimEngine) : String :=
  if st._savegameFileName.length = 0 then "grim.sav" else st._savegameFileName

/-- The name of the file `savegameSave` opens: `grim.sav` when no name was
requested; in EMI only the last component of a path. -/
def GrimEngine.saveFileName (st : GrimEngine) : String :=
  let filename := if st._savegameFileName.length = 0 then "grim.sav" else st._savegameFileName
  if st.getGameType = GType_MONKEY4 ∧ filename.toList.contains '/' then
    lastPathComponent filename '/'
  else filename

/-- Modelled from the spec: `SaveGame::openForSaving(filename)`: a fresh
stream of the version of the build, or null when no stream can be opened. -/
def openForSaving (st : GrimEngine) (filename : String) : Option SaveGame :=
  if st.g_saveFiles._writable then
    some { _saving := true, _filename := filename,
           _majorVersion := st.SAVEGAME_MAJOR_VERSION,
           _minorVersion := st.SAVEGAME_MINOR_VERSION,
           _sections := [], _currentSection := none, _sectionBuffer := [] }
  else none

/-- Modelled from the spec: `SaveGame::openForLoading(filename)`: a stream over
the sections of the file, with the version the file declares, or null when
there is no such file. -/
def openForLoading (st : GrimEngine) (filename : String) : Option SaveGame :=
  match st.g_saveFiles._files.find? (fun f => f.1 == filename) with
  | some f =>
    some { _saving := false, _filename := filename,
           _majorVersion := f.2.majorVersion,
           _minorVersion := f.2.minorVersion,
           _sections := f.2.sections, _currentSection := none, _sectionBuffer := [] }
  | none => none

/-- Modelled from the spec: `SaveGame::isCompatible()`: the stream declares the
major version of the build. -/
def isCompatible (st : GrimEngine) (h : SaveGame) : Bool :=
  h._majorVersion == st.SAVEGAME_MAJOR_VERSION

/-- Modelled from the spec: the statement `delete _savedState` (the destructor
of `SaveGame`): the stream is closed; what a writer wrote becomes the file of
that name. -/
def closeSaveGame (st : GrimEngine) : GrimEngine :=
  match st._savedState with
  | none => st
  | some h =>
    { st with
      _savedState := none,
      g_saveFiles :=
        if h._saving then
          { st.g_saveFiles with
            _files := (h._filename, ⟨h._majorVersion, h._minorVersion, h._sections⟩) ::
              st.g_saveFiles._files.filter (fun f => f.1 != h._filename) }
        else st.g_saveFiles,
      log := st.log ++ [Ev.closeSaveGame h._filename] }

/-- Modelled from the spec: a collaborator or a pool writes one section to
`_savedState` (`saveState(_savedState)`, `Pool::saveObjects`): it opens the
section, writes its payload and closes the section. -/
def writeSection (st : GrimEngine) (tag : SectionTag) (fs : List Field) :
    Except Err GrimEngine := do
  let h ← st.derefSavedState
  let h ← h.beginSection tag
  let h ← h.writeFields fs
  let h ← h.endSection
  pure { st with _savedState := some h, log := st.log ++ [Ev.beginSection tag] }

/-- Modelled from the spec: a collaborator or a pool reads its section from
`_savedState` (`restoreState(_savedState)`, `Pool::restoreObjects`): it opens
the section, takes its payload and closes the section. -/
def readSection (st : GrimEngine) (tag : SectionTag) :
    Except Err (List Field × GrimEngine) := do
  let h ← st.derefSavedState
  let h ← h.beginSection tag
  let fs := h._sectionBuffer
  let h ← h.endSection
  pure (fs, { st with _savedState := some h, log := st.log ++ [Ev.beginSection tag] })

/-- Modelled from the spec: the payload of a pool read back with
`Pool::restoreObjects`; a payload that is not a sequence of records is a
corrupt stream. -/
def restoreObjects {α : Type} (restoreState : Int → List Field → Option (α × List Field))
    (st : GrimEngine) (k : PoolKind) : Except Err (List α × GrimEngine) := do
  let (fs, st1) ← readSection st (SectionTag.pool k)
  (match decodePool restoreState fs with
   | some pool => pure (pool, st1)
   | none => throw (Err.badStream "pool records"))

/-! ## The engine section of the save file -/

/-- The function `GrimEngine::saveGRIM()`. -/
def saveGRIM (st : GrimEngine) : Except Err GrimEngine := do
  let h ← st.derefSavedState
  let h ← h.beginSection SectionTag.GRIM
  let h ← h.writeLEUint32 st._mode.raw
  let h ← h.writeLEUint32 st._previousMode.raw
  -- Actor stuff
  let h ←
    (match st._selectedActor with
     | some a =>
       derefId Actor.id st.Actor_pool "_selectedActor" (some a) >>= h.writeLESint32
     | none => h.writeLESint32 0)
  -- TextObject stuff
  let h ← h.writeColor st._sayLineDefaults._fgColor
  let fontId ← derefId PoolObject.id st.Font_pool "_sayLineDefaults.getFont()"
    st._sayLineDefaults._font
  let h ← h.writeLESint32 fontId
  let h ← h.writeLESint32 st._sayLineDefaults._height
  let h ← h.writeLESint32 st._sayLineDefaults._justify
  let h ← h.writeLESint32 st._sayLineDefaults._width
  let h ← h.writeLESint32 st._sayLineDefaults._x
  let h ← h.writeLESint32 st._sayLineDefaults._y
  let h ← h.writeLESint32 st._sayLineDefaults._duration
  let subtitleId ←
    (match st._movieSubtitle with
     | some t => derefId PoolObject.id st.TextObject_pool "_movieSubtitle" (some t)
     | none => pure 0)
  let h ← h.writeLESint32 subtitleId
  -- Set stuff
  let setId ← derefId Set.id st.Set_pool "_currSet" st._currSet
  let h ← h.writeLESint32 setId
  let h ← h.writeString st._movieSetup
  let h ← h.endSection
  pure { st with _savedState := some h, log := st.log ++ [Ev.beginSection SectionTag.GRIM] }

/-- The function `GrimEngine::restoreGRIM()`. -/
def restoreGRIM (st : GrimEngine) : Except Err GrimEngine := do
  let h ← st.derefSavedState
  let h ← h.beginSection SectionTag.GRIM
  let (mode, h) ← h.readLEUint32
  let (previousMode, h) ← h.readLEUint32
  -- Actor stuff
  let (id, h) ← h.readLESint32
  let selectedActor :=
    if id ≠ 0 then getObjectPtr Actor.id st.Actor_pool id else st._selectedActor
  -- TextObject stuff
  let (fgColor, h) ← h.readColor
  let (fontId, h) ← h.readLESint32
  let (height, h) ← h.readLESint32
  let (justify, h) ← h.readLESint32
  let (width, h) ← h.readLESint32
  let (x, h) ← h.readLESint32
  let (y, h) ← h.readLESint32
  let (duration, h) ← h.readLESint32
  let (movieSubtitle, h) ←
    (if h.saveMinorVersion > 5 then
      h.readLESint32 >>= fun (subtitleId, h) =>
        pure (getObjectPtr PoolObject.id st.TextObject_pool subtitleId, h)
    else
      pure (st._movieSubtitle, h))
  -- Set stuff
  let (setId, h) ← h.readLESint32
  let currSet := getObjectPtr Set.id st.Set_pool setId
  let (movieSetup, h) ←
    (if h.saveMinorVersion > 4 then
      h.readString
    else
      match getObject Set.id st.Set_pool setId with
      | some s => pure (s.getCurrSetup._name, h)
      | none => throw (Err.nullDeref "_currSet"))
  let h ← h.endSection
  pure { st with
    _mode := ⟨mode⟩,
    _previousMode := ⟨previousMode⟩,
    _selectedActor := selectedActor,
    _sayLineDefaults :=
      { _fgColor := fgColor,
        _font := getObjectPtr PoolObject.id st.Font_pool fontId,
        _height := height, _justify := justify, _width := width,
        _x := x, _y := y, _duration := duration },
    _movieSubtitle := movieSubtitle,
    _currSet := currSet,
    _movieSetup := movieSetup,
    _savedState := some h,
    log := st.log ++ [Ev.beginSection SectionTag.GRIM] }

/-! ## Saving and restoring a game -/

/-- The function `GrimEngine::clearEventQueue()`: the pending events are polled
away and every entry of `_controlsState` is cleared. -/
def clearEventQueue (st : GrimEngine) : GrimEngine :=
  { st with
    _controlsState := st._controlsState.map (fun _ => false),
    log := st.log ++ [Ev.clearEventQueue] }

/-- The function `GrimEngine::savegameCallback()`. -/
def savegameCallback (st : GrimEngine) : Except Err GrimEngine :=
  if (luaCallback st "saveGameCallback" []).2 then
    .ok (luaCallback st "saveGameCallback" []).1
  else
    .error (.fatal "GrimEngine::savegameCallback: invalid handler")

/-- The function `GrimEngine::storeSaveGameImage(state)`. -/
def storeSaveGameImage (st : GrimEngine) : Except Err GrimEngine := do
  let mode := st.getMode
  let st1 ← updateDisplayScene (setMode st st._previousMode)
  let st2 := setMode (st1.emits [Ev.storeDisplay, Ev.getScreenshot 250 188]) mode
  match st2.g_driver._screenshot with
  | some data => writeSection st2 SectionTag.SIMG (data.map Field.uint16)
  | none => .error (.fatal "Unable to store screenshot")

/-- The pool sections written by `savegameSave`, in the order of the source. -/
def savePools (st : GrimEngine) : Except Err GrimEngine := do
  let st ← writeSection st (SectionTag.pool PoolKind.Bitmap)
    (encodePool PoolObject.id PoolObject.saveState st.Bitmap_pool)
  let st ← writeSection st (SectionTag.pool PoolKind.Font)
    (encodePool PoolObject.id PoolObject.saveState st.Font_pool)
  let st ← writeSection st (SectionTag.pool PoolKind.ObjectState)
    (encodePool PoolObject.id PoolObject.saveState st.ObjectState_pool)
  let st ← writeSection st (SectionTag.pool PoolKind.Set)
    (encodePool Set.id Set.saveState st.Set_pool)
  let st ← writeSection st (SectionTag.pool PoolKind.TextObject)
    (encodePool PoolObject.id PoolObject.saveState st.TextObject_pool)
  let st ← writeSection st (SectionTag.pool PoolKind.PrimitiveObject)
    (encodePool PoolObject.id PoolObject.saveState st.PrimitiveObject_pool)
  let st ← writeSection st (SectionTag.pool PoolKind.Actor)
    (encodePool Actor.id Actor.saveState st.Actor_pool)
  (if st.getGameType = GType_MONKEY4 then
    writeSection st (SectionTag.pool PoolKind.PoolSound)
        (encodePool PoolObject.id PoolObject.saveState st.PoolSound_pool) >>= fun st =>
      writeSection st (SectionTag.pool PoolKind.Layer)
        (encodePool PoolObject.id PoolObject.saveState st.Layer_pool)
  else
    pure st)

/-- The sections written by `savegameSave` after the pools: the engine section
and the sections of the collaborators. -/
def saveSubsystems (st : GrimEngine) : Except Err GrimEngine := do
  let st ← saveGRIM st
  let st ← writeSection st SectionTag.renderer st.g_driver._state
  let st ← writeSection st SectionTag.sound st.g_sound
  let st ← writeSection st SectionTag.movie st.g_movie.saveState
  let st ← writeSection st SectionTag.iris st._iris
  writeSection st SectionTag.lua st.g_lua._state

/-- The last part of `GrimEngine::savegameSave()`: the stream is closed, sound
and movie resume, the frame is marked short and the event queue is cleared. -/
def savegameSave_finish (st : GrimEngine) : GrimEngine :=
  clearEventQueue
    { (closeSaveGame st).emits [Ev.imusePause false, Ev.moviePause false] with
      _shortFrame := true }

/-- The function `GrimEngine::savegameSave()`. -/
def savegameSave (st : GrimEngine) : Except Err GrimEngine :=
  let st0 : GrimEngine := { st with _savegameSaveRequest := false }
  let filename := st0.saveFileName
  match openForSaving st0 filename with
  | none =>
    .ok { st0 with
      _savedState := none,
      log := st0.log ++ [Ev.openForSaving filename,
        Ev.displayErrorDialog "Error: the game could not be saved."] }
  | some h => do
    let st1 ← storeSaveGameImage
      { st0 with _savedState := some h, log := st0.log ++ [Ev.openForSaving filename] }
    let st2 ← savegameCallback (st1.emits [Ev.imusePause true, Ev.moviePause true])
    let st3 ← savePools st2
    let st4 ← saveSubsystems st3
    pure (savegameSave_finish st4)

/-- The pool sections read by `savegameRestore`, in the order of the source;
each pool is replaced by what its section holds. -/
def restorePools (st : GrimEngine) : Except Err GrimEngine := do
  let (bitmaps, st) ← restoreObjects PoolObject.restoreState st PoolKind.Bitmap
  let st := { st with Bitmap_pool := bitmaps }
  let (fonts, st) ← restoreObjects PoolObject.restoreState st PoolKind.Font
  let st := { st with Font_pool := fonts }
  let (objectStates, st) ← restoreObjects PoolObject.restoreState st PoolKind.ObjectState
  let st := { st with ObjectState_pool := objectStates }
  let (sets, st) ← restoreObjects Set.restoreState st PoolKind.Set
  let st := { st with Set_pool := sets }
  let (textObjects, st) ← restoreObjects PoolObject.restoreState st PoolKind.TextObject
  let st := { st with TextObject_pool := textObjects }
  let (primitives, st) ← restoreObjects PoolObject.restoreState st PoolKind.PrimitiveObject
  let st := { st with PrimitiveObject_pool := primitives }
  let (actors, st) ← restoreObjects Actor.restoreState st PoolKind.Actor
  let st := { st with Actor_pool := actors }
  (if st.getGameType = GType_MONKEY4 then
    restoreObjects PoolObject.restoreState st PoolKind.PoolSound >>= fun (poolSounds, st) =>
      restoreObjects PoolObject.restoreState { st with PoolSound_pool := poolSounds }
        PoolKind.Layer >>= fun (layers, st) =>
          pure { st with Layer_pool := layers }
  else
    pure st)

/-- The sections read by `savegameRestore` after the pools: the engine section
and the sections of the collaborators. -/
def restoreSubsystems (st : GrimEngine) : Except Err GrimEngine := do
  let st ← restoreGRIM st
  let (driverState, st) ← readSection st SectionTag.renderer
  let st := { st with g_driver := { st.g_driver with _state := driverState } }
  let (soundState, st) ← readSection st SectionTag.sound
  let st := { st with g_sound := soundState }
  let (movieState, st) ← readSection st SectionTag.movie
  let movie ←
    (match MoviePlayer.restoreState movieState with
     | some m => pure m
     | none => throw (Err.badStream "movie state"))
  let st := { st with g_movie := movie }
  let (irisState, st) ← readSection st SectionTag.iris
  let st := { st with _iris := irisState }
  let (luaState, st) ← readSection st SectionTag.lua
  pure { st with g_lua := { st.g_lua with _state := luaState } }

/-- The first part of `GrimEngine::savegameRestore()` once the stream is open
and compatible: sound and movie are stopped and paused, the registry is saved
(Grim only), `_selectedActor` is reset and the current Set is deleted. -/
def savegameRestore_prepare (st : GrimEngine) : GrimEngine :=
  { st with
    g_movie := { st.g_movie with _isPlaying := false },
    _selectedActor := none,
    _currSet := none,
    Set_pool :=
      match st.currSet with
      | some s => deleteObject Set.id st.Set_pool s.id
      | none => st.Set_pool,
    log := st.log ++
      ([Ev.imuseStopAllSounds, Ev.imuseResetState, Ev.movieStop, Ev.imusePause true,
        Ev.moviePause true] ++
       (if st.getGameType = GType_GRIM then [Ev.registrySave] else []) ++
       (match st.currSet with
        | some s => [Ev.deleteSet s.id]
        | none => [])) }

/-- The part of `GrimEngine::savegameRestore()` between the last section and
the rebuild of the active-actor list: the stream is closed, the mixer volumes
are read again, the scripts are told, sound and movie resume, the frame is
marked short, the event queue is cleared and the list is invalidated. -/
def savegameRestore_resume (st : GrimEngine) : GrimEngine :=
  invalidateActiveActorsList (clearEventQueue
    { (closeSaveGame st).emits
        [Ev.mixerSetVolumes, Ev.luaPostRestoreHandle, Ev.imusePause false,
         Ev.moviePause false] with
      _shortFrame := true })

/-- The part of `GrimEngine::savegameRestore()` that runs once the stream is
open and compatible. -/
def savegameRestoreBody (st : GrimEngine) : Except Err GrimEngine := do
  let st1 ← restorePools (savegameRestore_prepare st)
  let st2 ← restoreSubsystems st1
  let st3 ← buildActiveActorsList (savegameRestore_resume st2)
  let set ← st3.derefCurrSet
  pure (st3.emits
    ([Ev.refreshBuffers, Ev.setSetupCamera set.id, Ev.set3DMode] ++
      st3.Actor_pool.map (fun a => Ev.actorRestoreCleanBuffer a.id)))

/-- The function `GrimEngine::savegameRestore()`. -/
def savegameRestore (st : GrimEngine) : Except Err GrimEngine :=
  let st0 : GrimEngine := { st with _savegameLoadRequest := false }
  let filename := st0.loadFileName
  let st1 : GrimEngine := { st0 with
    _savedState := openForLoading st0 filename,
    log := st0.log ++ [Ev.openForLoading filename] }
  match st1._savedState with
  | none => .ok st1
  | some h =>
    if !isCompatible st1 h then
      .ok st1
    else
      savegameRestoreBody st1

/-! ## Device reset -/

/-- The function `GrimEngine::createRenderer()`. A build without `USE_OPENGL`
keeps `_softRenderer`, which the constructor sets. -/
def createRenderer (st : GrimEngine) : GrimEngine :=
  let soft0 : Bool := if st.USE_OPENGL then st.conf_soft_renderer else st._softRenderer
  let soft : Bool := if !soft0 && !st.featureOpenGL then true else soft0
  { st with
    _softRenderer := soft,
    g_driver :=
      { _isFullscreen := false, _screenWidth := 0, _screenHeight := 0,
        _software := soft, _state := [], _screenshot := st.g_driver._screenshot },
    log := st.log ++ [Ev.createRenderer soft] }

/-- Modelled from the spec: the call `g_driver->setupScreen(screenW, screenH,
fullscreen)`. -/
def setupScreen (st : GrimEngine) (screenW screenH : Nat) (fullscreen : Bool) : GrimEngine :=
  { st with
    g_driver := { st.g_driver with
      _isFullscreen := fullscreen, _screenWidth := screenW, _screenHeight := screenH },
    log := st.log ++ [Ev.setupScreen screenW screenH fullscreen] }

/-- The device-reset step of `GrimEngine::mainLoop()`: the block run when
`_changeHardwareState` or `_changeFullscreenState` is set. -/
def mainLoop_deviceReset (st : GrimEngine) : Except Err GrimEngine :=
  if st._changeHardwareState || st._changeFullscreenState then do
    let fullscreen : Bool :=
      if st._changeFullscreenState then !st.g_driver._isFullscreen
      else st.g_driver._isFullscreen
    let screenWidth := st.g_driver._screenWidth
    let screenHeight := st.g_driver._screenHeight
    let mode := st.getMode
    let st1 ← savegameSave { st with
      _changeHardwareState := false,
      _savegameFileName := "",
      log := st.log ++ [Ev.setFeatureFullscreen fullscreen, Ev.confSetFullscreen fullscreen] }
    let st2 := setupScreen (createRenderer ((clearPools st1).emit Ev.deleteDriver))
      screenWidth screenHeight fullscreen
    let st3 ← savegameRestore st2
    let st4 ←
      (if mode = DrawMode then
        updateDisplayScene (setMode st3 NormalMode) >>= fun st =>
          pure (st.emits [Ev.storeDisplay, Ev.dimScreen])
      else
        pure st3)
    pure { setMode st4 mode with _changeFullscreenState := false }
  else
    pure st

/-! ## Lifecycle hooks -/

/-- The function `GrimEngine::handlePause()`. -/
def handlePause (st : GrimEngine) : Except Err GrimEngine :=
  if (luaCallback st "pauseHandler" []).2 then
    .ok (luaCallback st "pauseHandler" []).1
  else
    .error (.fatal "handlePause: invalid handler")

/-- The function `GrimEngine::handleExit()`. -/
def handleExit (st : GrimEngine) : Except Err GrimEngine :=
  if (luaCallback st "exitHandler" []).2 then
    .ok (luaCallback st "exitHandler" []).1
  else
    .error (.fatal "handleExit: invalid handler")

/-- The function `GrimEngine::handleUserPaint()`. -/
def handleUserPaint (st : GrimEngine) : Except Err GrimEngine :=
  if (luaCallback st "userPaintHandler" []).2 then
    .ok (luaCallback st "userPaintHandler" []).1
  else
    .error (.fatal "handleUserPaint: invalid handler")

/-- The function `GrimEngine::cameraChangeHandle(prev, next)`; the answer of the
callback is not looked at. -/
def cameraChangeHandle (st : GrimEngine) (prev next : Int) : GrimEngine :=
  (luaCallback st "camChangeHandler" [prev, next]).1

/-! ## Setups and text speed -/

/-- Modelled from the spec: `Set::getSetup()`, the index of the current setup. -/
def Set.getSetup (s : Set) : Int :=
  s._currSetup

/-- Modelled from the spec: `Set::setSetup(num)`, the setup of index `num`
becomes the current one. -/
def Set.setSetup (s : Set) (num : Int) : Set :=
  { s with _currSetup := num.toNat }

/-- The function `GrimEngine::makeCurrentSetup(num)`. -/
def makeCurrentSetup (st : GrimEngine) (num : Int) : Except Err GrimEngine :=
  match st.currSet with
  | none => .error (.nullDeref "_currSet")
  | some set =>
    if set.getSetup ≠ num then
      .ok { cameraChangeHandle
              { st with
                Actor_pool := st.Actor_pool.map Actor.clearCleanBuffer,
                Set_pool := st.Set_pool.map (fun s =>
                  if s.id = set.id then (s.setSetup num).setSoundParameters 20 127 else s),
                log := st.log ++ [Ev.refreshBuffers] }
              set.getSetup num with
            _setupChanged := true }
    else
      .ok st

/-- The function `GrimEngine::setTextSpeed(speed)`. -/
def setTextSpeed (st : GrimEngine) (speed : Int) : GrimEngine :=
  let st1 : GrimEngine := if speed < 1 then { st with _textSpeed := 1 } else st
  let st2 : GrimEngine := if speed > 10 then { st1 with _textSpeed := 10 } else st1
  { st2 with _textSpeed := speed }

/-! ## Frame timing -/

/-- Subtraction of unsigned 32-bit integers. -/
def sub32 (a b : Nat) : Nat :=
  (a % 2 ^ 32 + 2 ^ 32 - b % 2 ^ 32) % 2 ^ 32

/-- Addition of unsigned 32-bit integers. -/
def add32 (a b : Nat) : Nat :=
  (a + b) % 2 ^ 32

/-- The function `GrimEngine::pauseEngineIntern(pause)`; `now` is the reading of
`_system->getMillis()`. -/
def pauseEngineIntern (st : GrimEngine) (pause : Bool) (now : Nat) : GrimEngine :=
  if pause then
    { st with
      _pauseStartTime := now,
      log := st.log ++ [Ev.imusePause pause, Ev.moviePause pause] }
  else
    { st with
      _frameStart := add32 st._frameStart (sub32 now st._pauseStartTime),
      log := st.log ++ [Ev.imusePause pause, Ev.moviePause pause] }

/-- The part of `GrimEngine::luaUpdate()` run when a Set is current and the mode
is Normal or Smush: the talking actors are updated and those that stopped
talking leave the list, the active actors, the iris and the text objects are
updated. The answer of `Actor::updateTalk` for an actor is `updateTalk`. -/
def luaUpdate_actors (st : GrimEngine) (updateTalk : Int → Bool) :
    Except Err GrimEngine := do
  let st1 ← buildActiveActorsList { st with
    _talkingActors := st._talkingActors.filter updateTalk,
    log := st.log ++ st._talkingActors.map (fun a => Ev.actorUpdateTalk a st._frameTime) }
  pure (st1.emits
    (st1._activeActors.map (fun a => Ev.actorUpdate a st1._frameTime) ++
      [Ev.irisUpdate st1._frameTime] ++
      st1.TextObject_pool.map (fun t => Ev.textObjectUpdate t.id)))

/-- The function `GrimEngine::luaUpdate()`; `now` is the reading of
`g_system->getMillis()`, an unsigned 32-bit integer. -/
def luaUpdate (st : GrimEngine) (now : Nat) (updateTalk : Int → Bool) :
    Except Err GrimEngine :=
  if st._savegameLoadRequest || st._savegameSaveRequest || st._changeHardwareState then
    .ok st
  else if now < st._frameStart then
    .ok { st with _frameStart := now }
  else
    let frameTime : Nat :=
      if st._mode = PauseMode ∨ st._shortFrame = true then 0 else sub32 now st._frameStart
    let st1 : GrimEngine := { st with
      _frameTime := frameTime,
      _frameStart := now,
      log := st.log ++ [Ev.luaUpdate frameTime st._movieTime] }
    if st1._currSet.isSome && (st1._mode == NormalMode || st1._mode == SmushMode) then
      luaUpdate_actors st1 updateTalk
    else
      .ok st1

/-- The function `GrimEngine::doFlip()`; `now` is the reading of
`g_system->getMillis()` taken when the frame rate is shown. The text of `_fps`
is not part of the state. -/
def doFlip (st : GrimEngine) (now : Nat) : GrimEngine :=
  let st1 : GrimEngine := { st with _frameCounter := add32 st._frameCounter 1 }
  if !st1._doFlip then
    st1
  else
    let fps : Bool := st1._showFps && st1._mode != DrawMode
    let st2 : GrimEngine := st1.emits
      ((if fps then [Ev.drawEmergString] else []) ++
        (if st1._flipEnable then [Ev.flipBuffer] else []))
    if fps && decide (sub32 now st2._lastFrameTime > 500) then
      { st2 with _frameCounter := 0, _lastFrameTime := now }
    else
      st2

/-! ## Main loop -/

/-- Modelled from the spec: the kind of an event of the event manager
(`Common::EventType`); the main loop tells key presses and key releases from
the rest. -/
inductive EventType where
  | EVENT_KEYDOWN
  | EVENT_KEYUP
  | EVENT_OTHER
deriving DecidableEq, Repr

open EventType

/-- Modelled from the spec: an event of the event manager (`Common::Event`)
with the key it is about. -/
structure Event where
  type : EventType
  keycode : Nat
  ascii : Nat
deriving DecidableEq, Repr

/-- Modelled from the spec: the call `handleChars(type, event.kbd)`, defined
outside `grim.cpp`; the call is logged. -/
def handleChars (st : GrimEngine) (e : Event) : GrimEngine :=
  st.emit (Ev.handleChars e.keycode e.ascii)

/-- Modelled from the spec: the call `handleControls(type, event.kbd)`, defined
outside `grim.cpp`; the call is logged. -/
def handleControls (st : GrimEngine) (e : Event) : GrimEngine :=
  st.emit (Ev.handleControls (e.type == EVENT_KEYDOWN) e.keycode)

/-- The statements of `GrimEngine::mainLoop()` run at the start of `mainLoop`,
before the loop; `now` is the reading of `g_system->getMillis()`. -/
def mainLoop_init (st : GrimEngine) (now : Nat) : GrimEngine :=
  { st with
    _movieTime := 0,
    _frameTime := 0,
    _frameStart := now,
    _frameCounter := 0,
    _lastFrameTime := 0,
    _prevSmushFrame := 0,
    _refreshShadowMask := false,
    _shortFrame := false,
    _changeHardwareState := false,
    _changeFullscreenState := false,
    _setupChanged := true }

/-- The part of an iteration of `GrimEngine::mainLoop()` after the event loop:
the display is updated unless the mode is Pause, the scripts are updated, the
frame is presented unless the mode is Pause, and a requested music state is
passed on. `luaNow` and `flipNow` are the readings of the clock in `luaUpdate`
and in `doFlip`. -/
def mainLoop_update (st : GrimEngine) (luaNow flipNow : Nat) (updateTalk : Int → Bool) :
    Except Err GrimEngine := do
  let st1 ← (if st._mode ≠ PauseMode then updateDisplayScene st else pure st)
  let st2 ←
    (if ¬ (st1._gamePlatform = kPlatformPS2 ∧ st1._mode = SmushMode) then
      luaUpdate st1 luaNow updateTalk
    else pure st1)
  let st3 : GrimEngine := if st2._mode ≠ PauseMode then doFlip st2 flipNow else st2
  pure
    (if st3.g_imuseState ≠ -1 then
      { st3 with
        g_imuseState := -1,
        log := st3.log ++ [Ev.setMusicState st3.g_imuseState] }
    else st3)

/-- The pacing at the end of an iteration of `GrimEngine::mainLoop()`: the time
the loop sleeps, if it sleeps. The times and the budget are unsigned 32-bit
integers. -/
def mainLoop_delay (startTime endTime speedLimitMs : Nat) : Option Nat :=
  if startTime > endTime then
    none
  else if speedLimitMs = 0 then
    none
  else if sub32 endTime startTime < speedLimitMs then
    some (sub32 speedLimitMs (sub32 endTime startTime))
  else
    none

/-- The end of an iteration of `GrimEngine::mainLoop()`: the loop sleeps for the
time of `mainLoop_delay`. -/
def mainLoop_pace (st : GrimEngine) (startTime endTime : Nat) : GrimEngine :=
  match mainLoop_delay startTime endTime st._speedLimitMs with
  | some delayTime => st.emit (Ev.delayMillis delayTime)
  | none => st

/-- Conversion of a signed integer to an unsigned 32-bit integer. -/
def toUint32 (i : Int) : Nat :=
  (i % 2 ^ 32).toNat

/-- Conversion of an unsigned 32-bit integer to a signed 32-bit integer. -/
def toSint32 (n : Nat) : Int :=
  if n % 2 ^ 32 < 2 ^ 31 then ((n % 2 ^ 32 : Nat) : Int)
  else ((n % 2 ^ 32 : Nat) : Int) - 2 ^ 32

/-- The per-frame budget the constructor `GrimEngine::GrimEngine` computes from
the configured `engine_speed`: `speed` is a signed integer, the division is
that of signed integers, and the quotient is stored in the member
`_speedLimitMs`. The member is declared in `grim.h`, which is not part of the
sources; it is an unsigned 32-bit integer here, as `mainLoop` uses it. -/
def GrimEngine_speedLimitMs (speed : Int) : Nat :=
  if speed ≤ 0 ∨ speed > 100 then
    toUint32 (Int.tdiv 1000 60)
  else
    toUint32 (Int.tdiv 1000 speed)

/-- The value the constructor `GrimEngine::GrimEngine` writes back to
`engine_speed`: `1000 / _speedLimitMs`, a division of unsigned 32-bit integers
whose quotient is passed as a signed integer. -/
def GrimEngine_engineSpeed (speedLimitMs : Nat) : Except Err Int :=
  if speedLimitMs = 0 then
    .error .divByZero
  else
    .ok (toSint32 (toUint32 1000 / speedLimitMs))

/-- The statements of the constructor `GrimEngine::GrimEngine` for the speed
limit; `speed` is the answer of `ConfMan.getInt("engine_speed")`. -/
def GrimEngine_speedLimit (st : GrimEngine) (speed : Int) : Except Err GrimEngine := do
  let st1 : GrimEngine := { st with _speedLimitMs := GrimEngine_speedLimitMs speed }
  let v ← GrimEngine_engineSpeed st1._speedLimitMs
  pure { st1 with log := st1.log ++ [Ev.confSetInt "engine_speed" v] }
/-! ## A concrete engine state -/

/-- A say-line style with the font of identity 1. -/
def exampleSayLine : TextObjectDefaults :=
  { _fgColor := ⟨255, 255, 255⟩, _font := some 1, _height := 0, _justify := 2,
    _width := 0, _x := 0, _y := 100, _duration := 0 }

/-- An engine in Normal mode, in the scene "mo" (identity 1, unlocked), with a
second, locked scene "ha" (identity 2), three actors of which one is walking
with a clean buffer and a sort order, one font and one text object. -/
def exampleEngine : GrimEngine :=
  { _gameType := GType_GRIM,
    _gamePlatform := kPlatformOther,
    _mode := NormalMode,
    _previousMode := NormalMode,
    _currSet := some 1,
    _selectedActor := some 7,
    _movieSubtitle := none,
    _movieSetup := "mo_ddtws",
    _sayLineDefaults := exampleSayLine,
    _buildActiveActorsList := true,
    _activeActors := [],
    _talkingActors := [],
    _setupChanged := false,
    _shortFrame := false,
    _savegameLoadRequest := false,
    _savegameSaveRequest := false,
    _changeHardwareState := false,
    _changeFullscreenState := false,
    _savegameFileName := "",
    _savedState := none,
    _doFlip := true,
    _flipEnable := true,
    _showFps := false,
    _softRenderer := true,
    _refreshShadowMask := false,
    _prevSmushFrame := 0,
    _movieTime := 0,
    _frameTime := 0,
    _frameStart := 0,
    _pauseStartTime := 0,
    _frameCounter := 0,
    _lastFrameTime := 0,
    _speedLimitMs := 16,
    _textSpeed := 7,
    _controlsState := [false, true, false],
    SAVEGAME_MAJOR_VERSION := 22,
    SAVEGAME_MINOR_VERSION := 6,
    USE_OPENGL := false,
    conf_soft_renderer := true,
    featureOpenGL := false,
    Bitmap_pool := [⟨1, [3]⟩],
    Font_pool := [⟨1, []⟩],
    ObjectState_pool := [],
    Set_pool :=
      [ { id := 1, _name := "mo", _locked := false,
          _setups := [⟨"mo_ddtws"⟩, ⟨"mo_winws"⟩], _currSetup := 0,
          _minVolume := 0, _maxVolume := 0 },
        { id := 2, _name := "ha", _locked := true,
          _setups := [⟨"ha_intha"⟩], _currSetup := 0,
          _minVolume := 0, _maxVolume := 0 } ],
    TextObject_pool := [⟨4, [10, 20]⟩],
    PrimitiveObject_pool := [],
    Actor_pool :=
      [ { id := 7, _setName := "mo", _inOverworld := false, _visible := true,
          _walking := true, _cleanBuffer := 3, _sortOrder := 2 },
        { id := 8, _setName := "ha", _inOverworld := false, _visible := true,
          _walking := false, _cleanBuffer := 0, _sortOrder := 0 },
        { id := 9, _setName := "", _inOverworld := true, _visible := false,
          _walking := false, _cleanBuffer := 0, _sortOrder := 1 } ],
    PoolSound_pool := [],
    Layer_pool := [],
    g_driver :=
      { _isFullscreen := false, _screenWidth := 640, _screenHeight := 480,
        _software := true, _state := [Field.uint32 1], _screenshot := some [0, 0] },
    g_movie :=
      { _isPlaying := false, _movieTime := 0, _updateNeeded := false, _frame := 0,
        _x := 0, _y := 0 },
    g_sound := [],
    _iris := [],
    g_lua :=
      { _handlers := ["saveGameCallback", "postCamChangeHandler", "camChangeHandler",
          "pauseHandler", "exitHandler", "userPaintHandler"],
        _state := [Field.uint32 9] },
    g_imuseState := -1,
    g_saveFiles := { _writable := true, _files := [] },
    log := [] }


/-- The stream `savegameSave` opens for `exampleEngine`: a writer with no
section yet. -/
def exampleWriter : SaveGame :=
  { _saving := true, _filename := "grim.sav", _majorVersion := 22, _minorVersion := 6,
    _sections := [], _currentSection := none, _sectionBuffer := [] }

/-- The engine of `exampleEngine` while a save is under way. -/
def exampleSaving : GrimEngine :=
  { exampleEngine with _savedState := some exampleWriter }

/-- The engine section `saveGRIM` writes for `exampleEngine`. -/
def exampleGrimSection : Section :=
  { tag := SectionTag.GRIM,
    data :=
      [ Field.uint32 2, Field.uint32 2, Field.sint32 7, Field.color ⟨255, 255, 255⟩,
        Field.sint32 1, Field.sint32 0, Field.sint32 2, Field.sint32 0, Field.sint32 0,
        Field.sint32 100, Field.sint32 0, Field.sint32 0, Field.sint32 1,
        Field.string "mo_ddtws" ] }

/-- A reader at the current minor version (6) over a screenshot section and the
engine section of `exampleEngine`. -/
def exampleReader : SaveGame :=
  { _saving := false, _filename := "grim.sav", _majorVersion := 22, _minorVersion := 6,
    _sections := [⟨SectionTag.SIMG, []⟩, exampleGrimSection],
    _currentSection := none, _sectionBuffer := [] }

/-- An engine about to read the engine section: the pools are those of
`exampleEngine`, the selected actor has been reset, and every other member the
section restores holds a different value. -/
def exampleRestoring : GrimEngine :=
  { exampleEngine with
    _mode := PauseMode,
    _previousMode := SmushMode,
    _selectedActor := none,
    _currSet := some 2,
    _movieSubtitle := some 4,
    _movieSetup := "ha_intha",
    _sayLineDefaults :=
      { _fgColor := ⟨0, 0, 0⟩, _font := none, _height := 1, _justify := 1, _width := 1,
        _x := 1, _y := 1, _duration := 1 },
    _savedState := some exampleReader }

/-- An engine section whose four identities (actor 99, font 98, text object 97,
Set 96) name no entity of the pools of `exampleEngine`. -/
def danglingGrimSection : Section :=
  { tag := SectionTag.GRIM,
    data :=
      [ Field.uint32 2, Field.uint32 2, Field.sint32 99, Field.color ⟨255, 255, 255⟩,
        Field.sint32 98, Field.sint32 0, Field.sint32 2, Field.sint32 0, Field.sint32 0,
        Field.sint32 100, Field.sint32 0, Field.sint32 97, Field.sint32 96,
        Field.string "mo_ddtws" ] }

/-- An engine about to read `danglingGrimSection` at minor version 6, with the
pools of `exampleEngine` and the selected actor reset. -/
def danglingEngine : GrimEngine :=
  { exampleEngine with
    _selectedActor := none,
    _savedState := some
      { _saving := false, _filename := "grim.sav", _majorVersion := 22, _minorVersion := 6,
        _sections := [danglingGrimSection], _currentSection := none, _sectionBuffer := [] } }

/-- An engine section of minor version 5: it has no movie-subtitle field. -/
def minor5GrimSection : Section :=
  { tag := SectionTag.GRIM,
    data :=
      [ Field.uint32 2, Field.uint32 2, Field.sint32 7, Field.color ⟨255, 255, 255⟩,
        Field.sint32 1, Field.sint32 0, Field.sint32 2, Field.sint32 0, Field.sint32 0,
        Field.sint32 100, Field.sint32 0, Field.sint32 1, Field.string "mo_ddtws" ] }

/-- An engine about to read `minor5GrimSection` from a stream of minor version
5. Its movie subtitle still points to a text object of the game that was
running (identity 55); the pools, already restored, hold no such text object. -/
def minor5Engine : GrimEngine :=
  { exampleEngine with
    _selectedActor := none,
    _movieSubtitle := some 55,
    _savedState := some
      { _saving := false, _filename := "old.gsv", _majorVersion := 22, _minorVersion := 5,
        _sections := [minor5GrimSection], _currentSection := none, _sectionBuffer := [] } }

/-- The engine of `exampleEngine` with a fullscreen toggle pending, on a system
where no save stream can be opened for writing. -/
def unwritableEngine : GrimEngine :=
  { exampleEngine with
    _changeFullscreenState := true,
    g_saveFiles := { _writable := false, _files := [] } }

/-- The engine of `exampleEngine` with a fullscreen toggle pending. -/
def toggleEngine : GrimEngine :=
  { exampleEngine with _changeFullscreenState := true }

/-- The engine of `exampleEngine` after `savegameSave`. -/
def exampleSaved : GrimEngine :=
  match savegameSave exampleEngine with
  | .ok st => st
  | .error _ => exampleEngine

/-- The engine of `exampleSaved` after `savegameRestore`. -/
def exampleRestored : GrimEngine :=
  match savegameRestore exampleSaved with
  | .ok st => st
  | .error _ => exampleSaved

/-! ## Definitions used to state the properties -/

/-- The payload of the engine section for a state, given the four identities
written: selected actor, say-line font, movie subtitle and current Set. -/
def grimFields (st : GrimEngine) (sel fontId sub setId : Int) : List Field :=
  [ Field.uint32 st._mode.raw, Field.uint32 st._previousMode.raw, Field.sint32 sel,
    Field.color st._sayLineDefaults._fgColor, Field.sint32 fontId,
    Field.sint32 st._sayLineDefaults._height, Field.sint32 st._sayLineDefaults._justify,
    Field.sint32 st._sayLineDefaults._width, Field.sint32 st._sayLineDefaults._x,
    Field.sint32 st._sayLineDefaults._y, Field.sint32 st._sayLineDefaults._duration,
    Field.sint32 sub, Field.sint32 setId, Field.string st._movieSetup ]

/-- The tags of the sections begun by the calls of a log, in order. -/
def sectionsBegun : List Ev → List SectionTag
  | [] => []
  | Ev.beginSection tag :: rest => tag :: sectionsBegun rest
  | _ :: rest => sectionsBegun rest

/-- The order of the sections of a save file after the screenshot, as the
specification gives it: the pools Bitmap, Font, ObjectState, Set, TextObject,
PrimitiveObject, Actor, then PoolSound and Layer for the game variant that has
them, then the engine state, the renderer, the audio engine, the movie player,
the iris effect and the script engine. -/
def sectionOrder (gameType : GrimGameType) : List SectionTag :=
  [ SectionTag.pool PoolKind.Bitmap, SectionTag.pool PoolKind.Font,
    SectionTag.pool PoolKind.ObjectState, SectionTag.pool PoolKind.Set,
    SectionTag.pool PoolKind.TextObject, SectionTag.pool PoolKind.PrimitiveObject,
    SectionTag.pool PoolKind.Actor ] ++
  ((if gameType = GType_MONKEY4 then
    [SectionTag.pool PoolKind.PoolSound, SectionTag.pool PoolKind.Layer] else []) ++
  [ SectionTag.GRIM, SectionTag.renderer, SectionTag.sound, SectionTag.movie,
    SectionTag.iris, SectionTag.lua ])

/-- The calls that mark the stages of a save, of a restore and of a device
reset: a stream is opened, a section is begun, the pools are cleared, the
renderer is deleted, created or set up. -/
def Ev.isStage : Ev → Bool
  | Ev.beginSection _ => true
  | Ev.openForSaving _ => true
  | Ev.openForLoading _ => true
  | Ev.deletePools => true
  | Ev.deleteDriver => true
  | Ev.createRenderer _ => true
  | Ev.setupScreen _ _ _ => true
  | _ => false

/-- The stage calls of a log, in order. -/
def stages (log : List Ev) : List Ev :=
  log.filter Ev.isStage

/-- The state `st1` is `st` after calls whose stage calls are exactly `kept`,
in that order; the game variant is unchanged. -/
def LogStep (st st1 : GrimEngine) (kept : List Ev) : Prop :=
  st1._gameType = st._gameType ∧
  ∃ evs, st1.log = st.log ++ evs ∧ stages evs = kept

/-- The stage calls of the sections of `sectionOrder`. -/
def sectionStages (gameType : GrimGameType) : List Ev :=
  (sectionOrder gameType).map Ev.beginSection

/-- The part of the engine state that drawing, script callbacks and the log
leave alone: the game variant, the current Set, the pools, the requested file
name, the hardware-change request, the version of the build, the open save
stream and the save files. -/
structure World where
  gameType : GrimGameType
  currSet : Option Int
  fileName : String
  changeHardwareState : Bool
  major : Nat
  minor : Nat
  bitmaps : List PoolObject
  fonts : List PoolObject
  objectStates : List PoolObject
  sets : List Set
  textObjects : List PoolObject
  primitives : List PoolObject
  actors : List Actor
  poolSounds : List PoolObject
  layers : List PoolObject
  savedState : Option SaveGame
  files : SaveFiles

/-- The world of an engine state. -/
def GrimEngine.world (st : GrimEngine) : World :=
  { gameType := st._gameType, currSet := st._currSet, fileName := st._savegameFileName,
    changeHardwareState := st._changeHardwareState,
    major := st.SAVEGAME_MAJOR_VERSION, minor := st.SAVEGAME_MINOR_VERSION,
    bitmaps := st.Bitmap_pool, fonts := st.Font_pool, objectStates := st.ObjectState_pool,
    sets := st.Set_pool, textObjects := st.TextObject_pool,
    primitives := st.PrimitiveObject_pool, actors := st.Actor_pool,
    poolSounds := st.PoolSound_pool, layers := st.Layer_pool,
    savedState := st._savedState, files := st.g_saveFiles }

/-- The pool sections `savePools` writes for a world, in the order of the
source. -/
def World.poolSections (w : World) : List Section :=
  [ ⟨SectionTag.pool PoolKind.Bitmap, encodePool PoolObject.id PoolObject.saveState w.bitmaps⟩,
    ⟨SectionTag.pool PoolKind.Font, encodePool PoolObject.id PoolObject.saveState w.fonts⟩,
    ⟨SectionTag.pool PoolKind.ObjectState,
      encodePool PoolObject.id PoolObject.saveState w.objectStates⟩,
    ⟨SectionTag.pool PoolKind.Set, encodePool Set.id Set.saveState w.sets⟩,
    ⟨SectionTag.pool PoolKind.TextObject,
      encodePool PoolObject.id PoolObject.saveState w.textObjects⟩,
    ⟨SectionTag.pool PoolKind.PrimitiveObject,
      encodePool PoolObject.id PoolObject.saveState w.primitives⟩,
    ⟨SectionTag.pool PoolKind.Actor, encodePool Actor.id Actor.saveState w.actors⟩ ] ++
  (if w.gameType = GType_MONKEY4 then
    [ ⟨SectionTag.pool PoolKind.PoolSound,
        encodePool PoolObject.id PoolObject.saveState w.poolSounds⟩,
      ⟨SectionTag.pool PoolKind.Layer,
        encodePool PoolObject.id PoolObject.saveState w.layers⟩ ]
  else [])

/-- The state `st1` is `st` after the sections `added` were written to its
open save stream; the rest of the world is unchanged. -/
def Wrote (st st1 : GrimEngine) (added : List Section) : Prop :=
  ∃ w, st._savedState = some w ∧ w._saving = true ∧
    st1.world = { st.world with
      savedState := some { w with
        _sections := w._sections ++ added, _currentSection := none, _sectionBuffer := [] } }

/-- The state `st` has a reader open, with no section open, of minor version
`m`, whose sections still to read are `secs`. -/
def Reading (st : GrimEngine) (secs : List Section) (m : Nat) : Prop :=
  ∃ r, st._savedState = some r ∧ r._saving = false ∧ r._currentSection = none ∧
    r._sections = secs ∧ r._minorVersion = m

/-- The members a device reset is to bring back: the current Set, the Set and
Actor pools, and the hardware-change request. -/
def GrimEngine.scene (st : GrimEngine) : Option Int × List Set × List Actor × Bool :=
  (st._currSet, st.Set_pool, st.Actor_pool, st._changeHardwareState)

/-! ## Examples and definitions for the main loop, the hooks and the setups -/

/-- The engine of `exampleEngine` with a save request pending. -/
def savePendingEngine : GrimEngine :=
  { exampleEngine with _savegameSaveRequest := true }

/-- The engine of `exampleEngine` with a script engine that has no handler. -/
def noHandlersEngine : GrimEngine :=
  { exampleEngine with g_lua := { exampleEngine.g_lua with _handlers := [] } }

/-- Whether `luaUpdate` finds one of the requests it tests for. -/
def GrimEngine.updateSuppressed (st : GrimEngine) : Bool :=
  st._savegameLoadRequest || st._savegameSaveRequest || st._changeHardwareState

/-- The engine of `exampleSaving` without a current Set. -/
def noSetSaving : GrimEngine :=
  { exampleSaving with _currSet := none }

/-- The engine of `exampleSaving` without a say-line font, as the constructor
leaves `_sayLineDefaults`. -/
def noFontSaving : GrimEngine :=
  { exampleSaving with _sayLineDefaults := { exampleSayLine with _font := none } }

/-- The kind of a value of a save stream. -/
inductive FieldKind where
  | uint32
  | sint32
  | uint16
  | bool
  | color
  | string
deriving DecidableEq, Repr

/-- The kind of a value. -/
def Field.kind : Field → FieldKind
  | .uint32 _ => .uint32
  | .sint32 _ => .sint32
  | .uint16 _ => .uint16
  | .bool _ => .bool
  | .color _ => .color
  | .string _ => .string

/-- A step of a run of scene changes, setup changes and scene draws. -/
inductive SceneOp where
  | setSet (scene : Int)
  | makeCurrentSetup (num : Int)
  | draw
deriving DecidableEq, Repr

/-- One step of a run: `setSet(scene)`, `makeCurrentSetup(num)` or
`drawNormalMode()`. -/
def runSceneOp (st : GrimEngine) : SceneOp → Except Err GrimEngine
  | .setSet scene => setSet st (some scene)
  | .makeCurrentSetup num => makeCurrentSetup st num
  | .draw => drawNormalMode st

/-- The steps of a run, in order. -/
def runSceneOps (st : GrimEngine) : List SceneOp → Except Err GrimEngine
  | [] => .ok st
  | op :: rest => runSceneOp st op >>= fun st1 => runSceneOps st1 rest

/-- What a step of a run is in the state it starts from: a setup change (a
`setSet` with another scene, a `makeCurrentSetup` with another index), a call
that changes nothing, or a draw. -/
inductive StepKind where
  | change
  | same
  | draw
deriving DecidableEq, Repr

/-- The kind of a step in a state. -/
def SceneOp.kind (st : GrimEngine) : SceneOp → StepKind
  | .setSet scene => if some scene = st._currSet then .same else .change
  | .makeCurrentSetup num =>
    match st.currSet with
    | some set => if set.getSetup ≠ num then .change else .same
    | none => .same
  | .draw => .draw

/-- The kinds of the steps of a run, each in the state the step starts from. -/
def stepKinds (st : GrimEngine) : List SceneOp → List StepKind
  | [] => []
  | op :: rest =>
    op.kind st ::
      (match runSceneOp st op with
       | .ok st1 => stepKinds st1 rest
       | .error _ => [])

/-- Whether a logged call is the post-camera-change callback. -/
def Ev.isPostCamChange : Ev → Bool
  | Ev.luaCallback name _ => name == "postCamChangeHandler"
  | _ => false

/-- The number of post-camera-change callbacks in a log. -/
def postCamChangeCount (log : List Ev) : Nat :=
  (log.filter Ev.isPostCamChange).length

/-- The number of notifications when setup changes coalesce: a draw notifies
when a setup change is pending, a setup change makes one pending, a draw clears
it. The flag tells whether a change is pending at the start. -/
def coalescedNotifications : Bool → List StepKind → Nat
  | _, [] => 0
  | _, .change :: rest => coalescedNotifications true rest
  | pending, .same :: rest => coalescedNotifications pending rest
  | pending, .draw :: rest => (if pending then 1 else 0) + coalescedNotifications false rest

/-! ## Iterations of the main loop in Pause mode -/

/-- Whether a logged call is one of those an iteration of the main loop makes
in Pause mode when no request is pending: the calls of the sound and debugger
collaborators at the start of the iteration, the key handlers, the exit and
pause callbacks, the update of the script engine with frame time 0 and the
given movie time, a requested music state and the sleep at the end. No call of
the renderer and no update of an actor, the iris or a text object is among
them. -/
def Ev.isPauseCall (movieTime : Nat) : Ev → Bool
  | .imuseFlushTracks => true
  | .imuseRefreshScripts => true
  | .debuggerOnFrame => true
  | .handleChars _ _ => true
  | .handleControls _ _ => true
  | .luaCallback name args => (name == "exitHandler" || name == "pauseHandler") && args == []
  | .luaUpdate frameTime mt => frameTime == 0 && mt == movieTime
  | .setMusicState _ => true
  | .delayMillis _ => true
  | _ => false

/-- What a run of statements of the main loop in Pause mode does to the state:
the frame time is as before or 0, the frame start is as before or one of the
clock readings, the log gains calls of `Ev.isPauseCall`, and every other member
is as before. -/
def PauseRun (st st1 : GrimEngine) (nows : List Nat) : Prop :=
  ∃ (ft fs : Nat) (evs : List Ev),
    st1 = { st with _frameTime := ft, _frameStart := fs, log := st.log ++ evs } ∧
    (ft = st._frameTime ∨ ft = 0) ∧ (fs = st._frameStart ∨ fs ∈ nows) ∧
    (∀ e ∈ evs, e.isPauseCall st._movieTime = true)

set_option maxRecDepth 100000

/-! ### Pool lookups -/

/-- An entity found under an identity carries that identity. -/
theorem getObject_some_id {α : Type} (ident : α → Int) (pool : List α) (id : Int) (o : α)
    (h : getObject ident pool id = some o) : ident o = id := by
  unfold getObject at h
  have := List.find?_some h
  simpa using this

/-- An entity found by a lookup is in the pool. -/
theorem getObject_some_mem {α : Type} (ident : α → Int) (pool : List α) (id : Int) (o : α)
    (h : getObject ident pool id = some o) : o ∈ pool := by
  unfold getObject at h
  exact List.mem_of_find?_eq_some h

/-- A lookup in a pool whose entities were updated without touching their identities. -/
theorem getObject_map {α : Type} (ident : α → Int) (f : α → α)
    (hf : ∀ a, ident (f a) = ident a) (pool : List α) (id : Int) :
    getObject ident (pool.map f) id = (getObject ident pool id).map f := by
  induction pool with
  | nil => rfl
  | cons a l ih =>
    unfold getObject at ih ⊢
    by_cases h : ident a = id
    · simp [List.find?_cons, hf, h]
    · simpa [List.find?_cons, hf, h] using ih

/-- A lookup after the deletion of identity `d`. -/
theorem getObject_deleteObject {α : Type} (ident : α → Int) (pool : List α) (d id : Int) :
    getObject ident (deleteObject ident pool d) id =
      if id = d then none else getObject ident pool id := by
  unfold getObject deleteObject
  rw [List.find?_filter]
  by_cases hi : id = d
  · subst hi
    simp
  · rw [if_neg hi]
    congr 1
    funext a
    by_cases ha : ident a = id
    · have : ¬ ident a = d := fun h => hi (ha.symm.trans h)
      simp [ha, this, hi]
    · simp [ha]

/-- Reading the identity through a pointer to a live entity gives the pointer. -/
theorem derefId_live {α : Type} (ident : α → Int) (pool : List α) (what : String)
    (i : Int) (h : (getObject ident pool i).isSome) :
    derefId ident pool what (some i) = .ok i := by
  obtain ⟨o, ho⟩ := Option.isSome_iff_exists.1 h
  have := getObject_some_id ident pool i o ho
  simp [derefId, ho, this]

/-- The lookup of a live identity answers the pointer to it. -/
theorem getObjectPtr_live {α : Type} (ident : α → Int) (pool : List α)
    (i : Int) (h : (getObject ident pool i).isSome) :
    getObjectPtr ident pool i = some i := by
  obtain ⟨o, ho⟩ := Option.isSome_iff_exists.1 h
  have := getObject_some_id ident pool i o ho
  simp [getObjectPtr, ho, this]

/-- In a pool without identity 0, the lookup of 0 is null. -/
theorem getObject_zero_none {α : Type} (ident : α → Int) (pool : List α)
    (h : ∀ o ∈ pool, ident o ≠ 0) : getObject ident pool 0 = none := by
  unfold getObject
  rw [List.find?_eq_none]
  intro o ho
  simpa using h o ho

/-! ### Sequencing -/

/-- A sequence of two fallible steps succeeds exactly when both do. -/
theorem bind_eq_ok {ε α β : Type} (x : Except ε α) (f : α → Except ε β) (b : β) :
    (x >>= f) = Except.ok b ↔ ∃ a, x = Except.ok a ∧ f a = Except.ok b := by
  cases x with
  | error e => simp [bind, Except.bind]
  | ok a => simp [bind, Except.bind]

/-! ### The engine section in closed form -/

/-- The result of `saveGRIM` in closed form, given the four identities it reads. -/
theorem saveGRIM_eq (st : GrimEngine) (w : SaveGame) (sel fontId sub setId : Int)
    (hw : st._savedState = some w) (hsaving : w._saving = true)
    (hopen : w._currentSection = none)
    (hsel : (match st._selectedActor with
      | some a => derefId Actor.id st.Actor_pool "_selectedActor" (some a)
      | none => .ok 0) = .ok sel)
    (hfont : derefId PoolObject.id st.Font_pool "_sayLineDefaults.getFont()"
      st._sayLineDefaults._font = .ok fontId)
    (hsub : (match st._movieSubtitle with
      | some t => derefId PoolObject.id st.TextObject_pool "_movieSubtitle" (some t)
      | none => .ok 0) = .ok sub)
    (hset : derefId Set.id st.Set_pool "_currSet" st._currSet = .ok setId) :
    saveGRIM st = .ok { st with
      _savedState := some { w with
        _sections := w._sections ++ [⟨SectionTag.GRIM, grimFields st sel fontId sub setId⟩],
        _currentSection := none, _sectionBuffer := [] },
      log := st.log ++ [Ev.beginSection SectionTag.GRIM] } := by
  unfold saveGRIM
  simp only [GrimEngine.derefSavedState, hw, SaveGame.beginSection, hopen, hsaving,
    SaveGame.writeLEUint32, SaveGame.writeLESint32, SaveGame.writeColor, SaveGame.writeString,
    SaveGame.write, SaveGame.endSection, bind, Except.bind, pure, Except.pure, hfont, hset]
  cases hs : st._selectedActor with
  | none =>
    simp only [hs] at hsel
    cases hm : st._movieSubtitle with
    | none =>
      simp only [hm] at hsub
      cases hsel; cases hsub
      simp [grimFields, hsaving]
    | some t =>
      simp only [hm] at hsub
      cases hsel
      simp [grimFields, hsub, hsaving]
  | some a =>
    simp only [hs] at hsel
    cases hm : st._movieSubtitle with
    | none =>
      simp only [hm] at hsub
      cases hsub
      simp [grimFields, hsel, hsaving]
    | some t =>
      simp only [hm] at hsub
      simp [grimFields, hsub, hsel, hsaving]

/-- The result of `restoreGRIM` in closed form, on a stream of minor version above 5
whose engine section has the fourteen fields of the current layout. -/
theorem restoreGRIM_eq (st : GrimEngine) (r : SaveGame) (rest : List Section)
    (m p : Nat) (sel f hgt j wd x y d sub setId : Int) (c : Color) (ms : String)
    (hr : st._savedState = some r) (hsaving : r._saving = false)
    (hopen : r._currentSection = none)
    (hsec : findSection SectionTag.GRIM r._sections = some (⟨SectionTag.GRIM,
      [ .uint32 m, .uint32 p, .sint32 sel, .color c, .sint32 f, .sint32 hgt, .sint32 j,
        .sint32 wd, .sint32 x, .sint32 y, .sint32 d, .sint32 sub, .sint32 setId,
        .string ms ]⟩, rest))
    (hminor : 5 < r._minorVersion) :
    restoreGRIM st = .ok { st with
      _mode := ⟨m⟩,
      _previousMode := ⟨p⟩,
      _selectedActor :=
        if sel ≠ 0 then getObjectPtr Actor.id st.Actor_pool sel else st._selectedActor,
      _sayLineDefaults :=
        { _fgColor := c,
          _font := getObjectPtr PoolObject.id st.Font_pool f,
          _height := hgt, _justify := j, _width := wd, _x := x, _y := y, _duration := d },
      _movieSubtitle := getObjectPtr PoolObject.id st.TextObject_pool sub,
      _currSet := getObjectPtr Set.id st.Set_pool setId,
      _movieSetup := ms,
      _savedState := some { r with
        _sections := rest, _currentSection := none, _sectionBuffer := [] },
      log := st.log ++ [Ev.beginSection SectionTag.GRIM] } := by
  have h4 : 4 < r._minorVersion := by omega
  unfold restoreGRIM
  simp [GrimEngine.derefSavedState, hr, SaveGame.beginSection, hopen, hsaving, hsec,
    SaveGame.readLEUint32, SaveGame.readLESint32, SaveGame.readColor, SaveGame.readString,
    SaveGame.read, SaveGame.endSection, SaveGame.saveMinorVersion, bind, Except.bind, pure,
    Except.pure, hminor, h4]

/-! ### Stage calls of a run -/

/-- The stage calls of two logs in a row. -/
theorem stages_append (a b : List Ev) : stages (a ++ b) = stages a ++ stages b := by
  simp [stages]

/-- A log without a stage call. -/
theorem stages_eq_nil (l : List Ev) (h : ∀ e ∈ l, e.isStage = false) : stages l = [] := by
  unfold stages
  rw [List.filter_eq_nil_iff]
  intro e he
  simp [h e he]

/-- Calls built from a list by a function that makes no stage call. -/
theorem stages_map {β : Type} (l : List β) (f : β → Ev)
    (hf : ∀ x, (f x).isStage = false) : stages (l.map f) = [] :=
  stages_eq_nil _ (by
    intro e he
    obtain ⟨x, _, rfl⟩ := List.mem_map.1 he
    exact hf x)

/-- Calls selected from a list by a function that makes no stage call. -/
theorem stages_filterMap {β : Type} (l : List β) (f : β → Option Ev)
    (hf : ∀ x e, f x = some e → e.isStage = false) : stages (l.filterMap f) = [] :=
  stages_eq_nil _ (by
    intro e he
    obtain ⟨x, _, hx⟩ := List.mem_filterMap.1 he
    exact hf x e hx)

/-- The sections begun by a log are those begun by its stage calls. -/
theorem sectionsBegun_stages (l : List Ev) : sectionsBegun (stages l) = sectionsBegun l := by
  induction l with
  | nil => rfl
  | cons e l ih =>
    cases e <;> simp_all [stages, sectionsBegun, Ev.isStage, List.filter_cons]

/-- The sections begun by a list of `beginSection` calls. -/
theorem sectionsBegun_map_beginSection (tags : List SectionTag) :
    sectionsBegun (tags.map Ev.beginSection) = tags := by
  induction tags with
  | nil => rfl
  | cons t l ih => simp [sectionsBegun, ih]

/-- Bringing a movie frame to the renderer is no stage call. -/
theorem stages_movieUpdateCalls (m : MoviePlayer) : stages (movieUpdateCalls m) = [] := by
  unfold movieUpdateCalls
  split <;> rfl

/-- No call at all. -/
theorem LogStep.refl (st : GrimEngine) : LogStep st st [] :=
  ⟨rfl, [], by simp, rfl⟩

/-- Two runs in a row. -/
theorem LogStep.trans {a b c : GrimEngine} {t1 t2 : List Ev}
    (h1 : LogStep a b t1) (h2 : LogStep b c t2) : LogStep a c (t1 ++ t2) := by
  obtain ⟨g1, e1, l1, s1⟩ := h1
  obtain ⟨g2, e2, l2, s2⟩ := h2
  refine ⟨g2.trans g1, e1 ++ e2, ?_, ?_⟩
  · rw [l2, l1, List.append_assoc]
  · rw [stages_append, s1, s2]

/-- A run without stage call, then a run. -/
theorem LogStep.nil_trans {a b c : GrimEngine} {t : List Ev}
    (h1 : LogStep a b []) (h2 : LogStep b c t) : LogStep a c t :=
  h1.trans h2

/-- A run, then a run without stage call. -/
theorem LogStep.trans_nil {a b c : GrimEngine} {t : List Ev}
    (h1 : LogStep a b t) (h2 : LogStep b c []) : LogStep a c t := by
  have := h1.trans h2
  simpa using this

/-- A step that leaves the log as it is. -/
theorem LogStep.same {st st1 : GrimEngine}
    (hg : st1._gameType = st._gameType) (hl : st1.log = st.log) : LogStep st st1 [] :=
  ⟨hg, [], by simp [hl], rfl⟩

/-- A run whose calls are known. -/
theorem LogStep.mk {st st1 : GrimEngine} (evs : List Ev) {kept : List Ev}
    (hg : st1._gameType = st._gameType) (hl : st1.log = st.log ++ evs)
    (hs : stages evs = kept) : LogStep st st1 kept :=
  ⟨hg, evs, hl, hs⟩

/-- The same run under an equal list of stage calls. -/
theorem LogStep.cast {a b : GrimEngine} {t t2 : List Ev} (h : LogStep a b t)
    (e : t = t2) : LogStep a b t2 := e ▸ h

/-- Logged calls make the stage calls among them. -/
theorem emits_step (st : GrimEngine) (evs : List Ev) : LogStep st (st.emits evs) (stages evs) :=
  ⟨rfl, evs, rfl, rfl⟩

/-- A logged call that is no stage call. -/
theorem emit_step (st : GrimEngine) (e : Ev) (h : e.isStage = false) :
    LogStep st (st.emit e) [] :=
  LogStep.mk [e] rfl rfl (by simp [stages, h])

/-- The function `setMode` logs nothing. -/
theorem setMode_step (st : GrimEngine) (m : EngineMode) : LogStep st (setMode st m) [] :=
  LogStep.same rfl rfl

/-- The step `writeSection` begins its one section and touches only the stream
and the log. -/
theorem writeSection_step (st st1 : GrimEngine) (tag : SectionTag) (fs : List Field)
    (h : writeSection st tag fs = .ok st1) :
    LogStep st st1 [Ev.beginSection tag] := by
  unfold writeSection at h
  simp only [bind_eq_ok] at h
  obtain ⟨h0, _, h1, _, h2, _, h3, _, h4⟩ := h
  simp only [pure, Except.pure, Except.ok.injEq] at h4
  subst h4
  exact ⟨rfl, [Ev.beginSection tag], rfl, rfl⟩

/-- The step `readSection` begins its one section and touches only the stream
and the log. -/
theorem readSection_step (st st1 : GrimEngine) (tag : SectionTag) (fs : List Field)
    (h : readSection st tag = .ok (fs, st1)) :
    LogStep st st1 [Ev.beginSection tag] ∧
      st1 = { st with _savedState := st1._savedState, log := st1.log } := by
  unfold readSection at h
  repeat (rw [bind_eq_ok] at h; obtain ⟨_, -, h⟩ := h)
  simp only [pure, Except.pure, Except.ok.injEq, Prod.mk.injEq] at h
  obtain ⟨-, h⟩ := h
  subst h
  exact ⟨⟨rfl, [Ev.beginSection tag], rfl, rfl⟩, rfl⟩

/-- The step `restoreObjects` begins the section of its pool and touches only
the stream and the log. -/
theorem restoreObjects_step {α : Type}
    (rs : Int → List Field → Option (α × List Field)) (st st1 : GrimEngine) (k : PoolKind)
    (pool : List α) (h : restoreObjects rs st k = .ok (pool, st1)) :
    LogStep st st1 [Ev.beginSection (SectionTag.pool k)] ∧
      st1 = { st with _savedState := st1._savedState, log := st1.log } := by
  unfold restoreObjects at h
  rw [bind_eq_ok] at h
  obtain ⟨⟨fs, st2⟩, h1, h⟩ := h
  simp only [] at h
  split at h
  · simp only [pure, Except.pure, Except.ok.injEq, Prod.mk.injEq] at h
    obtain ⟨-, h⟩ := h
    subst h
    exact readSection_step _ _ _ _ h1
  · cases h

/-- The function `saveGRIM` begins the engine section and touches only the
stream and the log. -/
theorem saveGRIM_step (st st1 : GrimEngine) (h : saveGRIM st = .ok st1) :
    LogStep st st1 [Ev.beginSection SectionTag.GRIM] ∧
      st1 = { st with _savedState := st1._savedState, log := st1.log } := by
  unfold saveGRIM at h
  have key : ∀ (h1 : SaveGame) (x : GrimEngine),
      (pure { st with _savedState := some h1,
                      log := st.log ++ [Ev.beginSection SectionTag.GRIM] } : Except Err GrimEngine)
        = .ok x →
      LogStep st x [Ev.beginSection SectionTag.GRIM] ∧
        x = { st with _savedState := x._savedState, log := x.log } := by
    intro h1 x hx
    simp only [pure, Except.pure, Except.ok.injEq] at hx
    subst hx
    exact ⟨⟨rfl, [Ev.beginSection SectionTag.GRIM], rfl, rfl⟩, rfl⟩
  repeat (first
    | (rw [bind_eq_ok] at h; obtain ⟨_, -, h⟩ := h)
    | (split at h))
  all_goals exact key _ _ h

/-- The function `restoreGRIM` begins the engine section. -/
theorem restoreGRIM_step (st st1 : GrimEngine) (h : restoreGRIM st = .ok st1) :
    LogStep st st1 [Ev.beginSection SectionTag.GRIM] := by
  unfold restoreGRIM at h
  repeat (first
    | (rw [bind_eq_ok] at h; obtain ⟨⟨_, _⟩, -, h⟩ := h; simp only [] at h)
    | (rw [bind_eq_ok] at h; obtain ⟨_, -, h⟩ := h)
    | (split at h))
  all_goals
    simp only [pure, Except.pure, Except.ok.injEq] at h
    subst h
    exact ⟨rfl, [Ev.beginSection SectionTag.GRIM], rfl, rfl⟩

/-- The function `buildActiveActorsList` logs nothing. -/
theorem buildActiveActorsList_step (st st1 : GrimEngine)
    (h : buildActiveActorsList st = .ok st1) : LogStep st st1 [] := by
  unfold buildActiveActorsList at h
  split at h
  · cases h; exact LogStep.refl _
  · split at h
    · split at h
      · cases h
      · cases h; exact LogStep.same rfl rfl
    · cases h; exact LogStep.same rfl rfl

/-- The function `drawPrimitives` makes no stage call. -/
theorem drawPrimitives_step (st : GrimEngine) : LogStep st (drawPrimitives st) [] := by
  refine LogStep.mk _ rfl rfl ?_
  refine stages_eq_nil _ ?_
  intro e he
  simp only [List.mem_cons] at he
  rcases he with he | he
  · subst he; rfl
  · split at he
    · split at he
      · simp at he; subst he; rfl
      · simp at he
    · simp only [drawTextObjects, List.mem_map] at he
      obtain ⟨_, _, rfl⟩ := he
      rfl

/-- The Smush branch of `updateDisplayScene` makes no stage call. -/
theorem updateSmushFrame_step (st : GrimEngine) : LogStep st (updateSmushFrame st) [] := by
  unfold updateSmushFrame
  simp only []
  split
  · split
    · split
      · refine LogStep.mk _ rfl rfl ?_
        simp only [stages_append, stages_movieUpdateCalls]
        split <;> rfl
      · exact LogStep.mk _ rfl rfl (stages_movieUpdateCalls _)
    · refine LogStep.mk _ rfl rfl ?_
      simp only [stages_append, stages_movieUpdateCalls]
      rfl
  · exact LogStep.refl _

/-- The first part of `drawNormalMode` makes no stage call. -/
theorem drawSceneLayers_step (st : GrimEngine) (set : Set) :
    LogStep st (drawSceneLayers st set) [] := by
  refine LogStep.mk _ rfl rfl ?_
  simp only [stages_append]
  rw [stages_map _ _ (by intro x; rfl)]
  split
  · simp only [stages_append, stages_movieUpdateCalls]
    split <;> rfl
  · rfl

/-- The post-camera-change notification makes no stage call. -/
theorem notifySetupChanged_step (st : GrimEngine) (set : Set) :
    LogStep st (notifySetupChanged st set) [] := by
  unfold notifySetupChanged
  split
  · exact LogStep.mk [Ev.luaCallback "postCamChangeHandler" [(set._currSetup : Int)]]
      rfl rfl rfl
  · exact LogStep.refl _

/-- The last part of `drawNormalMode` makes no stage call. -/
theorem drawActiveActors_step (st : GrimEngine) (set : Set) :
    LogStep st (drawActiveActors st set) [] := by
  refine LogStep.mk _ rfl rfl ?_
  rw [stages_append, stages_filterMap]
  · rfl
  · intro x e hx
    split at hx
    · split at hx
      · cases hx; rfl
      · cases hx
    · cases hx

/-- The function `drawNormalMode` makes no stage call. -/
theorem drawNormalMode_step (st st1 : GrimEngine) (h : drawNormalMode st = .ok st1) :
    LogStep st st1 [] := by
  unfold drawNormalMode at h
  rw [bind_eq_ok] at h
  obtain ⟨set, -, h⟩ := h
  rw [bind_eq_ok] at h
  obtain ⟨st3, h3, h⟩ := h
  simp only [pure, Except.pure, Except.ok.injEq] at h
  subst h
  exact ((drawSceneLayers_step st set).trans (notifySetupChanged_step _ set)).trans
    ((buildActiveActorsList_step _ _ h3).trans (drawActiveActors_step _ set))

/-- The function `updateNormalMode` makes no stage call. -/
theorem updateNormalMode_step (st st1 : GrimEngine) (h : updateNormalMode st = .ok st1) :
    LogStep st st1 [] := by
  unfold updateNormalMode at h
  split at h
  · cases h; exact LogStep.refl _
  · rw [bind_eq_ok] at h
    obtain ⟨st2, h2, h⟩ := h
    simp only [pure, Except.pure, Except.ok.injEq] at h
    subst h
    exact ((emit_step st Ev.clearScreen rfl).trans (drawNormalMode_step _ _ h2)).trans
      ((emit_step st2 Ev.drawBuffers rfl).trans (drawPrimitives_step _))

/-- The function `updateDisplayScene` makes no stage call. -/
theorem updateDisplayScene_step (st st1 : GrimEngine) (h : updateDisplayScene st = .ok st1) :
    LogStep st st1 [] := by
  unfold updateDisplayScene at h
  simp only [] at h
  have h0 : LogStep st { st with _doFlip := true } [] := LogStep.same rfl rfl
  split at h
  · cases h
    refine (h0.trans (updateSmushFrame_step _)).trans
      (LogStep.nil_trans ?_ (drawPrimitives_step _))
    exact LogStep.mk _ rfl rfl (stages_map _ _ (by intro x; rfl))
  · split at h
    · exact h0.trans (updateNormalMode_step _ _ h)
    · split at h
      · cases h; exact h0.trans (LogStep.same rfl rfl)
      · cases h; exact h0

/-- The function `storeSaveGameImage` begins the screenshot section and makes
no other stage call. -/
theorem storeSaveGameImage_step (st st1 : GrimEngine) (h : storeSaveGameImage st = .ok st1) :
    LogStep st st1 [Ev.beginSection SectionTag.SIMG] := by
  unfold storeSaveGameImage at h
  rw [bind_eq_ok] at h
  obtain ⟨st2, h2, h⟩ := h
  simp only [] at h
  split at h
  · have hw := writeSection_step _ _ _ _ h
    exact (((setMode_step st _).trans (updateDisplayScene_step _ _ h2)).trans
      ((emits_step st2 [Ev.storeDisplay, Ev.getScreenshot 250 188]).trans
        (setMode_step _ _))).trans hw
  · cases h

/-- The function `savegameCallback` makes no stage call. -/
theorem savegameCallback_step (st st1 : GrimEngine) (h : savegameCallback st = .ok st1) :
    LogStep st st1 [] := by
  unfold savegameCallback at h
  split at h
  · cases h
    exact LogStep.mk [Ev.luaCallback "saveGameCallback" []] rfl rfl rfl
  · cases h

/-- Closing the stream is no stage call. -/
theorem closeSaveGame_step (st : GrimEngine) : LogStep st (closeSaveGame st) [] := by
  unfold closeSaveGame
  split
  · exact LogStep.refl _
  · exact LogStep.mk _ rfl rfl rfl

/-- The last part of `savegameSave` makes no stage call. -/
theorem savegameSave_finish_step (st : GrimEngine) :
    LogStep st (savegameSave_finish st) [] := by
  unfold savegameSave_finish
  have h1 := closeSaveGame_step st
  have h2 := emits_step (closeSaveGame st) [Ev.imusePause false, Ev.moviePause false]
  refine (h1.trans h2).trans_nil ?_
  exact LogStep.mk [Ev.clearEventQueue] rfl rfl rfl

/-- The stage calls of the pool sections, in the order of the source. -/
theorem savePools_step (st st1 : GrimEngine) (h : savePools st = .ok st1) :
    LogStep st st1
      (([ SectionTag.pool PoolKind.Bitmap, SectionTag.pool PoolKind.Font,
         SectionTag.pool PoolKind.ObjectState, SectionTag.pool PoolKind.Set,
         SectionTag.pool PoolKind.TextObject, SectionTag.pool PoolKind.PrimitiveObject,
         SectionTag.pool PoolKind.Actor ] ++
       (if st._gameType = GType_MONKEY4 then
         [SectionTag.pool PoolKind.PoolSound, SectionTag.pool PoolKind.Layer]
        else [])).map Ev.beginSection) := by
  unfold savePools at h
  rw [bind_eq_ok] at h; obtain ⟨s1, h1, h⟩ := h
  rw [bind_eq_ok] at h; obtain ⟨s2, h2, h⟩ := h
  rw [bind_eq_ok] at h; obtain ⟨s3, h3, h⟩ := h
  rw [bind_eq_ok] at h; obtain ⟨s4, h4, h⟩ := h
  rw [bind_eq_ok] at h; obtain ⟨s5, h5, h⟩ := h
  rw [bind_eq_ok] at h; obtain ⟨s6, h6, h⟩ := h
  rw [bind_eq_ok] at h; obtain ⟨s7, h7, h⟩ := h
  have t7 := (((((((writeSection_step _ _ _ _ h1).trans (writeSection_step _ _ _ _ h2)).trans
    (writeSection_step _ _ _ _ h3)).trans (writeSection_step _ _ _ _ h4)).trans
    (writeSection_step _ _ _ _ h5)).trans (writeSection_step _ _ _ _ h6)).trans
    (writeSection_step _ _ _ _ h7))
  have hg : s7._gameType = st._gameType := t7.1
  split at h
  · rename_i hm
    rw [bind_eq_ok] at h; obtain ⟨s8, h8, h9⟩ := h
    have hm2 : st._gameType = GType_MONKEY4 := by rw [← hg]; exact hm
    rw [if_pos hm2]
    exact (t7.trans ((writeSection_step _ _ _ _ h8).trans (writeSection_step _ _ _ _ h9)))
  · rename_i hm
    cases h
    have hm2 : ¬ st._gameType = GType_MONKEY4 := by rw [← hg]; exact hm
    rw [if_neg hm2]
    exact t7.cast (by simp)

/-- The stage calls of the engine and collaborator sections of a save, in the
order of the source. -/
theorem saveSubsystems_step (st st1 : GrimEngine) (h : saveSubsystems st = .ok st1) :
    LogStep st st1 ([ SectionTag.GRIM, SectionTag.renderer, SectionTag.sound,
      SectionTag.movie, SectionTag.iris, SectionTag.lua ].map Ev.beginSection) := by
  unfold saveSubsystems at h
  rw [bind_eq_ok] at h; obtain ⟨s1, h1, h⟩ := h
  rw [bind_eq_ok] at h; obtain ⟨s2, h2, h⟩ := h
  rw [bind_eq_ok] at h; obtain ⟨s3, h3, h⟩ := h
  rw [bind_eq_ok] at h; obtain ⟨s4, h4, h⟩ := h
  rw [bind_eq_ok] at h; obtain ⟨s5, h5, h6⟩ := h
  exact ((((((saveGRIM_step _ _ h1).1.trans (writeSection_step _ _ _ _ h2)).trans
    (writeSection_step _ _ _ _ h3)).trans (writeSection_step _ _ _ _ h4)).trans
    (writeSection_step _ _ _ _ h5)).trans (writeSection_step _ _ _ _ h6))

/-- The stage calls of a `savegameSave` whose stream opened: the stream is
opened, then the screenshot section and the sections of `sectionOrder` are
begun. -/
theorem savegameSave_step (st st1 : GrimEngine) (hw : st.g_saveFiles._writable = true)
    (h : savegameSave st = .ok st1) :
    LogStep st st1 (Ev.openForSaving st.saveFileName ::
      Ev.beginSection SectionTag.SIMG :: sectionStages st._gameType) := by
  unfold savegameSave at h
  simp only [openForSaving, hw, if_true] at h
  rw [bind_eq_ok] at h; obtain ⟨s1, h1, h⟩ := h
  rw [bind_eq_ok] at h; obtain ⟨s2, h2, h⟩ := h
  rw [bind_eq_ok] at h; obtain ⟨s3, h3, h⟩ := h
  rw [bind_eq_ok] at h; obtain ⟨s4, h4, h⟩ := h
  simp only [pure, Except.pure, Except.ok.injEq] at h
  subst h
  have a1 : LogStep st s1 ([Ev.openForSaving st.saveFileName] ++
      [Ev.beginSection SectionTag.SIMG]) := by
    refine LogStep.trans ?_ (storeSaveGameImage_step _ _ h1)
    exact LogStep.mk _ rfl rfl rfl
  have a2 := (emits_step s1 [Ev.imusePause true, Ev.moviePause true]).trans
    (savegameCallback_step _ _ h2)
  have a3 := savePools_step _ _ h3
  have a4 := saveSubsystems_step _ _ h4
  have a5 := savegameSave_finish_step s4
  have hg : s2._gameType = st._gameType := (a1.trans a2).1
  rw [hg] at a3
  exact ((((a1.trans a2).trans a3).trans a4).trans a5).cast (by
    simp [sectionStages, sectionOrder, stages, Ev.isStage])

/-- The stage calls of the pool sections of a restore, in the order of the
source. -/
theorem restorePools_step (st st1 : GrimEngine) (h : restorePools st = .ok st1) :
    LogStep st st1
      (([ SectionTag.pool PoolKind.Bitmap, SectionTag.pool PoolKind.Font,
         SectionTag.pool PoolKind.ObjectState, SectionTag.pool PoolKind.Set,
         SectionTag.pool PoolKind.TextObject, SectionTag.pool PoolKind.PrimitiveObject,
         SectionTag.pool PoolKind.Actor ] ++
       (if st._gameType = GType_MONKEY4 then
         [SectionTag.pool PoolKind.PoolSound, SectionTag.pool PoolKind.Layer]
        else [])).map Ev.beginSection) := by
  unfold restorePools at h
  rw [bind_eq_ok] at h; obtain ⟨⟨p1, s1⟩, h1, h⟩ := h
  simp only [] at h
  rw [bind_eq_ok] at h; obtain ⟨⟨p2, s2⟩, h2, h⟩ := h
  simp only [] at h
  rw [bind_eq_ok] at h; obtain ⟨⟨p3, s3⟩, h3, h⟩ := h
  simp only [] at h
  rw [bind_eq_ok] at h; obtain ⟨⟨p4, s4⟩, h4, h⟩ := h
  simp only [] at h
  rw [bind_eq_ok] at h; obtain ⟨⟨p5, s5⟩, h5, h⟩ := h
  simp only [] at h
  rw [bind_eq_ok] at h; obtain ⟨⟨p6, s6⟩, h6, h⟩ := h
  simp only [] at h
  rw [bind_eq_ok] at h; obtain ⟨⟨p7, s7⟩, h7, h⟩ := h
  simp only [] at h
  have t1 := (restoreObjects_step _ _ _ _ _ h1).1
  have t2 := (restoreObjects_step _ _ _ _ _ h2).1
  have t3 := (restoreObjects_step _ _ _ _ _ h3).1
  have t4 := (restoreObjects_step _ _ _ _ _ h4).1
  have t5 := (restoreObjects_step _ _ _ _ _ h5).1
  have t6 := (restoreObjects_step _ _ _ _ _ h6).1
  have t7 := (restoreObjects_step _ _ _ _ _ h7).1
  have u1 : LogStep s1 { s1 with Bitmap_pool := p1 } [] := LogStep.same rfl rfl
  have u2 : LogStep s2 { s2 with Font_pool := p2 } [] := LogStep.same rfl rfl
  have u3 : LogStep s3 { s3 with ObjectState_pool := p3 } [] := LogStep.same rfl rfl
  have u4 : LogStep s4 { s4 with Set_pool := p4 } [] := LogStep.same rfl rfl
  have u5 : LogStep s5 { s5 with TextObject_pool := p5 } [] := LogStep.same rfl rfl
  have u6 : LogStep s6 { s6 with PrimitiveObject_pool := p6 } [] := LogStep.same rfl rfl
  have u7 : LogStep s7 { s7 with Actor_pool := p7 } [] := LogStep.same rfl rfl
  have t := ((((((((t1.trans_nil u1).trans (t2.trans_nil u2)).trans (t3.trans_nil u3)).trans
    (t4.trans_nil u4)).trans (t5.trans_nil u5)).trans (t6.trans_nil u6)).trans
    (t7.trans_nil u7)))
  have hg : s7._gameType = st._gameType := t.1
  split at h
  · rename_i hm
    have hm2 : st._gameType = GType_MONKEY4 := by rw [← hg]; exact hm
    rw [if_pos hm2]
    rw [bind_eq_ok] at h; obtain ⟨⟨p8, s8⟩, h8, h⟩ := h
    simp only [] at h
    rw [bind_eq_ok] at h; obtain ⟨⟨p9, s9⟩, h9, h⟩ := h
    simp only [pure, Except.pure, Except.ok.injEq] at h
    subst h
    have t8 := (restoreObjects_step _ _ _ _ _ h8).1
    have t9 := (restoreObjects_step _ _ _ _ _ h9).1
    have u8 : LogStep s8 { s8 with PoolSound_pool := p8 } [] := LogStep.same rfl rfl
    have u9 : LogStep s9 { s9 with Layer_pool := p9 } [] := LogStep.same rfl rfl
    exact t.trans ((t8.trans_nil u8).trans (t9.trans_nil u9))
  · rename_i hm
    have hm2 : ¬ st._gameType = GType_MONKEY4 := by rw [← hg]; exact hm
    rw [if_neg hm2]
    cases h
    exact t.cast (by simp)

/-- The stage calls of the engine and collaborator sections of a restore, in
the order of the source. -/
theorem restoreSubsystems_step (st st1 : GrimEngine) (h : restoreSubsystems st = .ok st1) :
    LogStep st st1 ([ SectionTag.GRIM, SectionTag.renderer, SectionTag.sound,
      SectionTag.movie, SectionTag.iris, SectionTag.lua ].map Ev.beginSection) := by
  unfold restoreSubsystems at h
  rw [bind_eq_ok] at h; obtain ⟨s1, h1, h⟩ := h
  rw [bind_eq_ok] at h; obtain ⟨⟨p2, s2⟩, h2, h⟩ := h
  simp only [] at h
  rw [bind_eq_ok] at h; obtain ⟨⟨p3, s3⟩, h3, h⟩ := h
  simp only [] at h
  rw [bind_eq_ok] at h; obtain ⟨⟨p4, s4⟩, h4, h⟩ := h
  simp only [] at h
  rw [bind_eq_ok] at h; obtain ⟨m, -, h⟩ := h
  rw [bind_eq_ok] at h; obtain ⟨⟨p5, s5⟩, h5, h⟩ := h
  simp only [] at h
  rw [bind_eq_ok] at h; obtain ⟨⟨p6, s6⟩, h6, h⟩ := h
  simp only [pure, Except.pure, Except.ok.injEq] at h
  subst h
  have t1 := restoreGRIM_step _ _ h1
  have t2 := (readSection_step _ _ _ _ h2).1
  have t3 := (readSection_step _ _ _ _ h3).1
  have t4 := (readSection_step _ _ _ _ h4).1
  have t5 := (readSection_step _ _ _ _ h5).1
  have t6 := (readSection_step _ _ _ _ h6).1
  have u2 : LogStep s2 { s2 with g_driver := { s2.g_driver with _state := p2 } } [] :=
    LogStep.same rfl rfl
  have u3 : LogStep s3 { s3 with g_sound := p3 } [] := LogStep.same rfl rfl
  have u4 : LogStep s4 { s4 with g_movie := m } [] := LogStep.same rfl rfl
  have u5 : LogStep s5 { s5 with _iris := p5 } [] := LogStep.same rfl rfl
  have u6 : LogStep s6 { s6 with g_lua := { s6.g_lua with _state := p6 } } [] :=
    LogStep.same rfl rfl
  exact (((((t1.trans (t2.trans_nil u2)).trans (t3.trans_nil u3)).trans
    (t4.trans_nil u4)).trans (t5.trans_nil u5)).trans (t6.trans_nil u6))

/-- The first part of `savegameRestore` makes no stage call. -/
theorem savegameRestore_prepare_step (st : GrimEngine) :
    LogStep st (savegameRestore_prepare st) [] := by
  refine LogStep.mk _ rfl rfl ?_
  simp only [stages_append]
  split <;> split <;> rfl

/-- The part of `savegameRestore` after the last section makes no stage call. -/
theorem savegameRestore_resume_step (st : GrimEngine) :
    LogStep st (savegameRestore_resume st) [] := by
  unfold savegameRestore_resume
  have h1 := closeSaveGame_step st
  have h2 := emits_step (closeSaveGame st)
    [Ev.mixerSetVolumes, Ev.luaPostRestoreHandle, Ev.imusePause false, Ev.moviePause false]
  refine (h1.trans h2).trans_nil ?_
  exact LogStep.mk [Ev.clearEventQueue] rfl rfl rfl

/-- The stage calls of `savegameRestore` once its stream is open and
compatible: the sections of `sectionOrder` are begun. -/
theorem savegameRestoreBody_step (st st1 : GrimEngine)
    (h : savegameRestoreBody st = .ok st1) :
    LogStep st st1 (sectionStages st._gameType) := by
  unfold savegameRestoreBody at h
  rw [bind_eq_ok] at h; obtain ⟨s1, h1, h⟩ := h
  rw [bind_eq_ok] at h; obtain ⟨s2, h2, h⟩ := h
  rw [bind_eq_ok] at h; obtain ⟨s3, h3, h⟩ := h
  rw [bind_eq_ok] at h; obtain ⟨set, -, h⟩ := h
  simp only [pure, Except.pure, Except.ok.injEq] at h
  subst h
  have a0 := savegameRestore_prepare_step st
  have a1 := restorePools_step _ _ h1
  have hg : (savegameRestore_prepare st)._gameType = st._gameType := a0.1
  rw [hg] at a1
  have a2 := restoreSubsystems_step _ _ h2
  have a3 := (savegameRestore_resume_step s2).trans (buildActiveActorsList_step _ _ h3)
  have a4 : LogStep s3 (s3.emits
      ([Ev.refreshBuffers, Ev.setSetupCamera set.id, Ev.set3DMode] ++
        s3.Actor_pool.map (fun a => Ev.actorRestoreCleanBuffer a.id))) [] := by
    refine LogStep.mk _ rfl rfl ?_
    rw [stages_append, stages_map _ _ (by intro x; rfl)]
    rfl
  exact ((((a0.nil_trans a1).trans a2).trans a3).trans a4).cast (by
    simp [sectionStages, sectionOrder])

/-- The stage calls of a `savegameRestore` whose stream is open and compatible:
the stream is opened, then the sections of `sectionOrder` are begun. -/
theorem savegameRestore_step (st st1 : GrimEngine) (r : SaveGame)
    (ho : openForLoading st st.loadFileName = some r) (hc : isCompatible st r = true)
    (h : savegameRestore st = .ok st1) :
    LogStep st st1 (Ev.openForLoading st.loadFileName :: sectionStages st._gameType) := by
  unfold savegameRestore at h
  have hname : ({ st with _savegameLoadRequest := false } : GrimEngine).loadFileName
      = st.loadFileName := rfl
  have hopen : ∀ f, openForLoading ({ st with _savegameLoadRequest := false } : GrimEngine) f
      = openForLoading st f := fun _ => rfl
  simp only [hname, hopen, ho] at h
  simp only [isCompatible] at hc h
  simp only [hc, Bool.not_true, Bool.false_eq_true, if_false] at h
  have a1 := savegameRestoreBody_step _ _ h
  refine LogStep.cast (LogStep.trans ?_ a1) (List.singleton_append)
  exact LogStep.mk _ rfl rfl rfl

/-! ### Pool records read back -/

/-- Reading back the scalars that were written. -/
theorem readInts_encode (vs : List Int) (rest : List Field) :
    readInts vs.length (vs.map Field.sint32 ++ rest) = some (vs, rest) := by
  induction vs with
  | nil => rfl
  | cons v l ih => simp [readInts, ih]

/-- Reading back the setup names that were written. -/
theorem readSetups_encode (ss : List Setup) (rest : List Field) :
    readSetups ss.length (ss.map (fun p => Field.string p._name) ++ rest) = some (ss, rest) := by
  induction ss with
  | nil => rfl
  | cons s l ih => simp [readSetups, ih]

/-- The save record of an opaque entity reads back as the entity. -/
theorem poolObject_record_roundtrip (o : PoolObject) (rest : List Field) :
    PoolObject.restoreState o.id (o.saveState ++ rest) = some (o, rest) := by
  simp [PoolObject.restoreState, PoolObject.saveState, readInts_encode]

/-- The save record of an actor reads back as the actor. -/
theorem actor_record_roundtrip (a : Actor) (rest : List Field) :
    Actor.restoreState a.id (a.saveState ++ rest) = some (a, rest) := by
  simp [Actor.restoreState, Actor.saveState]

/-- The save record of a Set reads back as the Set. -/
theorem set_record_roundtrip (s : Set) (rest : List Field) :
    Set.restoreState s.id (s.saveState ++ rest) = some (s, rest) := by
  simp [Set.restoreState, Set.saveState, readSetups_encode]

/-- The records of a pool read back as the pool, when every record does. -/
theorem decodeRecords_encodeRecords {α : Type} (ident : α → Int)
    (saveState : α → List Field)
    (restoreState : Int → List Field → Option (α × List Field))
    (hrt : ∀ o rest, restoreState (ident o) (saveState o ++ rest) = some (o, rest))
    (pool : List α) :
    decodeRecords restoreState pool.length (encodeRecords ident saveState pool) = some pool := by
  induction pool with
  | nil => rfl
  | cons o l ih => simp [decodeRecords, encodeRecords, hrt, ih]

/-- The payload of a pool reads back as the pool, when every record does. -/
theorem decodePool_encodePool {α : Type} (ident : α → Int)
    (saveState : α → List Field)
    (restoreState : Int → List Field → Option (α × List Field))
    (hrt : ∀ o rest, restoreState (ident o) (saveState o ++ rest) = some (o, rest))
    (pool : List α) :
    decodePool restoreState (encodePool ident saveState pool) = some pool := by
  simp [decodePool, encodePool, decodeRecords_encodeRecords ident saveState restoreState hrt]


/-! ### What drawing leaves alone -/

/-- The function `setMode` leaves the world alone. -/
theorem setMode_world (st : GrimEngine) (m : EngineMode) : (setMode st m).world = st.world :=
  rfl

/-- Logging leaves the world alone. -/
theorem emits_world (st : GrimEngine) (evs : List Ev) : (st.emits evs).world = st.world :=
  rfl

/-- Logging leaves the world alone. -/
theorem emit_world (st : GrimEngine) (e : Ev) : (st.emit e).world = st.world :=
  rfl

/-- The function `buildActiveActorsList` leaves the world alone. -/
theorem buildActiveActorsList_world (st st1 : GrimEngine)
    (h : buildActiveActorsList st = .ok st1) : st1.world = st.world := by
  unfold buildActiveActorsList at h
  split at h
  · cases h; rfl
  · split at h
    · split at h
      · cases h
      · cases h; rfl
    · cases h; rfl

/-- The function `drawPrimitives` leaves the world alone. -/
theorem drawPrimitives_world (st : GrimEngine) : (drawPrimitives st).world = st.world :=
  rfl

/-- The Smush branch of `updateDisplayScene` leaves the world alone. -/
theorem updateSmushFrame_world (st : GrimEngine) : (updateSmushFrame st).world = st.world := by
  unfold updateSmushFrame
  simp only []
  split
  · split
    · split <;> rfl
    · rfl
  · rfl

/-- The first part of `drawNormalMode` leaves the world alone. -/
theorem drawSceneLayers_world (st : GrimEngine) (set : Set) :
    (drawSceneLayers st set).world = st.world :=
  rfl

/-- The post-camera-change notification leaves the world alone. -/
theorem notifySetupChanged_world (st : GrimEngine) (set : Set) :
    (notifySetupChanged st set).world = st.world := by
  unfold notifySetupChanged
  split <;> rfl

/-- The last part of `drawNormalMode` leaves the world alone. -/
theorem drawActiveActors_world (st : GrimEngine) (set : Set) :
    (drawActiveActors st set).world = st.world :=
  rfl

/-- The function `drawNormalMode` leaves the world alone. -/
theorem drawNormalMode_world (st st1 : GrimEngine) (h : drawNormalMode st = .ok st1) :
    st1.world = st.world := by
  unfold drawNormalMode at h
  rw [bind_eq_ok] at h
  obtain ⟨set, -, h⟩ := h
  rw [bind_eq_ok] at h
  obtain ⟨st3, h3, h⟩ := h
  simp only [pure, Except.pure, Except.ok.injEq] at h
  subst h
  rw [drawActiveActors_world, buildActiveActorsList_world _ _ h3, notifySetupChanged_world,
    drawSceneLayers_world]

/-- The function `updateNormalMode` leaves the world alone. -/
theorem updateNormalMode_world (st st1 : GrimEngine) (h : updateNormalMode st = .ok st1) :
    st1.world = st.world := by
  unfold updateNormalMode at h
  split at h
  · cases h; rfl
  · rw [bind_eq_ok] at h
    obtain ⟨st2, h2, h⟩ := h
    simp only [pure, Except.pure, Except.ok.injEq] at h
    subst h
    rw [drawPrimitives_world, emit_world, drawNormalMode_world _ _ h2, emit_world]

/-- The function `updateDisplayScene` leaves the world alone. -/
theorem updateDisplayScene_world (st st1 : GrimEngine) (h : updateDisplayScene st = .ok st1) :
    st1.world = st.world := by
  unfold updateDisplayScene at h
  simp only [] at h
  split at h
  · cases h
    rw [drawPrimitives_world, emits_world, updateSmushFrame_world]
    rfl
  · split at h
    · rw [updateNormalMode_world _ _ h]; rfl
    · split at h
      · cases h; rfl
      · cases h; rfl

/-- The function `savegameCallback` leaves the world alone. -/
theorem savegameCallback_world (st st1 : GrimEngine) (h : savegameCallback st = .ok st1) :
    st1.world = st.world := by
  unfold savegameCallback at h
  split at h
  · cases h; rfl
  · cases h

/-! ### What a save writes -/

/-- Two writes in a row. -/
theorem Wrote.append {a b c : GrimEngine} {x y : List Section}
    (h1 : Wrote a b x) (h2 : Wrote b c y) : Wrote a c (x ++ y) := by
  obtain ⟨w, hw, hs, hb⟩ := h1
  obtain ⟨w1, hw1, hs1, hc⟩ := h2
  have e : b._savedState = some { w with
      _sections := w._sections ++ x, _currentSection := none, _sectionBuffer := [] } := by
    have := congrArg World.savedState hb
    exact this
  rw [e] at hw1
  cases hw1
  refine ⟨w, hw, hs, ?_⟩
  rw [hc, hb]
  simp only [List.append_assoc]

/-- A step that leaves the world alone, before a write. -/
theorem Wrote.after {a b c : GrimEngine} {x : List Section}
    (h1 : b.world = a.world) (h2 : Wrote b c x) : Wrote a c x := by
  obtain ⟨w, hw, hs, hc⟩ := h2
  have e : b._savedState = a._savedState := congrArg World.savedState h1
  exact ⟨w, e ▸ hw, hs, by rw [hc, h1]⟩

/-- A step that leaves the world alone, after a write. -/
theorem Wrote.before {a b c : GrimEngine} {x : List Section}
    (h1 : Wrote a b x) (h2 : c.world = b.world) : Wrote a c x := by
  obtain ⟨w, hw, hs, hc⟩ := h1
  exact ⟨w, hw, hs, by rw [h2, hc]⟩

/-- The world a write starts from, read off what it ends with. -/
theorem Wrote.world_eq {a b : GrimEngine} {x : List Section} (h : Wrote a b x) :
    { b.world with savedState := none } = { a.world with savedState := none } := by
  obtain ⟨w, hw, hs, hc⟩ := h
  rw [hc]

/-- A section written through a handle: the handle is a writer, and the
section is appended to its closed sections. -/
theorem SaveGame.section_written (w w2 : SaveGame) (tag : SectionTag) (fs : List Field)
    (h : (w.beginSection tag >>= fun a => a.writeFields fs >>= fun b => b.endSection)
      = .ok w2) :
    w._saving = true ∧ w2 = { w with
      _sections := w._sections ++ [⟨tag, fs⟩], _currentSection := none,
      _sectionBuffer := [] } := by
  rcases w with ⟨sv, fn, M, m, secs, cur, buf⟩
  cases sv with
  | false =>
    cases cur with
    | some t => simp [SaveGame.beginSection, bind, Except.bind] at h
    | none =>
      cases hf : findSection tag secs with
      | none => simp [SaveGame.beginSection, bind, Except.bind, hf] at h
      | some p =>
        simp [SaveGame.beginSection, bind, Except.bind, hf, SaveGame.writeFields] at h
  | true =>
    cases cur with
    | some t => simp [SaveGame.beginSection, bind, Except.bind] at h
    | none =>
      simp [SaveGame.beginSection, bind, Except.bind, SaveGame.writeFields,
        SaveGame.endSection] at h
      exact ⟨rfl, h.symm⟩

/-- The step `writeSection` appends its section to the stream. -/
theorem writeSection_wrote (st st1 : GrimEngine) (tag : SectionTag) (fs : List Field)
    (h : writeSection st tag fs = .ok st1) : Wrote st st1 [⟨tag, fs⟩] := by
  unfold writeSection at h
  rw [bind_eq_ok] at h
  obtain ⟨w, hw, h⟩ := h
  have hw2 : st._savedState = some w := by
    unfold GrimEngine.derefSavedState at hw
    split at hw
    · cases hw; assumption
    · cases hw
  rw [bind_eq_ok] at h
  obtain ⟨a, ha, h⟩ := h
  rw [bind_eq_ok] at h
  obtain ⟨b, hb, h⟩ := h
  rw [bind_eq_ok] at h
  obtain ⟨c, hc, h⟩ := h
  have hx : (w.beginSection tag >>= fun a => a.writeFields fs >>= fun b => b.endSection)
      = .ok c := by
    rw [bind_eq_ok]; refine ⟨a, ha, ?_⟩
    rw [bind_eq_ok]; exact ⟨b, hb, hc⟩
  obtain ⟨hs, e⟩ := SaveGame.section_written w c tag fs hx
  simp only [pure, Except.pure, Except.ok.injEq] at h
  subst h
  subst e
  exact ⟨w, hw2, hs, rfl⟩

/-- A handle that opened a section and took a value is a writer with no
section open before. -/
theorem SaveGame.writer_of_write (w a b : SaveGame) (tag : SectionTag) (f : Field)
    (h1 : w.beginSection tag = .ok a) (h2 : a.write f = .ok b) :
    w._saving = true ∧ w._currentSection = none := by
  rcases w with ⟨sv, fn, M, m, secs, cur, buf⟩
  cases cur with
  | some t => simp [SaveGame.beginSection] at h1
  | none =>
    cases sv with
    | true => exact ⟨rfl, rfl⟩
    | false =>
      cases hf : findSection tag secs with
      | none => simp [SaveGame.beginSection, hf] at h1
      | some p =>
        simp [SaveGame.beginSection, hf] at h1
        subst h1
        simp [SaveGame.write] at h2

/-- The dereference of `_savedState` answers the stream the member holds. -/
theorem derefSavedState_ok (st : GrimEngine) (w : SaveGame)
    (h : st.derefSavedState = .ok w) : st._savedState = some w := by
  unfold GrimEngine.derefSavedState at h
  split at h
  · cases h; assumption
  · cases h

/-- The function `saveGRIM` appends the engine section to the stream; the
identity of the current Set it writes is that of a live Set. -/
theorem saveGRIM_wrote (st st1 : GrimEngine) (h : saveGRIM st = .ok st1) :
    ∃ sel fontId sub setId,
      derefId Set.id st.Set_pool "_currSet" st._currSet = .ok setId ∧
      Wrote st st1 [⟨SectionTag.GRIM, grimFields st sel fontId sub setId⟩] := by
  have h0 := h
  unfold saveGRIM at h
  rw [bind_eq_ok] at h; obtain ⟨w, hw, h⟩ := h
  rw [bind_eq_ok] at h; obtain ⟨a1, h2, h⟩ := h
  rw [bind_eq_ok] at h; obtain ⟨a2, h3, h⟩ := h
  rw [bind_eq_ok] at h; obtain ⟨a3, -, h⟩ := h
  rw [bind_eq_ok] at h; obtain ⟨a4, hsel4, h⟩ := h
  rw [bind_eq_ok] at h; obtain ⟨a5, -, h⟩ := h
  rw [bind_eq_ok] at h; obtain ⟨fontId, hfont, h⟩ := h
  rw [bind_eq_ok] at h; obtain ⟨_, -, h⟩ := h
  rw [bind_eq_ok] at h; obtain ⟨_, -, h⟩ := h
  rw [bind_eq_ok] at h; obtain ⟨_, -, h⟩ := h
  rw [bind_eq_ok] at h; obtain ⟨_, -, h⟩ := h
  rw [bind_eq_ok] at h; obtain ⟨_, -, h⟩ := h
  rw [bind_eq_ok] at h; obtain ⟨_, -, h⟩ := h
  rw [bind_eq_ok] at h; obtain ⟨_, -, h⟩ := h
  rw [bind_eq_ok] at h; obtain ⟨sub, hsub, h⟩ := h
  rw [bind_eq_ok] at h; obtain ⟨_, -, h⟩ := h
  rw [bind_eq_ok] at h; obtain ⟨setId, hset, -⟩ := h
  have hw2 := derefSavedState_ok st w hw
  obtain ⟨hsaving, hopen⟩ := SaveGame.writer_of_write w a1 a2 _ _ h2 h3
  have hsel : ∃ sel, (match st._selectedActor with
      | some a => derefId Actor.id st.Actor_pool "_selectedActor" (some a)
      | none => .ok 0) = .ok sel := by
    cases hs : st._selectedActor with
    | none => exact ⟨0, rfl⟩
    | some a =>
      simp only [hs] at hsel4
      rw [bind_eq_ok] at hsel4
      obtain ⟨id, hid, -⟩ := hsel4
      exact ⟨id, hid⟩
  obtain ⟨sel, hsel⟩ := hsel
  have e := saveGRIM_eq st w sel fontId sub setId hw2 hsaving hopen hsel hfont hsub hset
  rw [e] at h0
  cases h0
  exact ⟨sel, fontId, sub, setId, hset, w, hw2, hsaving, rfl⟩

/-- The function `storeSaveGameImage` appends the screenshot section to the
stream. -/
theorem storeSaveGameImage_wrote (st st1 : GrimEngine)
    (h : storeSaveGameImage st = .ok st1) :
    ∃ data, Wrote st st1 [⟨SectionTag.SIMG, data⟩] := by
  unfold storeSaveGameImage at h
  rw [bind_eq_ok] at h
  obtain ⟨st2, h2, h⟩ := h
  simp only [] at h
  split at h
  · refine ⟨_, Wrote.after ?_ (writeSection_wrote _ _ _ _ h)⟩
    rw [setMode_world, emits_world, updateDisplayScene_world _ _ h2, setMode_world]
  · cases h

/-- The function `savePools` appends the pool sections of the world to the
stream. -/
theorem savePools_wrote (st st1 : GrimEngine) (h : savePools st = .ok st1) :
    Wrote st st1 st.world.poolSections := by
  unfold savePools at h
  rw [bind_eq_ok] at h; obtain ⟨s1, h1, h⟩ := h
  rw [bind_eq_ok] at h; obtain ⟨s2, h2, h⟩ := h
  rw [bind_eq_ok] at h; obtain ⟨s3, h3, h⟩ := h
  rw [bind_eq_ok] at h; obtain ⟨s4, h4, h⟩ := h
  rw [bind_eq_ok] at h; obtain ⟨s5, h5, h⟩ := h
  rw [bind_eq_ok] at h; obtain ⟨s6, h6, h⟩ := h
  rw [bind_eq_ok] at h; obtain ⟨s7, h7, h⟩ := h
  have w1 := writeSection_wrote _ _ _ _ h1
  have e1 := w1.world_eq
  have w2 := w1.append (writeSection_wrote _ _ _ _ h2)
  have e2 := w2.world_eq
  have w3 := w2.append (writeSection_wrote _ _ _ _ h3)
  have e3 := w3.world_eq
  have w4 := w3.append (writeSection_wrote _ _ _ _ h4)
  have e4 := w4.world_eq
  have w5 := w4.append (writeSection_wrote _ _ _ _ h5)
  have e5 := w5.world_eq
  have w6 := w5.append (writeSection_wrote _ _ _ _ h6)
  have e6 := w6.world_eq
  have w7 := w6.append (writeSection_wrote _ _ _ _ h7)
  have e7 := w7.world_eq
  have p1 : s1.Font_pool = st.Font_pool := congrArg World.fonts e1
  have p2 : s2.ObjectState_pool = st.ObjectState_pool := congrArg World.objectStates e2
  have p3 : s3.Set_pool = st.Set_pool := congrArg World.sets e3
  have p4 : s4.TextObject_pool = st.TextObject_pool := congrArg World.textObjects e4
  have p5 : s5.PrimitiveObject_pool = st.PrimitiveObject_pool :=
    congrArg World.primitives e5
  have p6 : s6.Actor_pool = st.Actor_pool := congrArg World.actors e6
  have p7 : s7.PoolSound_pool = st.PoolSound_pool := congrArg World.poolSounds e7
  have hg : s7._gameType = st._gameType := congrArg World.gameType e7
  rw [p1, p2, p3, p4, p5, p6] at w7
  split at h
  · rename_i hm
    rw [bind_eq_ok] at h; obtain ⟨s8, h8, h9⟩ := h
    have w8 := w7.append (writeSection_wrote _ _ _ _ h8)
    have e8 := w8.world_eq
    have p8 : s8.Layer_pool = st.Layer_pool := congrArg World.layers e8
    have w9 := w8.append (writeSection_wrote _ _ _ _ h9)
    rw [p7, p8] at w9
    have hm2 : st._gameType = GType_MONKEY4 := by rw [← hg]; exact hm
    unfold World.poolSections
    rw [if_pos (show st.world.gameType = GType_MONKEY4 from hm2)]
    exact w9
  · rename_i hm
    cases h
    have hm2 : ¬ st._gameType = GType_MONKEY4 := by rw [← hg]; exact hm
    unfold World.poolSections
    rw [if_neg (show ¬ st.world.gameType = GType_MONKEY4 from hm2), List.append_nil]
    exact w7

/-- The function `saveSubsystems` appends the engine section and five more
sections to the stream; the identity of the current Set in the engine section
is that of a live Set. -/
theorem saveSubsystems_wrote (st st1 : GrimEngine) (h : saveSubsystems st = .ok st1) :
    ∃ sel fontId sub setId tail,
      derefId Set.id st.Set_pool "_currSet" st._currSet = .ok setId ∧
      Wrote st st1 (⟨SectionTag.GRIM, grimFields st sel fontId sub setId⟩ :: tail) := by
  unfold saveSubsystems at h
  rw [bind_eq_ok] at h; obtain ⟨s1, h1, h⟩ := h
  rw [bind_eq_ok] at h; obtain ⟨s2, h2, h⟩ := h
  rw [bind_eq_ok] at h; obtain ⟨s3, h3, h⟩ := h
  rw [bind_eq_ok] at h; obtain ⟨s4, h4, h⟩ := h
  rw [bind_eq_ok] at h; obtain ⟨s5, h5, h6⟩ := h
  obtain ⟨sel, fontId, sub, setId, hset, w1⟩ := saveGRIM_wrote _ _ h1
  exact ⟨sel, fontId, sub, setId, _, hset,
    w1.append ((((writeSection_wrote _ _ _ _ h2).append (writeSection_wrote _ _ _ _ h3)).append
      (writeSection_wrote _ _ _ _ h4)).append
      ((writeSection_wrote _ _ _ _ h5).append (writeSection_wrote _ _ _ _ h6)))⟩

/-- The pool sections of a world do not depend on its save stream. -/
theorem World.poolSections_congr (a b : World)
    (h : { a with savedState := none } = { b with savedState := none }) :
    a.poolSections = b.poolSections := by
  have e : ∀ w : World, w.poolSections = ({ w with savedState := none } : World).poolSections :=
    fun _ => rfl
  rw [e a, e b, h]

/-- The last part of `savegameSave` on an open writer: the stream becomes the
file of its name. -/
theorem savegameSave_finish_world (st : GrimEngine) (w : SaveGame)
    (hs : st._savedState = some w) (hsv : w._saving = true) :
    (savegameSave_finish st).world = { st.world with
      savedState := none,
      files := { st.g_saveFiles with
        _files := (w._filename, ⟨w._majorVersion, w._minorVersion, w._sections⟩) ::
          st.g_saveFiles._files.filter (fun f => f.1 != w._filename) } } := by
  unfold savegameSave_finish closeSaveGame
  simp only [hs]
  simp only [clearEventQueue, GrimEngine.emit, GrimEngine.emits, GrimEngine.world, hsv, if_true]

/-- The file a completed `savegameSave` leaves: under the name of the request,
with the version of the build, the screenshot section, the pool sections of the
world, the engine section with the identity of the live current Set, and the
sections of the collaborators. The rest of the world is unchanged. -/
theorem savegameSave_file (st st1 : GrimEngine) (hw : st.g_saveFiles._writable = true)
    (h : savegameSave st = .ok st1) :
    ∃ (image : List Field) (g : GrimEngine) (sel fontId sub setId : Int)
      (tail : List Section),
      derefId Set.id st.Set_pool "_currSet" st._currSet = .ok setId ∧
      st1.world = { st.world with
        savedState := none,
        files := { st.g_saveFiles with
          _files := (st.saveFileName,
            ⟨st.SAVEGAME_MAJOR_VERSION, st.SAVEGAME_MINOR_VERSION,
              ⟨SectionTag.SIMG, image⟩ :: (st.world.poolSections ++
                ⟨SectionTag.GRIM, grimFields g sel fontId sub setId⟩ :: tail)⟩) ::
            st.g_saveFiles._files.filter (fun f => f.1 != st.saveFileName) } } := by
  unfold savegameSave at h
  simp only [openForSaving, hw, if_true] at h
  rw [bind_eq_ok] at h; obtain ⟨s1, h1, h⟩ := h
  rw [bind_eq_ok] at h; obtain ⟨s2, h2, h⟩ := h
  rw [bind_eq_ok] at h; obtain ⟨s3, h3, h⟩ := h
  rw [bind_eq_ok] at h; obtain ⟨s4, h4, h⟩ := h
  simp only [pure, Except.pure, Except.ok.injEq] at h
  subst h
  obtain ⟨image, W1⟩ := storeSaveGameImage_wrote _ _ h1
  have W2 : Wrote _ s2 [⟨SectionTag.SIMG, image⟩] :=
    W1.before (by rw [savegameCallback_world _ _ h2, emits_world])
  have e2 := W2.world_eq
  have W3 := savePools_wrote _ _ h3
  rw [World.poolSections_congr _ _ e2] at W3
  have W23 := W2.append W3
  have e3 := W23.world_eq
  obtain ⟨sel, fontId, sub, setId, tail, hset, W4⟩ := saveSubsystems_wrote _ _ h4
  have q1 : s3.Set_pool = st.Set_pool := congrArg World.sets e3
  have q2 : s3._currSet = st._currSet := congrArg World.currSet e3
  rw [q1, q2] at hset
  obtain ⟨w, hw0, hsv, hworld⟩ := W23.append W4
  cases hw0
  refine ⟨image, s3, sel, fontId, sub, setId, tail, hset, ?_⟩
  have hs4 := congrArg World.savedState hworld
  have hf4 : s4.g_saveFiles = st.g_saveFiles := congrArg World.files hworld
  rw [savegameSave_finish_world s4 _ hs4 rfl, hworld, hf4]
  rfl

/-! ### What a restore reads -/

/-- A state with the same world has the same scene. -/
theorem scene_of_world {a b : GrimEngine} (h : a.world = b.world) : a.scene = b.scene :=
  congrArg (fun w : World => (w.currSet, w.sets, w.actors, w.changeHardwareState)) h

/-- The step `readSection` on a reader: the payload is that of the first
section with the tag, and the reader is left after that section. -/
theorem readSection_read (st st1 : GrimEngine) (secs : List Section) (m : Nat)
    (tag : SectionTag) (fs : List Field)
    (hr : Reading st secs m) (h : readSection st tag = .ok (fs, st1)) :
    ∃ sec rest, findSection tag secs = some (sec, rest) ∧ fs = sec.data ∧
      Reading st1 rest m ∧ st1.scene = st.scene ∧ st1._gameType = st._gameType := by
  obtain ⟨r, hs, hsv, hc, hsec, hm⟩ := hr
  unfold readSection at h
  rcases r with ⟨sv, fn, M, m0, secs0, cur, buf⟩
  simp only [] at hsv hc hsec hm
  subst hsv hc hsec hm
  cases hf : findSection tag secs0 with
  | none =>
    simp [GrimEngine.derefSavedState, hs, SaveGame.beginSection, hf, bind, Except.bind] at h
  | some p =>
    obtain ⟨sec, rest⟩ := p
    simp [GrimEngine.derefSavedState, hs, SaveGame.beginSection, hf, bind, Except.bind,
      SaveGame.endSection, pure, Except.pure] at h
    obtain ⟨h1, h2⟩ := h
    subst h2
    exact ⟨sec, rest, rfl, h1.symm, ⟨_, rfl, rfl, rfl, rfl, rfl⟩, rfl, rfl⟩

/-- The step `restoreObjects` on a reader: the pool is the one decoded from the
first section with the tag of the pool. -/
theorem restoreObjects_read {α : Type}
    (rs : Int → List Field → Option (α × List Field)) (st st1 : GrimEngine)
    (secs : List Section) (m : Nat) (k : PoolKind) (pool : List α)
    (hr : Reading st secs m) (h : restoreObjects rs st k = .ok (pool, st1)) :
    ∃ sec rest, findSection (SectionTag.pool k) secs = some (sec, rest) ∧
      decodePool rs sec.data = some pool ∧
      Reading st1 rest m ∧ st1.scene = st.scene ∧ st1._gameType = st._gameType := by
  unfold restoreObjects at h
  rw [bind_eq_ok] at h
  obtain ⟨⟨fs, st2⟩, h1, h⟩ := h
  simp only [] at h
  obtain ⟨sec, rest, hf, hfs, hread, hscene, hg⟩ := readSection_read _ _ _ _ _ _ hr h1
  split at h
  · rename_i p hp
    simp only [pure, Except.pure, Except.ok.injEq, Prod.mk.injEq] at h
    obtain ⟨hp2, h⟩ := h
    subst h hp2 hfs
    exact ⟨sec, rest, hf, hp, hread, hscene, hg⟩
  · cases h

/-- The pool sections read back: on a reader that stands before the screenshot
section and the pool sections of a world, `restorePools` leaves the Set and
Actor pools of that world. -/
theorem restorePools_read (st st1 : GrimEngine) (w : World) (image : List Field)
    (tail : List Section) (m : Nat) (hg : st._gameType = w.gameType)
    (hr : Reading st (⟨SectionTag.SIMG, image⟩ :: (w.poolSections ++ tail)) m)
    (h : restorePools st = .ok st1) :
    st1.Set_pool = w.sets ∧ st1.Actor_pool = w.actors ∧ Reading st1 tail m ∧
      st1._currSet = st._currSet ∧
      st1._changeHardwareState = st._changeHardwareState := by
  unfold World.poolSections at hr
  simp only [List.cons_append, List.nil_append, List.append_assoc] at hr
  unfold restorePools at h
  rw [bind_eq_ok] at h; obtain ⟨⟨p1, s1⟩, h1, h⟩ := h
  simp only [] at h
  obtain ⟨_, _, f1, -, r1, c1, g1⟩ := restoreObjects_read _ _ _ _ _ _ _ hr h1
  simp [findSection] at f1
  obtain ⟨-, f1⟩ := f1
  subst f1
  rw [bind_eq_ok] at h; obtain ⟨⟨p2, s2⟩, h2, h⟩ := h
  simp only [] at h
  have r1b : Reading { s1 with Bitmap_pool := p1 } _ m := r1
  obtain ⟨_, _, f2, -, r2, c2, g2⟩ := restoreObjects_read _ _ _ _ _ _ _ r1b h2
  simp [findSection] at f2
  obtain ⟨-, f2⟩ := f2
  subst f2
  rw [bind_eq_ok] at h; obtain ⟨⟨p3, s3⟩, h3, h⟩ := h
  simp only [] at h
  have r2b : Reading { s2 with Font_pool := p2 } _ m := r2
  obtain ⟨_, _, f3, -, r3, c3, g3⟩ := restoreObjects_read _ _ _ _ _ _ _ r2b h3
  simp [findSection] at f3
  obtain ⟨-, f3⟩ := f3
  subst f3
  rw [bind_eq_ok] at h; obtain ⟨⟨p4, s4⟩, h4, h⟩ := h
  simp only [] at h
  have r3b : Reading { s3 with ObjectState_pool := p3 } _ m := r3
  obtain ⟨_, _, f4, d4, r4, c4, g4⟩ := restoreObjects_read _ _ _ _ _ _ _ r3b h4
  simp [findSection] at f4
  obtain ⟨f4a, f4⟩ := f4
  subst f4 f4a
  rw [decodePool_encodePool Set.id Set.saveState Set.restoreState
    set_record_roundtrip] at d4
  cases d4
  rw [bind_eq_ok] at h; obtain ⟨⟨p5, s5⟩, h5, h⟩ := h
  simp only [] at h
  have r4b : Reading { s4 with Set_pool := w.sets } _ m := r4
  obtain ⟨_, _, f5, -, r5, c5, g5⟩ := restoreObjects_read _ _ _ _ _ _ _ r4b h5
  simp [findSection] at f5
  obtain ⟨-, f5⟩ := f5
  subst f5
  rw [bind_eq_ok] at h; obtain ⟨⟨p6, s6⟩, h6, h⟩ := h
  simp only [] at h
  have r5b : Reading { s5 with TextObject_pool := p5 } _ m := r5
  obtain ⟨_, _, f6, -, r6, c6, g6⟩ := restoreObjects_read _ _ _ _ _ _ _ r5b h6
  simp [findSection] at f6
  obtain ⟨-, f6⟩ := f6
  subst f6
  rw [bind_eq_ok] at h; obtain ⟨⟨p7, s7⟩, h7, h⟩ := h
  simp only [] at h
  have r6b : Reading { s6 with PrimitiveObject_pool := p6 } _ m := r6
  obtain ⟨_, _, f7, d7, r7, c7, g7⟩ := restoreObjects_read _ _ _ _ _ _ _ r6b h7
  simp [findSection] at f7
  obtain ⟨f7a, f7⟩ := f7
  subst f7 f7a
  rw [decodePool_encodePool Actor.id Actor.saveState Actor.restoreState
    actor_record_roundtrip] at d7
  cases d7
  have r7b : Reading { s7 with Actor_pool := w.actors } _ m := r7
  have gt : s7._gameType = w.gameType :=
    g7.trans (g6.trans (g5.trans (g4.trans (g3.trans (g2.trans (g1.trans hg))))))
  have k1 : s7._currSet = st._currSet :=
    (congrArg (fun x => x.1) c7).trans ((congrArg (fun x => x.1) c6).trans
      ((congrArg (fun x => x.1) c5).trans ((congrArg (fun x => x.1) c4).trans
        ((congrArg (fun x => x.1) c3).trans ((congrArg (fun x => x.1) c2).trans
          (congrArg (fun x => x.1) c1))))))
  have k2 : s7._changeHardwareState = st._changeHardwareState :=
    (congrArg (fun x => x.2.2.2) c7).trans ((congrArg (fun x => x.2.2.2) c6).trans
      ((congrArg (fun x => x.2.2.2) c5).trans ((congrArg (fun x => x.2.2.2) c4).trans
        ((congrArg (fun x => x.2.2.2) c3).trans ((congrArg (fun x => x.2.2.2) c2).trans
          (congrArg (fun x => x.2.2.2) c1))))))
  have k3 : s7.Set_pool = w.sets :=
    (congrArg (fun x => x.2.1) c7).trans ((congrArg (fun x => x.2.1) c6).trans
      (congrArg (fun x => x.2.1) c5))
  split at h
  · rename_i hm
    have hm2 : w.gameType = GType_MONKEY4 := by rw [← gt]; exact hm
    rw [if_pos hm2] at r7b
    simp only [List.cons_append, List.nil_append] at r7b
    rw [bind_eq_ok] at h; obtain ⟨⟨p8, s8⟩, h8, h⟩ := h
    simp only [] at h
    obtain ⟨_, _, f8, -, r8, c8, g8⟩ := restoreObjects_read _ _ _ _ _ _ _ r7b h8
    simp [findSection] at f8
    obtain ⟨-, f8⟩ := f8
    subst f8
    rw [bind_eq_ok] at h; obtain ⟨⟨p9, s9⟩, h9, h⟩ := h
    have r8b : Reading { s8 with PoolSound_pool := p8 } _ m := r8
    obtain ⟨_, _, f9, -, r9, c9, g9⟩ := restoreObjects_read _ _ _ _ _ _ _ r8b h9
    simp [findSection] at f9
    obtain ⟨-, f9⟩ := f9
    subst f9
    simp only [pure, Except.pure, Except.ok.injEq] at h
    subst h
    refine ⟨?_, ?_, r9, ?_, ?_⟩
    · exact (congrArg (fun x => x.2.1) c9).trans ((congrArg (fun x => x.2.1) c8).trans k3)
    · exact (congrArg (fun x => x.2.2.1) c9).trans (congrArg (fun x => x.2.2.1) c8)
    · exact (congrArg (fun x => x.1) c9).trans ((congrArg (fun x => x.1) c8).trans k1)
    · exact (congrArg (fun x => x.2.2.2) c9).trans
        ((congrArg (fun x => x.2.2.2) c8).trans k2)
  · rename_i hm
    have hm2 : ¬ w.gameType = GType_MONKEY4 := by rw [← gt]; exact hm
    rw [if_neg hm2] at r7b
    simp only [List.nil_append] at r7b
    cases h
    exact ⟨k3, rfl, r7b, k1, k2⟩

/-- The engine and collaborator sections read back: on a reader of minor
version above 5 that stands before an engine section of the current layout,
`restoreSubsystems` sets the current Set to the lookup of the stored identity
and leaves the pools and the hardware-change request alone. -/
theorem restoreSubsystems_read (st st1 g : GrimEngine) (sel fontId sub setId : Int)
    (tail : List Section) (m : Nat) (hm : 5 < m)
    (hr : Reading st (⟨SectionTag.GRIM, grimFields g sel fontId sub setId⟩ :: tail) m)
    (h : restoreSubsystems st = .ok st1) :
    st1.scene = (getObjectPtr Set.id st.Set_pool setId, st.Set_pool, st.Actor_pool,
      st._changeHardwareState) := by
  unfold restoreSubsystems at h
  rw [bind_eq_ok] at h; obtain ⟨s1, h1, h⟩ := h
  obtain ⟨r, hs, hsv, hc, hsec, hmv⟩ := hr
  have hf : findSection SectionTag.GRIM r._sections = some (⟨SectionTag.GRIM,
      grimFields g sel fontId sub setId⟩, tail) := by
    rw [hsec]; simp [findSection]
  have e := restoreGRIM_eq st r tail _ _ _ _ _ _ _ _ _ _ _ _ _ _ hs hsv hc hf (hmv ▸ hm)
  rw [e] at h1
  simp only [Except.ok.injEq] at h1
  have r1 : Reading s1 tail m := by
    rw [← h1]; exact ⟨_, rfl, hsv, rfl, rfl, hmv⟩
  have c1 : s1.scene = (getObjectPtr Set.id st.Set_pool setId, st.Set_pool, st.Actor_pool,
      st._changeHardwareState) := by
    rw [← h1]; rfl
  rw [bind_eq_ok] at h; obtain ⟨⟨p2, s2⟩, h2, h⟩ := h
  simp only [] at h
  obtain ⟨_, _, -, -, r2, c2, -⟩ := readSection_read _ _ _ _ _ _ r1 h2
  rw [bind_eq_ok] at h; obtain ⟨⟨p3, s3⟩, h3, h⟩ := h
  simp only [] at h
  have r2b : Reading { s2 with g_driver := { s2.g_driver with _state := p2 } } _ m := r2
  obtain ⟨_, _, -, -, r3, c3, -⟩ := readSection_read _ _ _ _ _ _ r2b h3
  rw [bind_eq_ok] at h; obtain ⟨⟨p4, s4⟩, h4, h⟩ := h
  simp only [] at h
  have r3b : Reading { s3 with g_sound := p3 } _ m := r3
  obtain ⟨_, _, -, -, r4, c4, -⟩ := readSection_read _ _ _ _ _ _ r3b h4
  rw [bind_eq_ok] at h; obtain ⟨mv, -, h⟩ := h
  rw [bind_eq_ok] at h; obtain ⟨⟨p5, s5⟩, h5, h⟩ := h
  simp only [] at h
  have r4b : Reading { s4 with g_movie := mv } _ m := r4
  obtain ⟨_, _, -, -, r5, c5, -⟩ := readSection_read _ _ _ _ _ _ r4b h5
  rw [bind_eq_ok] at h; obtain ⟨⟨p6, s6⟩, h6, h⟩ := h
  have r5b : Reading { s5 with _iris := p5 } _ m := r5
  obtain ⟨_, _, -, -, r6, c6, -⟩ := readSection_read _ _ _ _ _ _ r5b h6
  simp only [pure, Except.pure, Except.ok.injEq] at h
  subst h
  exact c6.trans (c5.trans (c4.trans (c3.trans (c2.trans c1))))

/-- The part of `savegameRestore` after the last section leaves the scene
alone. -/
theorem savegameRestore_resume_scene (st : GrimEngine) :
    (savegameRestore_resume st).scene = st.scene := by
  unfold savegameRestore_resume closeSaveGame
  split <;> rfl

/-- A restore of what a save wrote: on a reader of minor version above 5 that
stands before the screenshot section, the pool sections of a world and an
engine section of the current layout, `savegameRestoreBody` leaves the Set and
Actor pools of that world and the current Set the stored identity names. -/
theorem savegameRestoreBody_read (st st1 g : GrimEngine) (w : World) (image : List Field)
    (sel fontId sub setId : Int) (tail : List Section) (m : Nat) (hm : 5 < m)
    (hg : st._gameType = w.gameType)
    (hr : Reading st (⟨SectionTag.SIMG, image⟩ :: (w.poolSections ++
      ⟨SectionTag.GRIM, grimFields g sel fontId sub setId⟩ :: tail)) m)
    (h : savegameRestoreBody st = .ok st1) :
    st1.scene = (getObjectPtr Set.id w.sets setId, w.sets, w.actors,
      st._changeHardwareState) := by
  unfold savegameRestoreBody at h
  rw [bind_eq_ok] at h; obtain ⟨s1, h1, h⟩ := h
  rw [bind_eq_ok] at h; obtain ⟨s2, h2, h⟩ := h
  rw [bind_eq_ok] at h; obtain ⟨s3, h3, h⟩ := h
  rw [bind_eq_ok] at h; obtain ⟨set, -, h⟩ := h
  simp only [pure, Except.pure, Except.ok.injEq] at h
  subst h
  have r0 : Reading (savegameRestore_prepare st) _ m := hr
  obtain ⟨a1, a2, r1, -, a4⟩ := restorePools_read (savegameRestore_prepare st) _ w image _ m hg r0 h1
  have b := restoreSubsystems_read _ _ g sel fontId sub setId tail m hm r1 h2
  rw [a1, a2, a4] at b
  have c : s3.scene = s2.scene :=
    (scene_of_world (buildActiveActorsList_world _ _ h3)).trans
      (savegameRestore_resume_scene s2)
  exact c.trans b

/-! ### Device reset -/

/-- The lookup of an identity read through a pointer answers that pointer. -/
theorem getObjectPtr_of_derefId {α : Type} (ident : α → Int) (pool : List α)
    (what : String) (p : Option Int) (id : Int)
    (h : derefId ident pool what p = .ok id) : getObjectPtr ident pool id = p := by
  unfold derefId at h
  cases p with
  | none => simp at h
  | some i =>
    cases ho : getObject ident pool i with
    | none => simp [ho] at h
    | some o =>
      have hi := getObject_some_id ident pool i o ho
      simp [ho] at h
      rw [hi] at h
      subst h
      simp [getObjectPtr, ho, hi]

/-- Without a requested name the save goes to `grim.sav`. -/
theorem saveFileName_default (st : GrimEngine) (h : st._savegameFileName = "") :
    st.saveFileName = "grim.sav" := by
  unfold GrimEngine.saveFileName
  simp [h]

/-- Without a requested name the restore reads `grim.sav`. -/
theorem loadFileName_default (st : GrimEngine) (h : st._savegameFileName = "") :
    st.loadFileName = "grim.sav" := by
  unfold GrimEngine.loadFileName
  simp [h]

/-! ### C1: engine-section round trip -/

/-- C1: engine-section round trip. Let `st` be an engine that is saving (its
stream `w` is a writer with no open section) whose current Set and default
say-line font are live entities of their pools. The data-model invariants are
assumed: the selected actor and the movie subtitle, when set, point to live
entities, and no actor or text object has identity 0. Then `saveGRIM` succeeds
and appends one section `sec`, tagged GRIM, to the stream; and for every engine
`st0` with the same Actor, Font, TextObject and Set pools, whose selected actor
is reset to none, and whose reader `r` is of the current minor version (above 5)
and finds `sec` as its engine section, `restoreGRIM` succeeds and yields the
current mode, previous mode, selected actor, say-line defaults (all eight
members), movie subtitle, current Set and movie-setup name of `st`. -/
theorem saveGRIM_restoreGRIM_roundtrip (st st0 : GrimEngine) (w r : SaveGame)
    (hw : st._savedState = some w) (hws : w._saving = true) (hwo : w._currentSection = none)
    (hset : (st._currSet.bind (getObject Set.id st.Set_pool)).isSome)
    (hfont : (st._sayLineDefaults._font.bind (getObject PoolObject.id st.Font_pool)).isSome)
    (hsel : ∀ a, st._selectedActor = some a → (getObject Actor.id st.Actor_pool a).isSome)
    (hsub : ∀ t, st._movieSubtitle = some t →
      (getObject PoolObject.id st.TextObject_pool t).isSome)
    (hzeroA : ∀ a ∈ st.Actor_pool, a.id ≠ 0)
    (hzeroT : ∀ t ∈ st.TextObject_pool, t.id ≠ 0)
    (hr : st0._savedState = some r) (hrs : r._saving = false) (hro : r._currentSection = none)
    (hversion : r._minorVersion = st.SAVEGAME_MINOR_VERSION)
    (hminor : 5 < st.SAVEGAME_MINOR_VERSION)
    (hsel0 : st0._selectedActor = none)
    (hA : st0.Actor_pool = st.Actor_pool) (hF : st0.Font_pool = st.Font_pool)
    (hT : st0.TextObject_pool = st.TextObject_pool) (hS : st0.Set_pool = st.Set_pool) :
    ∃ st1 w1 sec, saveGRIM st = .ok st1 ∧ st1._savedState = some w1 ∧
      w1._sections = w._sections ++ [sec] ∧ sec.tag = SectionTag.GRIM ∧
      ∀ rest, findSection SectionTag.GRIM r._sections = some (sec, rest) →
        ∃ st2, restoreGRIM st0 = .ok st2 ∧
          st2._mode = st._mode ∧
          st2._previousMode = st._previousMode ∧
          st2._selectedActor = st._selectedActor ∧
          st2._sayLineDefaults = st._sayLineDefaults ∧
          st2._movieSubtitle = st._movieSubtitle ∧
          st2._currSet = st._currSet ∧
          st2._movieSetup = st._movieSetup := by
  -- the identities written
  obtain ⟨c, hc, hcl⟩ : ∃ c, st._currSet = some c ∧ (getObject Set.id st.Set_pool c).isSome := by
    cases h : st._currSet with
    | none => simp [h] at hset
    | some c => exact ⟨c, rfl, by simpa [h] using hset⟩
  obtain ⟨f, hf, hfl⟩ : ∃ f, st._sayLineDefaults._font = some f ∧
      (getObject PoolObject.id st.Font_pool f).isSome := by
    cases h : st._sayLineDefaults._font with
    | none => simp [h] at hfont
    | some f => exact ⟨f, rfl, by simpa [h] using hfont⟩
  have hsave := saveGRIM_eq st w (st._selectedActor.getD 0) f (st._movieSubtitle.getD 0) c
    hw hws hwo
    (by
      cases h : st._selectedActor with
      | none => rfl
      | some a => simpa using derefId_live Actor.id st.Actor_pool _ a (hsel a h))
    (by rw [hf]; exact derefId_live _ _ _ f hfl)
    (by
      cases h : st._movieSubtitle with
      | none => rfl
      | some t => simpa using derefId_live PoolObject.id st.TextObject_pool _ t (hsub t h))
    (by rw [hc]; exact derefId_live _ _ _ c hcl)
  refine ⟨_, _, _, hsave, rfl, rfl, rfl, ?_⟩
  intro rest hsec
  have hrest := restoreGRIM_eq st0 r rest _ _ _ _ _ _ _ _ _ _ _ _ _ _ hr hrs hro hsec
    (by rw [hversion]; exact hminor)
  refine ⟨_, hrest, rfl, rfl, ?_, ?_, ?_, ?_, rfl⟩
  · -- selected actor
    simp only [hsel0, hA]
    cases h : st._selectedActor with
    | none => simp
    | some a =>
      have hl := hsel a h
      obtain ⟨o, ho⟩ := Option.isSome_iff_exists.1 hl
      have hne : a ≠ 0 := by
        have h1 := getObject_some_id _ _ _ _ ho
        have h2 := hzeroA o (List.mem_of_find?_eq_some ho)
        rw [h1] at h2
        exact h2
      simp [hne, getObjectPtr_live _ _ a hl]
  · -- say-line defaults
    simp only [hF]
    rw [getObjectPtr_live _ _ f hfl, ← hf]
  · -- movie subtitle
    simp only [hT]
    cases h : st._movieSubtitle with
    | none => simp [getObjectPtr, getObject_zero_none _ _ hzeroT]
    | some t => simp [getObjectPtr_live _ _ t (hsub t h)]
  · -- current Set
    simp only [hS]
    rw [getObjectPtr_live _ _ c hcl, hc]

/-- Witness of C1: the engine section of `exampleEngine` is `exampleGrimSection`,
and reading it into `exampleRestoring`, which differs in every restored member,
gives back the values of `exampleEngine`. -/
theorem saveGRIM_restoreGRIM_roundtrip_witness :
    ∃ st1 st2, saveGRIM exampleSaving = .ok st1 ∧
      st1._savedState.map (fun w => w._sections) = some [exampleGrimSection] ∧
      restoreGRIM exampleRestoring = .ok st2 ∧
      st2._mode = NormalMode ∧ st2._previousMode = NormalMode ∧
      st2._selectedActor = some 7 ∧ st2._sayLineDefaults = exampleSayLine ∧
      st2._movieSubtitle = none ∧ st2._currSet = some 1 ∧ st2._movieSetup = "mo_ddtws" := by
  obtain ⟨st1, w1, sec, hs, hw1, hsecs, -, hrt⟩ :=
    saveGRIM_restoreGRIM_roundtrip exampleSaving exampleRestoring exampleWriter exampleReader
      rfl rfl rfl (by decide) (by decide) (by decide) (by decide) (by decide) (by decide)
      rfl rfl rfl rfl (by decide) rfl rfl rfl rfl rfl
  have e : saveGRIM exampleSaving = .ok
      { exampleSaving with
        _savedState := some { exampleWriter with _sections := [exampleGrimSection] },
        log := [Ev.beginSection SectionTag.GRIM] } := rfl
  rw [e] at hs
  cases hs
  cases hw1
  have hsec : sec = exampleGrimSection := by
    simp only [exampleWriter, List.nil_append, List.cons.injEq, and_true] at hsecs
    exact hsecs.symm
  subst hsec
  obtain ⟨st2, h2, a, b, c, d, e2, f, g⟩ := hrt [] rfl
  exact ⟨_, st2, e, rfl, h2, a, b, c, d, e2, f, g⟩

/-! ### C2: device reset -/

/-- On a stream that opens and is compatible, `savegameRestore` is the part
that reads the stream. -/
theorem savegameRestore_eq_body (st : GrimEngine) (r : SaveGame)
    (ho : openForLoading st st.loadFileName = some r) (hc : isCompatible st r = true) :
    savegameRestore st = savegameRestoreBody { st with
      _savegameLoadRequest := false,
      _savedState := some r,
      log := st.log ++ [Ev.openForLoading st.loadFileName] } := by
  unfold savegameRestore
  have hname : ({ st with _savegameLoadRequest := false } : GrimEngine).loadFileName
      = st.loadFileName := rfl
  have hopen : ∀ f, openForLoading ({ st with _savegameLoadRequest := false } : GrimEngine) f
      = openForLoading st f := fun _ => rfl
  simp only [hname, hopen, ho]
  simp only [isCompatible] at hc ⊢
  simp only [hc, Bool.not_true, Bool.false_eq_true, if_false]

/-- The stream a restore opens after a save to the default slot, a clear of
the pools and a new renderer: the file the save left, which is compatible and
holds the pool sections of the world before the save and an engine section
with the identity of the live current Set. -/
theorem saveClearRestore_reader (st s1 : GrimEngine) (screenW screenH : Nat)
    (fullscreen : Bool) (hname : st._savegameFileName = "")
    (hw : st.g_saveFiles._writable = true)
    (hS : savegameSave st = .ok s1) :
    ∃ (image : List Field) (g : GrimEngine) (sel fontId sub setId : Int)
      (tail : List Section) (r : SaveGame),
      derefId Set.id st.Set_pool "_currSet" st._currSet = .ok setId ∧
      (setupScreen (createRenderer ((clearPools s1).emit Ev.deleteDriver))
        screenW screenH fullscreen).loadFileName = "grim.sav" ∧
      openForLoading (setupScreen (createRenderer ((clearPools s1).emit Ev.deleteDriver))
        screenW screenH fullscreen) "grim.sav" = some r ∧
      isCompatible (setupScreen (createRenderer ((clearPools s1).emit Ev.deleteDriver))
        screenW screenH fullscreen) r = true ∧
      r._saving = false ∧ r._currentSection = none ∧
      r._sections = ⟨SectionTag.SIMG, image⟩ :: (st.world.poolSections ++
        ⟨SectionTag.GRIM, grimFields g sel fontId sub setId⟩ :: tail) ∧
      r._minorVersion = st.SAVEGAME_MINOR_VERSION ∧
      s1._gameType = st._gameType ∧
      s1._changeHardwareState = st._changeHardwareState := by
  obtain ⟨image, g, sel, fontId, sub, setId, tail, hset, hworld⟩ :=
    savegameSave_file st s1 hw hS
  rw [saveFileName_default st hname] at hworld
  have hfiles : s1.g_saveFiles = _ := congrArg World.files hworld
  have hfn : s1._savegameFileName = "" := (congrArg World.fileName hworld).trans hname
  have hmaj : s1.SAVEGAME_MAJOR_VERSION = st.SAVEGAME_MAJOR_VERSION :=
    congrArg World.major hworld
  have hgt : s1._gameType = st._gameType := congrArg World.gameType hworld
  have hhw : s1._changeHardwareState = st._changeHardwareState :=
    congrArg World.changeHardwareState hworld
  simp only [] at hfiles
  generalize hs2 : setupScreen (createRenderer ((clearPools s1).emit Ev.deleteDriver))
      screenW screenH fullscreen = s2
  have f1 : s2.g_saveFiles = s1.g_saveFiles := by rw [← hs2]; rfl
  have f2 : s2._savegameFileName = "" := by rw [← hs2]; exact hfn
  have f3 : s2.SAVEGAME_MAJOR_VERSION = st.SAVEGAME_MAJOR_VERSION := by
    rw [← hs2]; exact hmaj
  have ho : ∃ r : SaveGame, openForLoading s2 "grim.sav" = some r ∧
      r._saving = false ∧ r._currentSection = none ∧
      r._sections = ⟨SectionTag.SIMG, image⟩ :: (st.world.poolSections ++
        ⟨SectionTag.GRIM, grimFields g sel fontId sub setId⟩ :: tail) ∧
      r._minorVersion = st.SAVEGAME_MINOR_VERSION ∧
      r._majorVersion = st.SAVEGAME_MAJOR_VERSION := by
    unfold openForLoading
    rw [f1, hfiles]
    simp
  obtain ⟨r, ho, r1, r2, r3, r4, r5⟩ := ho
  have hc : isCompatible s2 r = true := by
    unfold isCompatible
    rw [f3, r5]
    simp
  exact ⟨image, g, sel, fontId, sub, setId, tail, r, hset, loadFileName_default s2 f2, ho,
    hc, r1, r2, r3, r4, hgt, hhw⟩

/-- The scene after a save to the default slot, a clear of the pools, a new
renderer and a restore from the default slot, when the save stream can be
opened and the build writes minor version above 5. -/
theorem saveClearRestore_scene (st s1 s3 : GrimEngine) (screenW screenH : Nat)
    (fullscreen : Bool) (hname : st._savegameFileName = "")
    (hw : st.g_saveFiles._writable = true)
    (hminor : 5 < st.SAVEGAME_MINOR_VERSION)
    (hS : savegameSave st = .ok s1)
    (hR : savegameRestore (setupScreen (createRenderer ((clearPools s1).emit Ev.deleteDriver))
      screenW screenH fullscreen) = .ok s3) :
    s3.scene = (st._currSet, st.Set_pool, st.Actor_pool, st._changeHardwareState) := by
  obtain ⟨image, g, sel, fontId, sub, setId, tail, r, hset, hl, ho, hc, r1, r2, r3, r4,
    hgt, hhw⟩ := saveClearRestore_reader st s1 screenW screenH fullscreen hname hw hS
  rw [← hl] at ho
  rw [savegameRestore_eq_body _ r ho hc] at hR
  have b := (fun hgx hrx => savegameRestoreBody_read _ _ g st.world image sel fontId sub
    setId tail st.SAVEGAME_MINOR_VERSION hminor hgx hrx hR) hgt ⟨r, rfl, r1, r2, r3, r4⟩
  rw [b]
  show (getObjectPtr Set.id st.Set_pool setId, st.Set_pool, st.Actor_pool,
    s1._changeHardwareState) = _
  rw [getObjectPtr_of_derefId _ _ _ _ _ hset, hhw]

/-- The stage calls of a save to the default slot, a clear of the pools, a new
renderer and a restore from the default slot, in order. -/
theorem saveClearRestore_stages (st s1 s3 : GrimEngine) (screenW screenH : Nat)
    (fullscreen : Bool) (hname : st._savegameFileName = "")
    (hw : st.g_saveFiles._writable = true)
    (hS : savegameSave st = .ok s1)
    (hR : savegameRestore (setupScreen (createRenderer ((clearPools s1).emit Ev.deleteDriver))
      screenW screenH fullscreen) = .ok s3) :
    ∃ soft, LogStep st s3
      ((Ev.openForSaving "grim.sav" :: Ev.beginSection SectionTag.SIMG ::
          sectionStages st._gameType) ++
        ([Ev.deletePools, Ev.deleteDriver, Ev.createRenderer soft,
          Ev.setupScreen screenW screenH fullscreen] ++
        (Ev.openForLoading "grim.sav" :: sectionStages st._gameType))) := by
  obtain ⟨image, g, sel, fontId, sub, setId, tail, r, hset, hl, ho, hc, r1, r2, r3, r4,
    hgt, hhw⟩ := saveClearRestore_reader st s1 screenW screenH fullscreen hname hw hS
  have a1 := savegameSave_step st s1 hw hS
  rw [saveFileName_default st hname] at a1
  have a2 : LogStep s1 (setupScreen (createRenderer ((clearPools s1).emit Ev.deleteDriver))
      screenW screenH fullscreen)
      [Ev.deletePools, Ev.deleteDriver,
        Ev.createRenderer (createRenderer ((clearPools s1).emit Ev.deleteDriver))._softRenderer,
        Ev.setupScreen screenW screenH fullscreen] := by
    refine LogStep.mk [Ev.deletePools, Ev.deleteDriver,
        Ev.createRenderer (createRenderer ((clearPools s1).emit Ev.deleteDriver))._softRenderer,
        Ev.setupScreen screenW screenH fullscreen] rfl ?_ rfl
    simp [setupScreen, createRenderer, clearPools, GrimEngine.emit]
  rw [← hl] at ho
  have a3 := savegameRestore_step _ s3 r ho hc hR
  rw [hl] at a3
  have hg2 : (setupScreen (createRenderer ((clearPools s1).emit Ev.deleteDriver))
      screenW screenH fullscreen)._gameType = st._gameType := hgt
  rw [hg2] at a3
  exact ⟨_, a1.trans (a2.trans a3)⟩

/-- The scene after a device reset that completes, when the save stream can be
opened and the build writes minor version above 5. -/
theorem deviceReset_scene (st st1 : GrimEngine)
    (hreq : (st._changeHardwareState || st._changeFullscreenState) = true)
    (hw : st.g_saveFiles._writable = true)
    (hminor : 5 < st.SAVEGAME_MINOR_VERSION)
    (h : mainLoop_deviceReset st = .ok st1) :
    st1._mode = st._mode ∧ st1._changeFullscreenState = false ∧
      st1.scene = (st._currSet, st.Set_pool, st.Actor_pool, false) := by
  unfold mainLoop_deviceReset at h
  rw [if_pos hreq] at h
  simp only [] at h
  rw [bind_eq_ok] at h; obtain ⟨s1, hS, h⟩ := h
  rw [bind_eq_ok] at h; obtain ⟨s3, hR, h⟩ := h
  rw [bind_eq_ok] at h; obtain ⟨s4, hD, h⟩ := h
  simp only [pure, Except.pure, Except.ok.injEq] at h
  subst h
  have a := (fun hn hwx hmx => saveClearRestore_scene _ s1 s3 _ _ _ hn hwx hmx hS hR)
    rfl hw hminor
  have c : s4.scene = s3.scene := by
    split at hD
    · rw [bind_eq_ok] at hD
      obtain ⟨s5, h5, hD⟩ := hD
      simp only [pure, Except.pure, Except.ok.injEq] at hD
      subst hD
      exact scene_of_world ((updateDisplayScene_world _ _ h5).trans (setMode_world _ _))
    · cases hD; rfl
  refine ⟨rfl, rfl, ?_⟩
  exact c.trans a

/-- The stage calls of a device reset that completes, when the save stream can
be opened: the save to `grim.sav`, the clear of the pools, the deletion and
creation of the renderer, its setup at the previous screen size, and the
restore from `grim.sav`, in this order. -/
theorem deviceReset_stages (st st1 : GrimEngine)
    (hreq : (st._changeHardwareState || st._changeFullscreenState) = true)
    (hw : st.g_saveFiles._writable = true)
    (h : mainLoop_deviceReset st = .ok st1) :
    ∃ soft, LogStep st st1
      ((Ev.openForSaving "grim.sav" :: Ev.beginSection SectionTag.SIMG ::
          sectionStages st._gameType) ++
        ([Ev.deletePools, Ev.deleteDriver, Ev.createRenderer soft,
          Ev.setupScreen st.g_driver._screenWidth st.g_driver._screenHeight
            (if st._changeFullscreenState then !st.g_driver._isFullscreen
             else st.g_driver._isFullscreen)] ++
        (Ev.openForLoading "grim.sav" :: sectionStages st._gameType))) := by
  unfold mainLoop_deviceReset at h
  rw [if_pos hreq] at h
  simp only [] at h
  rw [bind_eq_ok] at h; obtain ⟨s1, hS, h⟩ := h
  rw [bind_eq_ok] at h; obtain ⟨s3, hR, h⟩ := h
  rw [bind_eq_ok] at h; obtain ⟨s4, hD, h⟩ := h
  simp only [pure, Except.pure, Except.ok.injEq] at h
  subst h
  obtain ⟨soft, a⟩ := (fun hn hwx => saveClearRestore_stages _ s1 s3 _ _ _ hn hwx hS hR)
    rfl hw
  have c : LogStep s3 s4 [] := by
    split at hD
    · rw [bind_eq_ok] at hD
      obtain ⟨s5, h5, hD⟩ := hD
      simp only [pure, Except.pure, Except.ok.injEq] at hD
      subst hD
      exact ((setMode_step s3 NormalMode).trans (updateDisplayScene_step _ _ h5)).trans
        (emits_step s5 [Ev.storeDisplay, Ev.dimScreen])
    · cases hD; exact LogStep.refl _
  have d : LogStep s4 { setMode s4 st.getMode with _changeFullscreenState := false } [] :=
    LogStep.same rfl rfl
  refine ⟨soft, LogStep.nil_trans ?_ ((a.trans_nil c).trans_nil d)⟩
  exact LogStep.mk
    [Ev.setFeatureFullscreen (if st._changeFullscreenState then !st.g_driver._isFullscreen
        else st.g_driver._isFullscreen),
      Ev.confSetFullscreen (if st._changeFullscreenState then !st.g_driver._isFullscreen
        else st.g_driver._isFullscreen)] rfl rfl rfl

/-- The device reset when the save stream opens. For every state with a reset
pending, a save stream that can be opened and a build that writes minor version
above 5, a reset that completes has made, in this order, the save to
`grim.sav` (screenshot section, then the sections of `sectionOrder`), the clear
of the pools, the deletion and the creation of the renderer, its setup at the
screen size it had before, and the restore from `grim.sav` (the sections of
`sectionOrder`); the mode is the mode before the reset, both request flags are
clear, and the current Set, the Set pool and the Actor pool are those before
the reset. -/
theorem deviceReset_transparent_when_saved (st st1 : GrimEngine)
    (hreq : (st._changeHardwareState || st._changeFullscreenState) = true)
    (hw : st.g_saveFiles._writable = true)
    (hminor : 5 < st.SAVEGAME_MINOR_VERSION)
    (h : mainLoop_deviceReset st = .ok st1) :
    (∃ soft evs, st1.log = st.log ++ evs ∧
      stages evs =
        (Ev.openForSaving "grim.sav" :: Ev.beginSection SectionTag.SIMG ::
          sectionStages st._gameType) ++
        ([Ev.deletePools, Ev.deleteDriver, Ev.createRenderer soft,
          Ev.setupScreen st.g_driver._screenWidth st.g_driver._screenHeight
            (if st._changeFullscreenState then !st.g_driver._isFullscreen
             else st.g_driver._isFullscreen)] ++
        (Ev.openForLoading "grim.sav" :: sectionStages st._gameType))) ∧
    st1._mode = st._mode ∧
    st1._changeHardwareState = false ∧ st1._changeFullscreenState = false ∧
    st1._currSet = st._currSet ∧ st1.Set_pool = st.Set_pool ∧
    st1.Actor_pool = st.Actor_pool := by
  obtain ⟨soft, -, evs, hl, hk⟩ := deviceReset_stages st st1 hreq hw h
  obtain ⟨hm, hf, hs⟩ := deviceReset_scene st st1 hreq hw hminor h
  exact ⟨⟨soft, evs, hl, hk⟩, hm, congrArg (fun x => x.2.2.2) hs, hf,
    congrArg (fun x => x.1) hs, congrArg (fun x => x.2.1) hs,
    congrArg (fun x => x.2.2.1) hs⟩

/-- The reset on `toggleEngine`, whose save stream opens: the run completes and
ends with the mode, the current Set, the Set pool and the Actor pool it started
with, both request flags clear. -/
theorem deviceReset_example_preserves_world :
    ∃ st1, mainLoop_deviceReset toggleEngine = .ok st1 ∧
      st1._mode = toggleEngine._mode ∧
      st1._changeHardwareState = false ∧ st1._changeFullscreenState = false ∧
      st1._currSet = toggleEngine._currSet ∧ st1.Set_pool = toggleEngine.Set_pool ∧
      st1.Actor_pool = toggleEngine.Actor_pool := by
  have hok : (mainLoop_deviceReset toggleEngine).toBool = true := rfl
  cases hr : mainLoop_deviceReset toggleEngine with
  | error e => rw [hr] at hok; cases hok
  | ok st1 =>
    exact ⟨st1, rfl,
      (deviceReset_transparent_when_saved toggleEngine st1 rfl rfl (by decide) hr).2⟩

/-- C2, at the failing input: a fullscreen toggle is pending in Normal mode,
the current Set is Set 1 and the Actor pool holds actors 7, 8 and 9, and no save
stream can be opened for writing. The reset completes: the mode is Normal again
and both request flags are clear, but the save wrote nothing (an error dialog is
shown), the pools were cleared all the same, the restore found no stream, and
the engine is left without a current Set and with empty Set and Actor pools. -/
theorem deviceReset_failed_save_empties_pools :
    unwritableEngine._mode = NormalMode ∧
    unwritableEngine._currSet = some 1 ∧
    unwritableEngine.Actor_pool.map Actor.id = [7, 8, 9] ∧
    ∃ st1, mainLoop_deviceReset unwritableEngine = .ok st1 ∧
      st1._mode = NormalMode ∧
      st1._changeHardwareState = false ∧ st1._changeFullscreenState = false ∧
      st1._currSet = none ∧ st1.Set_pool = [] ∧ st1.Actor_pool = [] ∧
      st1.log =
        [ Ev.setFeatureFullscreen true, Ev.confSetFullscreen true,
          Ev.openForSaving "grim.sav",
          Ev.displayErrorDialog "Error: the game could not be saved.",
          Ev.deletePools, Ev.deleteDriver, Ev.createRenderer true,
          Ev.setupScreen 640 480 true, Ev.openForLoading "grim.sav" ] :=
  ⟨rfl, rfl, rfl, _, rfl, rfl, rfl, rfl, rfl, rfl, rfl, rfl⟩

/-! ### C3: section order -/

/-- C3: save and restore agree on the section order, for both game variants.
Every `savegameSave` that opens its stream and completes begins, in this order,
the screenshot section and then the sections of `sectionOrder`: Bitmap, Font,
ObjectState, Set, TextObject, PrimitiveObject, Actor, then PoolSound and Layer
exactly when the game is EMI (`GType_MONKEY4`), then engine state, renderer,
audio, movie, iris and script engine. Every `savegameRestore` that opens a
compatible stream and completes begins exactly the sections of `sectionOrder`,
in that order. -/
theorem savegame_section_order_agrees (gameType : GrimGameType) :
    (∀ st st1 : GrimEngine, st._gameType = gameType →
      st.g_saveFiles._writable = true → savegameSave st = .ok st1 →
      ∃ evs, st1.log = st.log ++ evs ∧
        sectionsBegun evs = SectionTag.SIMG :: sectionOrder gameType) ∧
    (∀ (st st1 : GrimEngine) (h : SaveGame), st._gameType = gameType →
      openForLoading st st.loadFileName = some h → isCompatible st h = true →
      savegameRestore st = .ok st1 →
      ∃ evs, st1.log = st.log ++ evs ∧ sectionsBegun evs = sectionOrder gameType) := by
  constructor
  · intro st st1 hg hw hs
    obtain ⟨_, evs, hl, hk⟩ := savegameSave_step st st1 hw hs
    refine ⟨evs, hl, ?_⟩
    rw [← sectionsBegun_stages, hk, hg]
    exact congrArg (fun l => SectionTag.SIMG :: l) (sectionsBegun_map_beginSection _)
  · intro st st1 h hg ho hc hs
    obtain ⟨_, evs, hl, hk⟩ := savegameRestore_step st st1 h ho hc hs
    refine ⟨evs, hl, ?_⟩
    rw [← sectionsBegun_stages, hk, hg]
    exact sectionsBegun_map_beginSection _

/-- Witness of C3: `savegameSave` on `exampleEngine` and `savegameRestore` on its
result both complete, with the sections in the stated order. -/
theorem savegame_section_order_agrees_witness :
    (∃ evs, exampleSaved.log = exampleEngine.log ++ evs ∧
      sectionsBegun evs = SectionTag.SIMG :: sectionOrder GType_GRIM) ∧
    (∃ evs, exampleRestored.log = exampleSaved.log ++ evs ∧
      sectionsBegun evs = sectionOrder GType_GRIM) :=
  ⟨(savegame_section_order_agrees GType_GRIM).1 exampleEngine exampleSaved rfl rfl rfl,
   (savegame_section_order_agrees GType_GRIM).2 exampleSaved exampleRestored _ rfl rfl rfl rfl⟩

/-! ### C4: rejected restore -/

/-- C4: a rejected restore leaves the engine untouched. When the save stream
cannot be opened, or is opened and reports itself incompatible, `savegameRestore`
returns a state that differs from the one it was given only in the load-request
flag, now clear, in the stream handle `_savedState`, and in the log, which has
the attempt to open the stream and nothing else: no pool was cleared or
restored, and the current mode, previous mode, current Set, selected actor,
active-actor cache and its dirty flag are as before. -/
theorem savegameRestore_rejected_leaves_state (st : GrimEngine)
    (hreject : openForLoading st st.loadFileName = none ∨
      ∃ h, openForLoading st st.loadFileName = some h ∧ isCompatible st h = false) :
    ∃ st1, savegameRestore st = .ok st1 ∧
      st1 = { st with
        _savegameLoadRequest := false,
        _savedState := openForLoading st st.loadFileName,
        log := st.log ++ [Ev.openForLoading st.loadFileName] } ∧
      st1._savegameLoadRequest = false ∧
      st1._mode = st._mode ∧ st1._previousMode = st._previousMode ∧
      st1._currSet = st._currSet ∧ st1._selectedActor = st._selectedActor ∧
      st1._activeActors = st._activeActors ∧
      st1._buildActiveActorsList = st._buildActiveActorsList ∧
      st1.Bitmap_pool = st.Bitmap_pool ∧ st1.Font_pool = st.Font_pool ∧
      st1.ObjectState_pool = st.ObjectState_pool ∧ st1.Set_pool = st.Set_pool ∧
      st1.TextObject_pool = st.TextObject_pool ∧
      st1.PrimitiveObject_pool = st.PrimitiveObject_pool ∧
      st1.Actor_pool = st.Actor_pool ∧ st1.PoolSound_pool = st.PoolSound_pool ∧
      st1.Layer_pool = st.Layer_pool := by
  have hname : ({ st with _savegameLoadRequest := false } : GrimEngine).loadFileName
      = st.loadFileName := rfl
  have hopen : ∀ f, openForLoading ({ st with _savegameLoadRequest := false } : GrimEngine) f
      = openForLoading st f := fun _ => rfl
  rcases hreject with hnone | ⟨h, hsome, hinc⟩
  · refine ⟨_, ?_, rfl, rfl, rfl, rfl, rfl, rfl, rfl, rfl, rfl, rfl, rfl, rfl, rfl, rfl, rfl,
      rfl, rfl⟩
    unfold savegameRestore
    simp only [hname, hopen, hnone]
  · refine ⟨_, ?_, rfl, rfl, rfl, rfl, rfl, rfl, rfl, rfl, rfl, rfl, rfl, rfl, rfl, rfl, rfl,
      rfl, rfl⟩
    unfold savegameRestore
    simp only [hname, hopen, hsome]
    simp only [isCompatible] at hinc ⊢
    simp [hinc]

/-- Witness of C4: a load request on `exampleEngine`, which has no save file. -/
theorem savegameRestore_rejected_leaves_state_witness :
    ∃ st1, savegameRestore { exampleEngine with _savegameLoadRequest := true } = .ok st1 ∧
      st1._savegameLoadRequest = false ∧ st1._mode = NormalMode ∧
      st1._currSet = some 1 ∧ st1._selectedActor = some 7 ∧
      st1._buildActiveActorsList = true ∧ st1.Actor_pool = exampleEngine.Actor_pool := by
  obtain ⟨st1, h, -, a, b, -, c, d, -, e, -, -, -, -, -, -, f, -, -⟩ :=
    savegameRestore_rejected_leaves_state { exampleEngine with _savegameLoadRequest := true }
      (Or.inl rfl)
  exact ⟨st1, h, a, b, c, d, e, f⟩

/-! ### C5: dangling references in the engine section -/

/-- C5, counterexample: the engine section of `danglingEngine` stores the
non-zero identities 99, 98, 97 and 96 for the selected actor, the say-line
font, the movie subtitle and the current Set; none names an entity of its pool.
`restoreGRIM` raises no error: it returns with all four references null. -/
theorem restoreGRIM_dangling_counterexample :
    getObject Actor.id danglingEngine.Actor_pool 99 = none ∧
    getObject PoolObject.id danglingEngine.Font_pool 98 = none ∧
    getObject PoolObject.id danglingEngine.TextObject_pool 97 = none ∧
    getObject Set.id danglingEngine.Set_pool 96 = none ∧
    ∃ st1, restoreGRIM danglingEngine = .ok st1 ∧
      st1._selectedActor = none ∧ st1._sayLineDefaults._font = none ∧
      st1._movieSubtitle = none ∧ st1._currSet = none :=
  ⟨rfl, rfl, rfl, rfl, _, rfl, rfl, rfl, rfl, rfl⟩

/-- C5, amended: on a stream of the current layout (minor version above 5),
whatever identities the engine section stores, `restoreGRIM` completes without
an error, and an identity that names no entity of its pool (for the selected
actor: a non-zero one) leaves a null reference in its member: no
dangling-reference check is made. -/
theorem restoreGRIM_stores_null_for_dangling (st : GrimEngine) (r : SaveGame)
    (rest : List Section) (m p : Nat) (sel f hgt j wd x y d sub setId : Int) (c : Color)
    (ms : String)
    (hr : st._savedState = some r) (hsaving : r._saving = false)
    (hopen : r._currentSection = none)
    (hsec : findSection SectionTag.GRIM r._sections = some (⟨SectionTag.GRIM,
      [ .uint32 m, .uint32 p, .sint32 sel, .color c, .sint32 f, .sint32 hgt, .sint32 j,
        .sint32 wd, .sint32 x, .sint32 y, .sint32 d, .sint32 sub, .sint32 setId,
        .string ms ]⟩, rest))
    (hminor : 5 < r._minorVersion) :
    ∃ st1, restoreGRIM st = .ok st1 ∧
      (sel ≠ 0 → getObject Actor.id st.Actor_pool sel = none → st1._selectedActor = none) ∧
      (getObject PoolObject.id st.Font_pool f = none → st1._sayLineDefaults._font = none) ∧
      (getObject PoolObject.id st.TextObject_pool sub = none → st1._movieSubtitle = none) ∧
      (getObject Set.id st.Set_pool setId = none → st1._currSet = none) := by
  refine ⟨_, restoreGRIM_eq st r rest m p sel f hgt j wd x y d sub setId c ms hr hsaving hopen
    hsec hminor, ?_, ?_, ?_, ?_⟩
  · intro h0 h1
    simp [h0, getObjectPtr, h1]
  · intro h1
    simp [getObjectPtr, h1]
  · intro h1
    simp [getObjectPtr, h1]
  · intro h1
    simp [getObjectPtr, h1]

/-- Witness of C5, amended: the stream of `danglingEngine`. -/
theorem restoreGRIM_stores_null_for_dangling_witness :
    ∃ st1, restoreGRIM danglingEngine = .ok st1 ∧
      st1._selectedActor = none ∧ st1._sayLineDefaults._font = none ∧
      st1._movieSubtitle = none ∧ st1._currSet = none := by
  obtain ⟨st1, h, a, b, c, d⟩ := restoreGRIM_stores_null_for_dangling danglingEngine
    { _saving := false, _filename := "grim.sav", _majorVersion := 22, _minorVersion := 6,
      _sections := [danglingGrimSection], _currentSection := none, _sectionBuffer := [] }
    [] 2 2 99 98 0 2 0 0 100 0 97 96 ⟨255, 255, 255⟩ "mo_ddtws" rfl rfl rfl rfl (by decide)
  exact ⟨st1, h, a (by decide) rfl, b rfl, c rfl, d rfl⟩

/-! ### C6: version gating in the engine section -/

/-- C6, at the failing input: a stream of minor version 5 is restored into an
engine whose movie subtitle points to text object 55, which the pools do not
hold. `restoreGRIM` reads nothing for the subtitle, so the Set identity and the
movie-setup name are read from the right position, but it does not default the
subtitle either: the stale pointer is kept. -/
theorem restoreGRIM_minor5_keeps_stale_subtitle :
    getObject PoolObject.id minor5Engine.TextObject_pool 55 = none ∧
    ∃ st1, restoreGRIM minor5Engine = .ok st1 ∧
      st1._movieSubtitle = some 55 ∧ st1._currSet = some 1 ∧
      st1._movieSetup = "mo_ddtws" :=
  ⟨rfl, _, rfl, rfl, rfl, rfl⟩

/-! ### C7: mode invalidation -/

/-- C7: for every state and every mode `m`, also `m` equal to the current mode,
after `setMode(m)` the current mode is `m` and the rebuild flag of the
active-actor cache is set, whatever it was before; no other member changes. -/
theorem setMode_sets_mode_and_invalidates (st : GrimEngine) (m : EngineMode) :
    (setMode st m)._mode = m ∧
    (setMode st m)._buildActiveActorsList = true ∧
    setMode st m = { st with _mode := m, _buildActiveActorsList := true } := by
  refine ⟨rfl, rfl, rfl⟩

/-! ### C8: active-actor cache rebuild -/

/-- C8: the rebuild of the active-actor cache. When the cache is not dirty,
`buildActiveActorsList` returns the state unchanged. When it is dirty and a
current Set `s` is present, it succeeds; afterwards the cache is the Actor pool
in pool order, filtered to the actors that are in Set `s` by name while the mode
is Normal or Draw, or that are overworld actors in any mode; the dirty flag is
clear and nothing else has changed, so a second rebuild changes nothing. -/
theorem buildActiveActorsList_rebuild (st : GrimEngine) :
    (st._buildActiveActorsList = false → buildActiveActorsList st = .ok st) ∧
    (∀ s : Set, st._buildActiveActorsList = true → st.currSet = some s →
      ∃ st1, buildActiveActorsList st = .ok st1 ∧
        st1._activeActors =
          (st.Actor_pool.filter (fun a =>
            (decide (st._mode = NormalMode ∨ st._mode = DrawMode) && a.isInSet s._name)
              || a.isInOverworld)).map Actor.id ∧
        st1._buildActiveActorsList = false ∧
        st1 = { st with _activeActors := st1._activeActors, _buildActiveActorsList := false } ∧
        buildActiveActorsList st1 = .ok st1) := by
  constructor
  · intro h
    simp [buildActiveActorsList, h]
  · intro s hd hs
    by_cases hm : st._mode = NormalMode ∨ st._mode = DrawMode
    · by_cases he : st.Actor_pool = []
      · simp [buildActiveActorsList, hd, hs, hm, he, isActiveActor]
      · have : st.Actor_pool.isEmpty = false := by
          cases h : st.Actor_pool with
          | nil => exact absurd h he
          | cons a l => rfl
        simp [buildActiveActorsList, hd, hs, hm, this, isActiveActor]
        congr 2
        funext a
        rcases hm with h | h <;> simp [isActiveActor, h, NormalMode, DrawMode]
    · simp [buildActiveActorsList, hd, hs, hm, isActiveActor]

/-- Witness of C8: in `exampleEngine` (Normal mode, Set "mo") the rebuilt cache
holds actor 7, which is in "mo", and actor 9, which is an overworld actor. -/
theorem buildActiveActorsList_rebuild_witness :
    ∃ st1, buildActiveActorsList exampleEngine = .ok st1 ∧
      st1._activeActors = [7, 9] ∧ st1._buildActiveActorsList = false ∧
      buildActiveActorsList st1 = .ok st1 := by
  obtain ⟨st1, h, a, b, -, c⟩ := (buildActiveActorsList_rebuild exampleEngine).2
    { id := 1, _name := "mo", _locked := false,
      _setups := [⟨"mo_ddtws"⟩, ⟨"mo_winws"⟩], _currSetup := 0,
      _minVolume := 0, _maxVolume := 0 } rfl rfl
  exact ⟨st1, h, by rw [a]; decide, b, c⟩

/-! ### C9: scene swap cleanup -/

/-- C9: scene swap. For every `setSet(scene)` with `scene` a live Set other than
the current one, the call succeeds; afterwards the Actor pool holds the same
actors, each stopped, without clean buffer and with sort order 0; `scene` is the
current Set (with its sound parameters set); the Set that was current has been
deleted if and only if there was one and it was unlocked, and no other Set has
left the pool; the setup-changed flag and the cache-dirty flag are set. -/
theorem setSet_cleanup (st : GrimEngine) (scene : Int) (newScene : Set)
    (hne : some scene ≠ st._currSet)
    (hnew : getObject Set.id st.Set_pool scene = some newScene) :
    ∃ st1 evs, setSet st (some scene) = .ok st1 ∧
      st1.Actor_pool.map Actor.id = st.Actor_pool.map Actor.id ∧
      (∀ a ∈ st1.Actor_pool, a._walking = false ∧ a._cleanBuffer = 0 ∧ a._sortOrder = 0) ∧
      st1._currSet = some scene ∧
      st1.currSet = some (newScene.setSoundParameters 20 127) ∧
      st1.log = st.log ++ evs ∧
      (∀ id, Ev.deleteSet id ∈ evs ↔
        ∃ last, st.currSet = some last ∧ last.id = id ∧ last._locked = false) ∧
      (∀ id, id ∈ st1.Set_pool.map Set.id ↔
        id ∈ st.Set_pool.map Set.id ∧
          ¬ ∃ last, st.currSet = some last ∧ last.id = id ∧ last._locked = false) ∧
      st1._setupChanged = true ∧
      st1._buildActiveActorsList = true := by
  have hid : newScene.id = scene := getObject_some_id _ _ _ _ hnew
  have hcur : ∀ (x : GrimEngine), x.Set_pool = st.Set_pool → x._currSet = some scene →
      x.currSet = some newScene := by
    intro x h1 h2
    simp [GrimEngine.currSet, h1, h2, hnew]
  have hb : (some scene).bind (getObject Set.id st.Set_pool) = some newScene := by
    simpa using hnew
  unfold setSet
  rw [if_neg hne]
  simp only [hb]
  have hmapid : ∀ l : List Actor,
      List.map Actor.id (l.map (fun a => ((a.stopWalking).clearCleanBuffer).setSortOrder 0))
        = l.map Actor.id := by
    intro l
    simp [List.map_map, Function.comp_def, Actor.stopWalking, Actor.clearCleanBuffer,
      Actor.setSortOrder]
  have hact : ∀ a ∈ st.Actor_pool.map
      (fun a => ((a.stopWalking).clearCleanBuffer).setSortOrder 0),
      a._walking = false ∧ a._cleanBuffer = 0 ∧ a._sortOrder = 0 := by
    intro a ha
    obtain ⟨b, _, rfl⟩ := List.mem_map.1 ha
    simp [Actor.stopWalking, Actor.clearCleanBuffer, Actor.setSortOrder]
  have hsetids : ∀ l : List Set,
      List.map Set.id (l.map (fun s => if s.id = newScene.id then s.setSoundParameters 20 127 else s))
        = l.map Set.id := by
    intro l
    simp only [List.map_map]
    congr 1
    funext s
    by_cases h : s.id = newScene.id <;> simp [h, Set.setSoundParameters]
  cases hl : st.currSet with
  | none =>
    refine ⟨_, (if st.getGameType = GType_MONKEY4 then
        st.PoolSound_pool.map (fun s => Ev.poolSoundStop s.id) else []) ++ [Ev.refreshBuffers],
      rfl, hmapid _, hact, rfl, ?_, ?_, ?_, ?_, rfl, rfl⟩
    · simp only [GrimEngine.currSet, invalidateActiveActorsList, Option.bind]
      rw [getObject_map Set.id _ (by intro a; by_cases h : a.id = newScene.id <;> simp [h, Set.setSoundParameters]), hnew]
      simp
    · simp [invalidateActiveActorsList]
    · intro id
      simp
    · intro id
      simp [invalidateActiveActorsList, hsetids]
  | some last =>
    have hlast : st._currSet = some last.id := by
      unfold GrimEngine.currSet at hl
      cases hc : st._currSet with
      | none => simp [hc] at hl
      | some j =>
        rw [hc] at hl
        have := getObject_some_id Set.id st.Set_pool j last (by simpa using hl)
        rw [this]
    have hsl : scene ≠ last.id := by
      intro h
      exact hne (by rw [hlast, h])
    cases hlock : last._locked with
    | true =>
      simp only [hlock, Bool.not_true, Bool.false_eq_true, if_false]
      refine ⟨_, (if st.getGameType = GType_MONKEY4 then
          st.PoolSound_pool.map (fun s => Ev.poolSoundStop s.id) else []) ++ [Ev.refreshBuffers],
        rfl, hmapid _, hact, rfl, ?_, ?_, ?_, ?_, rfl, rfl⟩
      · simp only [GrimEngine.currSet, invalidateActiveActorsList, Option.bind]
        rw [getObject_map Set.id _ (by intro a; by_cases h : a.id = newScene.id <;> simp [h, Set.setSoundParameters]), hnew]
        simp
      · simp [invalidateActiveActorsList]
      · intro id
        simp [hlock]
      · intro id
        simp only [invalidateActiveActorsList, hsetids]
        constructor
        · intro h
          refine ⟨h, ?_⟩
          rintro ⟨l2, h1, _, h3⟩
          cases h1
          rw [hlock] at h3
          cases h3
        · intro h
          exact h.1
    | false =>
      simp only [hlock, Bool.not_false, if_true]
      refine ⟨_, (if st.getGameType = GType_MONKEY4 then
          st.PoolSound_pool.map (fun s => Ev.poolSoundStop s.id) else []) ++ [Ev.refreshBuffers]
          ++ [Ev.deleteSet last.id],
        rfl, hmapid _, hact, rfl, ?_, ?_, ?_, ?_, rfl, rfl⟩
      · simp only [GrimEngine.currSet, invalidateActiveActorsList, Option.bind]
        rw [getObject_deleteObject, if_neg hsl,
          getObject_map Set.id _ (by intro a; by_cases h : a.id = newScene.id <;> simp [h, Set.setSoundParameters]), hnew]
        simp
      · simp [invalidateActiveActorsList]
      · intro id
        simp only [List.mem_append, List.mem_singleton, Option.some.injEq]
        constructor
        · intro h
          rcases h with (h | h) | h
          · split at h
            · obtain ⟨x, _, hx⟩ := List.mem_map.1 h
              cases hx
            · cases h
          · cases h
          · cases h
            exact ⟨last, rfl, rfl, hlock⟩
        · rintro ⟨l2, h1, h2, _⟩
          right
          rw [← h2, h1]
      · intro id
        simp only [invalidateActiveActorsList]
        unfold deleteObject
        constructor
        · intro h
          obtain ⟨x, hx, rfl⟩ := List.mem_map.1 h
          have hx2 := List.mem_filter.1 hx
          refine ⟨?_, ?_⟩
          · rw [← hsetids]
            exact List.mem_map.2 ⟨x, hx2.1, rfl⟩
          · rintro ⟨l2, h1, h2, _⟩
            cases h1
            simp [h2] at hx2
        · rintro ⟨h1, h2⟩
          rw [← hsetids] at h1
          obtain ⟨x, hx, rfl⟩ := List.mem_map.1 h1
          refine List.mem_map.2 ⟨x, List.mem_filter.2 ⟨hx, ?_⟩, rfl⟩
          have : ¬ x.id = last.id := fun h => h2 ⟨last, rfl, h.symm, hlock⟩
          simp [this]

/-- Witness of C9: `exampleEngine` moves from the unlocked Set 1 to Set 2; Set 1
is deleted. -/
theorem setSet_cleanup_witness :
    ∃ st1, setSet exampleEngine (some 2) = .ok st1 ∧
      (∀ a ∈ st1.Actor_pool, a._walking = false ∧ a._cleanBuffer = 0 ∧ a._sortOrder = 0) ∧
      st1._currSet = some 2 ∧
      Ev.deleteSet 1 ∈ st1.log ∧
      st1.Set_pool.map Set.id = [2] ∧
      st1._setupChanged = true ∧ st1._buildActiveActorsList = true := by
  obtain ⟨st1, evs, h, -, a, b, -, -, -, -, e, f⟩ := setSet_cleanup exampleEngine 2
    { id := 2, _name := "ha", _locked := true, _setups := [⟨"ha_intha"⟩], _currSetup := 0,
      _minVolume := 0, _maxVolume := 0 } (by decide) rfl
  have hev : setSet exampleEngine (some 2) = .ok _ := rfl
  rw [hev] at h
  cases h
  exact ⟨_, hev, a, b, by decide, by decide, e, f⟩

/-! ### C10: setSet on the current Set -/

/-- C10: `setSet` with the Set that is already current returns the state it was
given: no actor is touched, no sound stopped, no Set deleted, no flag changed
and nothing logged. -/
theorem setSet_current_is_noop (st : GrimEngine) :
    setSet st st._currSet = .ok st := by
  simp [setSet]

/-! ### Unsigned arithmetic -/

/-- Unsigned subtraction without wrap-around. -/
theorem sub32_eq (a b : Nat) (ha : a < 2 ^ 32) (hb : b ≤ a) : sub32 a b = a - b := by
  unfold sub32
  norm_num at ha ⊢
  omega

/-- Unsigned addition without wrap-around. -/
theorem add32_eq (a b : Nat) (h : a + b < 2 ^ 32) : add32 a b = a + b := by
  unfold add32
  exact Nat.mod_eq_of_lt h

/-! ### The script update -/

/-- The part of `luaUpdate` for the actors appends to the log. -/
theorem luaUpdate_actors_log (st st1 : GrimEngine) (updateTalk : Int → Bool)
    (h : luaUpdate_actors st updateTalk = .ok st1) : ∃ evs, st1.log = st.log ++ evs := by
  unfold luaUpdate_actors at h
  rw [bind_eq_ok] at h
  obtain ⟨s, hs, h⟩ := h
  simp only [pure, Except.pure, Except.ok.injEq] at h
  subst h
  obtain ⟨-, evs, hl, -⟩ := buildActiveActorsList_step _ _ hs
  refine ⟨st._talkingActors.map (fun a => Ev.actorUpdateTalk a st._frameTime) ++ (evs ++
    (s._activeActors.map (fun a => Ev.actorUpdate a s._frameTime) ++
      [Ev.irisUpdate s._frameTime] ++
      s.TextObject_pool.map (fun t => Ev.textObjectUpdate t.id))), ?_⟩
  show s.log ++ _ = _
  rw [hl]
  simp only [List.append_assoc]

/-- The function `buildActiveActorsList` completes when the current Set is
null or live, and keeps `_frameTime`. -/
theorem buildActiveActorsList_ok (st : GrimEngine)
    (h : st.currSet.isSome = true) :
    ∃ st1, buildActiveActorsList st = .ok st1 ∧ st1._frameTime = st._frameTime := by
  unfold buildActiveActorsList
  obtain ⟨s, hs⟩ := Option.isSome_iff_exists.1 h
  split
  · exact ⟨_, rfl, rfl⟩
  · split
    · simp only [hs]
      exact ⟨_, rfl, rfl⟩
    · exact ⟨_, rfl, rfl⟩

/-- The part of `luaUpdate` for the actors completes when the current Set is
live, keeps `_frameTime` and appends to the log. -/
theorem luaUpdate_actors_ok (st : GrimEngine) (updateTalk : Int → Bool)
    (h : st.currSet.isSome = true) :
    ∃ st1 evs, luaUpdate_actors st updateTalk = .ok st1 ∧
      st1._frameTime = st._frameTime ∧ st1.log = st.log ++ evs := by
  have hc : ({ st with
      _talkingActors := st._talkingActors.filter updateTalk,
      log := st.log ++ st._talkingActors.map (fun a => Ev.actorUpdateTalk a st._frameTime) }
      : GrimEngine).currSet.isSome = true := h
  obtain ⟨s, hs, hf⟩ := buildActiveActorsList_ok _ hc
  have hr : luaUpdate_actors st updateTalk = .ok (s.emits
      (s._activeActors.map (fun a => Ev.actorUpdate a s._frameTime) ++
        [Ev.irisUpdate s._frameTime] ++
        s.TextObject_pool.map (fun t => Ev.textObjectUpdate t.id))) := by
    unfold luaUpdate_actors
    rw [hs]
    rfl
  obtain ⟨evs, he⟩ := luaUpdate_actors_log _ _ _ hr
  exact ⟨_, evs, hr, hf, he⟩

/-- When no request it tests for is pending and the clock did not go back,
`luaUpdate` calls the script engine with the frame time: the time since the
last frame started, or 0 in Pause mode and in a short frame. It completes when
the current Set is null or live. -/
theorem luaUpdate_runs (st : GrimEngine) (now : Nat) (updateTalk : Int → Bool)
    (hreq : st.updateSuppressed = false) (hle : st._frameStart ≤ now)
    (hset : st._currSet = none ∨ st.currSet.isSome = true) :
    ∃ st1 evs, luaUpdate st now updateTalk = .ok st1 ∧
      st1._frameTime = (if st._mode = PauseMode ∨ st._shortFrame = true then 0
        else sub32 now st._frameStart) ∧
      st1.log = st.log ++
        Ev.luaUpdate (if st._mode = PauseMode ∨ st._shortFrame = true then 0
          else sub32 now st._frameStart) st._movieTime :: evs := by
  have hreq' : (st._savegameLoadRequest || st._savegameSaveRequest ||
      st._changeHardwareState) = false := hreq
  unfold luaUpdate
  simp only [hreq', Bool.false_eq_true, if_false, not_lt.2 hle]
  split
  · rename_i hc
    have hlive : st.currSet.isSome = true := by
      rcases hset with hn | hl
      · simp [hn] at hc
      · exact hl
    obtain ⟨s1, evs, hr, hf, hl⟩ := luaUpdate_actors_ok
      { st with
        _frameTime := (if st._mode = PauseMode ∨ st._shortFrame = true then 0
          else sub32 now st._frameStart),
        _frameStart := now,
        log := st.log ++ [Ev.luaUpdate (if st._mode = PauseMode ∨ st._shortFrame = true then 0
          else sub32 now st._frameStart) st._movieTime] } updateTalk hlive
    refine ⟨s1, evs, hr, hf, ?_⟩
    rw [hl]
    simp
  · exact ⟨_, [], rfl, rfl, rfl⟩

/-- The function `luaUpdate` in Pause mode, in closed form: unless it returns
early, it calls the script engine with frame time 0 and updates nothing
else. -/
theorem luaUpdate_pause (st : GrimEngine) (now : Nat) (updateTalk : Int → Bool)
    (hmode : st._mode = PauseMode) :
    luaUpdate st now updateTalk = .ok
      (if st.updateSuppressed = true then st
       else if now < st._frameStart then { st with _frameStart := now }
       else { st with
         _frameTime := 0,
         _frameStart := now,
         log := st.log ++ [Ev.luaUpdate 0 st._movieTime] }) := by
  unfold luaUpdate GrimEngine.updateSuppressed
  by_cases h1 : (st._savegameLoadRequest || st._savegameSaveRequest ||
      st._changeHardwareState) = true
  · rw [if_pos h1, if_pos h1]
  · rw [if_neg h1, if_neg h1]
    by_cases h2 : now < st._frameStart
    · rw [if_pos h2, if_pos h2]
    · rw [if_neg h2, if_neg h2]
      have hn : (PauseMode == NormalMode) = false := by decide
      have hs : (PauseMode == SmushMode) = false := by decide
      simp [hmode, hn, hs]

/-! ### C11: script update and pending requests -/

/-- C11, amended: `luaUpdate` tests for a restore request, a save request and a
hardware-state change, and for no other request. When one of these three is
pending it returns the state it was given: the script engine is not called, no
actor, iris or text object is updated, and the frame-time members are as
before. When none of the three is pending, whatever `_changeFullscreenState`
holds, and the clock did not go back, it calls the script engine with the frame
time and sets `_frameTime` (it completes when the current Set is null or
live). -/
theorem luaUpdate_suppression (st : GrimEngine) (now : Nat) (updateTalk : Int → Bool) :
    (st.updateSuppressed = true → luaUpdate st now updateTalk = .ok st) ∧
    (st.updateSuppressed = false → st._frameStart ≤ now →
      (st._currSet = none ∨ st.currSet.isSome = true) →
      ∃ st1 evs, luaUpdate st now updateTalk = .ok st1 ∧
        st1._frameTime = (if st._mode = PauseMode ∨ st._shortFrame = true then 0
          else sub32 now st._frameStart) ∧
        st1.log = st.log ++
          Ev.luaUpdate (if st._mode = PauseMode ∨ st._shortFrame = true then 0
            else sub32 now st._frameStart) st._movieTime :: evs) := by
  constructor
  · intro h
    unfold luaUpdate
    exact if_pos h
  · intro h hle hset
    exact luaUpdate_runs st now updateTalk h hle hset

/-- Witness of C11: with a save request pending `luaUpdate` returns
`savePendingEngine` as it is; with only a fullscreen toggle pending it runs the
script update on `toggleEngine`. -/
theorem luaUpdate_suppression_witness :
    luaUpdate savePendingEngine 40 (fun _ => true) = .ok savePendingEngine ∧
    ∃ st1 evs, luaUpdate toggleEngine 40 (fun _ => true) = .ok st1 ∧
      st1._frameTime = (if toggleEngine._mode = PauseMode ∨ toggleEngine._shortFrame = true
        then 0 else sub32 40 toggleEngine._frameStart) ∧
      st1.log = toggleEngine.log ++
        Ev.luaUpdate (if toggleEngine._mode = PauseMode ∨ toggleEngine._shortFrame = true
          then 0 else sub32 40 toggleEngine._frameStart) toggleEngine._movieTime :: evs :=
  ⟨(luaUpdate_suppression savePendingEngine 40 (fun _ => true)).1 rfl,
   (luaUpdate_suppression toggleEngine 40 (fun _ => true)).2 rfl (by decide) (Or.inr rfl)⟩

/-- C11, counterexample: a fullscreen toggle is pending on `toggleEngine`, a
device-reset request by the test of `mainLoop`, and `luaUpdate` at time 40
calls the script engine with frame time 40, updates the active actors 7 and 9,
the iris and text object 4, and moves `_frameTime` and `_frameStart` from 0 to
40. -/
theorem luaUpdate_fullscreen_counterexample :
    toggleEngine._changeFullscreenState = true ∧
    (toggleEngine._changeHardwareState || toggleEngine._changeFullscreenState) = true ∧
    toggleEngine._frameTime = 0 ∧ toggleEngine._frameStart = 0 ∧
    ∃ st1, luaUpdate toggleEngine 40 (fun _ => true) = .ok st1 ∧
      st1._frameTime = 40 ∧ st1._frameStart = 40 ∧
      st1.log = [Ev.luaUpdate 40 0, Ev.actorUpdate 7 40, Ev.actorUpdate 9 40,
        Ev.irisUpdate 40, Ev.textObjectUpdate 4] :=
  ⟨rfl, rfl, rfl, rfl, _, rfl, rfl, rfl, rfl⟩

/-! ### C12: Pause mode in the main loop -/

/-- The part of an iteration of the main loop after the event loop in Pause
mode: it completes, `_doFlip` and `_frameCounter` are as before, and the log
gains the update of the script engine with frame time 0, unless `luaUpdate`
returns early, and a requested music state. -/
theorem mainLoop_update_pause (st : GrimEngine) (luaNow flipNow : Nat)
    (updateTalk : Int → Bool) (hmode : st._mode = PauseMode) :
    ∃ st1, mainLoop_update st luaNow flipNow updateTalk = .ok st1 ∧
      st1._mode = PauseMode ∧ st1._doFlip = st._doFlip ∧
      st1._frameCounter = st._frameCounter ∧
      st1.log = st.log ++
        ((if st.updateSuppressed = true ∨ luaNow < st._frameStart then []
          else [Ev.luaUpdate 0 st._movieTime]) ++
         (if st.g_imuseState ≠ -1 then [Ev.setMusicState st.g_imuseState] else [])) := by
  have hps : ¬ (st._gamePlatform = kPlatformPS2 ∧ st._mode = SmushMode) := by
    rw [hmode]
    intro h
    exact absurd h.2 (by decide)
  unfold mainLoop_update
  simp only [hmode, ne_eq, not_true_eq_false, if_false, pure, Except.pure, bind, Except.bind]
  rw [← hmode, if_pos hps, luaUpdate_pause st luaNow updateTalk hmode]
  by_cases h1 : st.updateSuppressed = true
  · simp only [h1, if_true, true_or, hmode, not_true_eq_false, if_false]
    by_cases h3 : st.g_imuseState = -1
    · simp [h3, hmode]
    · simp [h3, hmode]
  · by_cases h2 : luaNow < st._frameStart
    · simp only [h1, h2, if_true, if_false, or_true, hmode, not_true_eq_false]
      by_cases h3 : st.g_imuseState = -1
      · simp [h3, hmode]
      · simp [h3, hmode]
    · simp only [h1, h2, if_false, or_self, hmode, not_true_eq_false]
      by_cases h3 : st.g_imuseState = -1
      · simp [h3, hmode]
      · simp [h3, hmode]

/-- Logged calls of `Ev.isPauseCall` are a run in Pause mode. -/
theorem PauseRun.emits (st : GrimEngine) (evs : List Ev)
    (h : ∀ e ∈ evs, e.isPauseCall st._movieTime = true) :
    PauseRun st (st.emits evs) [] :=
  ⟨st._frameTime, st._frameStart, evs, rfl, Or.inl rfl, Or.inl rfl, h⟩

/-- C13: frame pacing. For every start time, every 32-bit end time and every
32-bit budget `_speedLimitMs`, the loop sleeps exactly when the end time is not before
the start time, the budget is not 0 and the elapsed time is below the budget;
it then sleeps for the budget minus the elapsed time, so that elapsed time plus
sleep is the budget. In every other case it does not sleep. -/
theorem mainLoop_pacing (st : GrimEngine) (startTime endTime : Nat)
    (he : endTime < 2 ^ 32) (hb : st._speedLimitMs < 2 ^ 32) :
    mainLoop_delay startTime endTime st._speedLimitMs =
      (if startTime ≤ endTime ∧ st._speedLimitMs ≠ 0 ∧
          endTime - startTime < st._speedLimitMs
       then some (st._speedLimitMs - (endTime - startTime)) else none) ∧
    (∀ delayTime, mainLoop_delay startTime endTime st._speedLimitMs = some delayTime →
      (endTime - startTime) + delayTime = st._speedLimitMs) ∧
    mainLoop_pace st startTime endTime =
      (if startTime ≤ endTime ∧ st._speedLimitMs ≠ 0 ∧
          endTime - startTime < st._speedLimitMs
       then st.emit (Ev.delayMillis (st._speedLimitMs - (endTime - startTime))) else st) := by
  have key : mainLoop_delay startTime endTime st._speedLimitMs =
      (if startTime ≤ endTime ∧ st._speedLimitMs ≠ 0 ∧
          endTime - startTime < st._speedLimitMs
       then some (st._speedLimitMs - (endTime - startTime)) else none) := by
    unfold mainLoop_delay
    by_cases h1 : startTime > endTime
    · rw [if_pos h1, if_neg (by omega)]
    · rw [if_neg h1]
      have e1 : sub32 endTime startTime = endTime - startTime :=
        sub32_eq _ _ he (by omega)
      by_cases h2 : st._speedLimitMs = 0
      · rw [if_pos h2, if_neg (by omega)]
      · rw [if_neg h2, e1]
        by_cases h3 : endTime - startTime < st._speedLimitMs
        · rw [if_pos h3, if_pos ⟨by omega, h2, h3⟩,
            sub32_eq _ _ hb (by omega)]
        · rw [if_neg h3, if_neg (by tauto)]
  refine ⟨key, ?_, ?_⟩
  · intro d hd
    rw [key] at hd
    split at hd
    · rename_i hc
      cases hd
      omega
    · cases hd
  · unfold mainLoop_pace
    rw [key]
    by_cases hc : startTime ≤ endTime ∧ st._speedLimitMs ≠ 0 ∧
        endTime - startTime < st._speedLimitMs
    · rw [if_pos hc, if_pos hc]
    · rw [if_neg hc, if_neg hc]

/-- Witness of C13: with the budget 16 of `exampleEngine`, 10 ms elapsed give a
sleep of 6 ms; 20 ms elapsed, or an end time before the start time, give
none. -/
theorem mainLoop_pacing_witness :
    mainLoop_delay 100 110 exampleEngine._speedLimitMs = some 6 ∧
    mainLoop_delay 100 120 exampleEngine._speedLimitMs = none ∧
    mainLoop_delay 100 90 exampleEngine._speedLimitMs = none :=
  ⟨((mainLoop_pacing exampleEngine 100 110 (by decide) (by decide)).1).trans rfl,
   rfl, rfl⟩

/-! ### C14: pause symmetry -/

/-- C14: pause symmetry. Let the last frame have started at `t0`, the engine be
paused at `tp` and resumed at `tr`, and the next `luaUpdate` run at `tn`, with
`t0 ≤ tp ≤ tr ≤ tn` 32-bit times, no request pending that `luaUpdate` tests
for, a mode other than Pause and no short frame. Then `luaUpdate` completes
(the current Set being null or live) and the frame time it passes to the script
engine, and stores in `_frameTime`, is `(tn - t0) - (tr - tp)`. -/
theorem pause_resume_frameTime (st : GrimEngine) (t0 tp tr tn : Nat)
    (updateTalk : Int → Bool)
    (h0 : t0 ≤ tp) (h1 : tp ≤ tr) (h2 : tr ≤ tn) (h3 : tn < 2 ^ 32)
    (hstart : st._frameStart = t0)
    (hreq : st.updateSuppressed = false)
    (hmode : st._mode ≠ PauseMode) (hshort : st._shortFrame = false)
    (hset : st._currSet = none ∨ st.currSet.isSome = true) :
    ∃ st1 evs,
      luaUpdate (pauseEngineIntern (pauseEngineIntern st true tp) false tr) tn updateTalk
        = .ok st1 ∧
      st1._frameTime = (tn - t0) - (tr - tp) ∧
      st1.log = st.log ++
        ([Ev.imusePause true, Ev.moviePause true, Ev.imusePause false, Ev.moviePause false] ++
          Ev.luaUpdate ((tn - t0) - (tr - tp)) st._movieTime :: evs) := by
  have e1 : sub32 tr tp = tr - tp := sub32_eq _ _ (by omega) h1
  have e2 : add32 t0 (tr - tp) = t0 + (tr - tp) := add32_eq _ _ (by omega)
  have e3 : sub32 tn (t0 + (tr - tp)) = (tn - t0) - (tr - tp) := by
    rw [sub32_eq _ _ h3 (by omega)]
    omega
  have hfs : (pauseEngineIntern (pauseEngineIntern st true tp) false tr)._frameStart
      = t0 + (tr - tp) := by
    show add32 st._frameStart (sub32 tr tp) = _
    rw [hstart, e1, e2]
  obtain ⟨st1, evs, hr, hf, hl⟩ := luaUpdate_runs
    (pauseEngineIntern (pauseEngineIntern st true tp) false tr) tn updateTalk hreq
    (by rw [hfs]; omega) hset
  have hm : (pauseEngineIntern (pauseEngineIntern st true tp) false tr)._mode = st._mode := rfl
  have hsf : (pauseEngineIntern (pauseEngineIntern st true tp) false tr)._shortFrame
      = st._shortFrame := rfl
  have hmt : (pauseEngineIntern (pauseEngineIntern st true tp) false tr)._movieTime
      = st._movieTime := rfl
  have hlog : (pauseEngineIntern (pauseEngineIntern st true tp) false tr).log
      = st.log ++ [Ev.imusePause true, Ev.moviePause true, Ev.imusePause false,
          Ev.moviePause false] := by
    simp [pauseEngineIntern]
  simp only [hm, hsf, hfs, hmt, hshort, e3, hmode, Bool.false_eq_true, or_self,
    if_false] at hf hl
  rw [hlog] at hl
  exact ⟨st1, evs, hr, hf, by rw [hl]; simp⟩

/-- Witness of C14: frame start 100, pause at 130, resume at 170, update at
200 on `exampleEngine`: the frame time is 60. -/
theorem pause_resume_frameTime_witness :
    ∃ st1 evs,
      luaUpdate (pauseEngineIntern (pauseEngineIntern
        { exampleEngine with _frameStart := 100 } true 130) false 170) 200 (fun _ => true)
        = .ok st1 ∧
      st1._frameTime = (200 - 100) - (170 - 130) ∧
      st1.log = exampleEngine.log ++
        ([Ev.imusePause true, Ev.moviePause true, Ev.imusePause false, Ev.moviePause false] ++
          Ev.luaUpdate ((200 - 100) - (170 - 130)) 0 :: evs) :=
  pause_resume_frameTime { exampleEngine with _frameStart := 100 } 100 130 170 200
    (fun _ => true) (by decide) (by decide) (by decide) (by decide) rfl rfl (by decide) rfl
    (Or.inr rfl)

/-! ### C15: failed save -/

/-- C15: when the save stream cannot be opened, `savegameSave` completes with
the state it was given, but for the save request, which is cleared, the member
`_savedState`, which holds the null answer of `openForSaving`, and the log,
which gains the attempt to open the stream and the error dialog. No section is
begun, no screenshot is taken, the save callback is not raised, sound and movie
are not paused, and the pools, the mode, the current Set, the selected actor
and `_shortFrame` are as before. -/
theorem savegameSave_failed_open (st : GrimEngine)
    (h : st.g_saveFiles._writable = false) :
    savegameSave st = .ok { st with
      _savegameSaveRequest := false,
      _savedState := none,
      log := st.log ++ [Ev.openForSaving st.saveFileName,
        Ev.displayErrorDialog "Error: the game could not be saved."] } := by
  unfold savegameSave
  simp only [openForSaving, h]
  rfl

/-- Witness of C15: `savegameSave` on `unwritableEngine`. -/
theorem savegameSave_failed_open_witness :
    savegameSave unwritableEngine = .ok { unwritableEngine with
      _savegameSaveRequest := false,
      _savedState := none,
      log := unwritableEngine.log ++ [Ev.openForSaving unwritableEngine.saveFileName,
        Ev.displayErrorDialog "Error: the game could not be saved."] } :=
  savegameSave_failed_open unwritableEngine rfl

/-! ### C16: lifecycle hooks -/

/-- C16, amended: `handlePause`, `handleExit` and `handleUserPaint` raise a
fatal error when the script engine has no handler of their name, and return
normally, with the callback made, when it has one. `cameraChangeHandle` makes
its callback and returns normally whether or not a handler exists: it does not
look at the answer. -/
theorem lifecycle_hooks (st : GrimEngine) (prev next : Int) :
    handlePause st =
      (if "pauseHandler" ∈ st.g_lua._handlers
       then .ok (st.emit (Ev.luaCallback "pauseHandler" []))
       else .error (.fatal "handlePause: invalid handler")) ∧
    handleExit st =
      (if "exitHandler" ∈ st.g_lua._handlers
       then .ok (st.emit (Ev.luaCallback "exitHandler" []))
       else .error (.fatal "handleExit: invalid handler")) ∧
    handleUserPaint st =
      (if "userPaintHandler" ∈ st.g_lua._handlers
       then .ok (st.emit (Ev.luaCallback "userPaintHandler" []))
       else .error (.fatal "handleUserPaint: invalid handler")) ∧
    cameraChangeHandle st prev next =
      st.emit (Ev.luaCallback "camChangeHandler" [prev, next]) := by
  refine ⟨?_, ?_, ?_, rfl⟩
  · unfold handlePause luaCallback
    by_cases h : "pauseHandler" ∈ st.g_lua._handlers <;> simp [h]
  · unfold handleExit luaCallback
    by_cases h : "exitHandler" ∈ st.g_lua._handlers <;> simp [h]
  · unfold handleUserPaint luaCallback
    by_cases h : "userPaintHandler" ∈ st.g_lua._handlers <;> simp [h]

/-- C16, counterexample: the script engine of `noHandlersEngine` has no
handler; the callback of `cameraChangeHandle` answers false and the hook
returns all the same, while `handlePause` raises its fatal error. -/
theorem cameraChangeHandle_counterexample :
    (luaCallback noHandlersEngine "camChangeHandler" [0, 1]).2 = false ∧
    cameraChangeHandle noHandlersEngine 0 1 =
      noHandlersEngine.emit (Ev.luaCallback "camChangeHandler" [0, 1]) ∧
    handlePause noHandlersEngine = .error (.fatal "handlePause: invalid handler") :=
  ⟨rfl, rfl, rfl⟩

/-! ### C17: absent references on save -/

/-- Without a current Set `saveGRIM` does not complete. -/
theorem saveGRIM_needs_currSet (st st1 : GrimEngine) (h : st._currSet = none) :
    saveGRIM st ≠ .ok st1 := by
  intro hs
  obtain ⟨_, _, _, setId, hset, -⟩ := saveGRIM_wrote st st1 hs
  rw [h] at hset
  simp [derefId] at hset

/-- C17, at the failing inputs: `saveGRIM` on a state without current Set, and
on a state without say-line font, does not write identity 0: it dereferences
the null pointer. -/
theorem saveGRIM_null_font_or_set :
    noSetSaving._currSet = none ∧
    saveGRIM noSetSaving = .error (.nullDeref "_currSet") ∧
    noFontSaving._sayLineDefaults._font = none ∧
    saveGRIM noFontSaving = .error (.nullDeref "_sayLineDefaults.getFont()") :=
  ⟨rfl, rfl, rfl, rfl⟩

/-! ### C18: layout of the engine section -/

/-- The callbacks of two logs in a row. -/
theorem postCamChangeCount_append (a b : List Ev) :
    postCamChangeCount (a ++ b) = postCamChangeCount a + postCamChangeCount b := by
  simp [postCamChangeCount]

/-- A log without post-camera-change callback. -/
theorem postCamChangeCount_eq_zero (l : List Ev)
    (h : ∀ e ∈ l, e.isPostCamChange = false) : postCamChangeCount l = 0 := by
  unfold postCamChangeCount
  rw [List.length_eq_zero, List.filter_eq_nil_iff]
  intro e he
  simp [h e he]

/-- Calls built from a list by a function that makes no post-camera-change
callback. -/
theorem postCamChangeCount_map {β : Type} (l : List β) (f : β → Ev)
    (hf : ∀ x, (f x).isPostCamChange = false) : postCamChangeCount (l.map f) = 0 :=
  postCamChangeCount_eq_zero _ (by
    intro e he
    obtain ⟨x, _, rfl⟩ := List.mem_map.1 he
    exact hf x)

/-- Calls selected from a list by a function that makes no post-camera-change
callback. -/
theorem postCamChangeCount_filterMap {β : Type} (l : List β) (f : β → Option Ev)
    (hf : ∀ x e, f x = some e → e.isPostCamChange = false) :
    postCamChangeCount (l.filterMap f) = 0 :=
  postCamChangeCount_eq_zero _ (by
    intro e he
    obtain ⟨x, _, hx⟩ := List.mem_filterMap.1 he
    exact hf x e hx)

/-- The function `buildActiveActorsList` keeps the log and the setup flag. -/
theorem buildActiveActorsList_flag (st st1 : GrimEngine)
    (h : buildActiveActorsList st = .ok st1) :
    st1.log = st.log ∧ st1._setupChanged = st._setupChanged := by
  unfold buildActiveActorsList at h
  split at h
  · cases h; exact ⟨rfl, rfl⟩
  · split at h
    · split at h
      · cases h
      · cases h; exact ⟨rfl, rfl⟩
    · cases h; exact ⟨rfl, rfl⟩

/-- Bringing a movie frame to the renderer raises no post-camera-change
callback. -/
theorem postCamChangeCount_movieUpdateCalls (m : MoviePlayer) :
    postCamChangeCount (movieUpdateCalls m) = 0 := by
  unfold movieUpdateCalls
  split <;> rfl

/-- The first part of `drawNormalMode` raises no post-camera-change
callback and keeps the setup flag. -/
theorem drawSceneLayers_flag (st : GrimEngine) (set : Set) :
    postCamChangeCount (drawSceneLayers st set).log = postCamChangeCount st.log ∧
      (drawSceneLayers st set)._setupChanged = st._setupChanged := by
  refine ⟨?_, rfl⟩
  show postCamChangeCount (st.log ++ _) = _
  simp only [postCamChangeCount_append]
  rw [postCamChangeCount_map _ _ (by intro x; rfl)]
  split
  · simp only [postCamChangeCount_append, postCamChangeCount_movieUpdateCalls]
    split <;> rfl
  · rfl

/-- The test of `_setupChanged` in `drawNormalMode` raises one
post-camera-change callback when the flag is set and none otherwise, and clears
the flag. -/
theorem notifySetupChanged_flag (st : GrimEngine) (set : Set) :
    postCamChangeCount (notifySetupChanged st set).log =
        postCamChangeCount st.log + (if st._setupChanged then 1 else 0) ∧
      (notifySetupChanged st set)._setupChanged = false := by
  unfold notifySetupChanged
  by_cases h : st._setupChanged = true
  · rw [if_pos h, if_pos h]
    refine ⟨?_, rfl⟩
    show postCamChangeCount (st.log ++ [Ev.luaCallback "postCamChangeHandler" _]) = _
    rw [postCamChangeCount_append]
    rfl
  · rw [if_neg h, if_neg h]
    exact ⟨rfl, by simpa using h⟩

/-- The last part of `drawNormalMode` raises no post-camera-change callback
and keeps the setup flag. -/
theorem drawActiveActors_flag (st : GrimEngine) (set : Set) :
    postCamChangeCount (drawActiveActors st set).log = postCamChangeCount st.log ∧
      (drawActiveActors st set)._setupChanged = st._setupChanged := by
  refine ⟨?_, rfl⟩
  show postCamChangeCount (st.log ++ _) = _
  rw [postCamChangeCount_append, postCamChangeCount_append, postCamChangeCount_filterMap]
  · rfl
  · intro x e hx
    split at hx
    · split at hx
      · cases hx; rfl
      · cases hx
    · cases hx

/-- A draw raises one post-camera-change callback when a setup change is
pending and none otherwise, and leaves no change pending. -/
theorem drawNormalMode_flag (st st1 : GrimEngine) (h : drawNormalMode st = .ok st1) :
    postCamChangeCount st1.log =
        postCamChangeCount st.log + (if st._setupChanged then 1 else 0) ∧
      st1._setupChanged = false := by
  unfold drawNormalMode at h
  rw [bind_eq_ok] at h
  obtain ⟨set, -, h⟩ := h
  rw [bind_eq_ok] at h
  obtain ⟨st3, h3, h⟩ := h
  simp only [pure, Except.pure, Except.ok.injEq] at h
  subst h
  obtain ⟨a1, a2⟩ := drawSceneLayers_flag st set
  obtain ⟨b1, b2⟩ := notifySetupChanged_flag (drawSceneLayers st set) set
  obtain ⟨c1, c2⟩ := buildActiveActorsList_flag _ _ h3
  obtain ⟨d1, d2⟩ := drawActiveActors_flag st3 set
  rw [a1, a2] at b1
  exact ⟨by rw [d1, c1, b1], by rw [d2, c2, b2]⟩

/-- A `setSet` with another scene raises no post-camera-change callback and
leaves a setup change pending; with the current scene it changes nothing. -/
theorem setSet_flag (st st1 : GrimEngine) (scene : Int)
    (h : setSet st (some scene) = .ok st1) :
    postCamChangeCount st1.log = postCamChangeCount st.log ∧
      st1._setupChanged = (if some scene = st._currSet then st._setupChanged else true) := by
  unfold setSet at h
  by_cases hc : some scene = st._currSet
  · rw [if_pos hc] at h
    cases h
    exact ⟨rfl, by rw [if_pos hc]⟩
  · rw [if_neg hc] at h
    simp only [] at h
    split at h
    · cases h
    · cases h
      refine ⟨?_, by rw [if_neg hc]; rfl⟩
      show postCamChangeCount (st.log ++ _) = _
      simp only [postCamChangeCount_append]
      split
      · rw [postCamChangeCount_map _ _ (by intro x; rfl)]
        split <;> rfl
      · split <;> rfl

/-- A `makeCurrentSetup` with another index raises no post-camera-change
callback and leaves a setup change pending; with the current index it changes
nothing. -/
theorem makeCurrentSetup_flag (st st1 : GrimEngine) (num : Int)
    (h : makeCurrentSetup st num = .ok st1) :
    postCamChangeCount st1.log = postCamChangeCount st.log ∧
      st1._setupChanged =
        (match st.currSet with
         | some set => if set.getSetup ≠ num then true else st._setupChanged
         | none => st._setupChanged) := by
  unfold makeCurrentSetup at h
  split at h
  · cases h
  · rename_i set hs
    simp only [hs]
    by_cases hc : set.getSetup ≠ num
    · rw [if_pos hc] at h
      cases h
      refine ⟨?_, by rw [if_pos hc]⟩
      show postCamChangeCount ((st.log ++ [Ev.refreshBuffers]) ++
        [Ev.luaCallback "camChangeHandler" [set.getSetup, num]]) = _
      simp only [postCamChangeCount_append]
      rfl
    · rw [if_neg hc] at h
      cases h
      exact ⟨rfl, by rw [if_neg hc]⟩

/-- Coalesced notifications are at most one per setup change, and one more
when a change is pending at the start. -/
theorem coalescedNotifications_le (pending : Bool) (kinds : List StepKind) :
    coalescedNotifications pending kinds ≤
      (if pending then 1 else 0) + kinds.count StepKind.change := by
  induction kinds generalizing pending with
  | nil => simp [coalescedNotifications]
  | cons k rest ih =>
    cases k with
    | change =>
      have := ih true
      simp only [coalescedNotifications, List.count_cons_self, if_true] at this ⊢
      split <;> omega
    | same =>
      have := ih pending
      simp only [coalescedNotifications]
      rw [List.count_cons_of_ne (by decide)]
      exact this
    | draw =>
      have := ih false
      simp only [coalescedNotifications]
      rw [List.count_cons_of_ne (by decide)]
      simp only [Bool.false_eq_true, if_false] at this
      omega

/-- C19, amended: the post-camera-change callback is raised once per draw that
finds a setup change pending. The flag `_setupChanged` is set by a `setSet`
with another scene, by a `makeCurrentSetup` with another index and by the start
of `mainLoop`; a draw raises the callback once when the flag is set, and clears
it. Over every run of `setSet` calls, `makeCurrentSetup` calls and draws that
completes, from any state, the number of callbacks raised is the number of
draws that find the flag set, counted by `coalescedNotifications` from the flag
at the start and the kinds of the steps: setup changes without a draw between
them raise one callback together, and the callbacks are at most one per setup
change and one more when the flag is set at the start. A run that begins at the
start of `mainLoop` begins with the flag set, so that its first draw raises the
callback without any setup change. A draw that finds the flag clear raises
none. -/
theorem postCamChange_coalesced (st st1 : GrimEngine) (ops : List SceneOp)
    (h : runSceneOps st ops = .ok st1) :
    postCamChangeCount st1.log =
      postCamChangeCount st.log +
        coalescedNotifications st._setupChanged (stepKinds st ops) ∧
    postCamChangeCount st1.log ≤
      postCamChangeCount st.log + ((if st._setupChanged then 1 else 0) +
        (stepKinds st ops).count StepKind.change) ∧
    (∀ (st0 : GrimEngine) (now : Nat), st = mainLoop_init st0 now →
      postCamChangeCount st1.log =
        postCamChangeCount st0.log + coalescedNotifications true (stepKinds st ops)) ∧
    (∀ s s1 : GrimEngine, drawNormalMode s = .ok s1 →
      postCamChangeCount s1.log =
        postCamChangeCount s.log + (if s._setupChanged = true then 1 else 0) ∧
      s1._setupChanged = false) := by
  have key : ∀ (ops : List SceneOp) (st : GrimEngine), runSceneOps st ops = .ok st1 →
      postCamChangeCount st1.log =
        postCamChangeCount st.log +
          coalescedNotifications st._setupChanged (stepKinds st ops) := by
    intro ops
    induction ops with
    | nil =>
      intro st h
      cases h
      rfl
    | cons op rest ih =>
      intro st h
      unfold runSceneOps at h
      rw [bind_eq_ok] at h
      obtain ⟨s, hs, h⟩ := h
      have hk : stepKinds st (op :: rest) = op.kind st :: stepKinds s rest := by
        show op.kind st :: _ = _
        rw [hs]
      rw [hk, ih s h]
      cases op with
      | setSet scene =>
        obtain ⟨a, b⟩ := setSet_flag st s scene hs
        rw [a, b]
        show _ = _ + coalescedNotifications _
          ((if some scene = st._currSet then StepKind.same else StepKind.change) :: _)
        by_cases hc : some scene = st._currSet
        · rw [if_pos hc, if_pos hc]; rfl
        · rw [if_neg hc, if_neg hc]; rfl
      | makeCurrentSetup num =>
        obtain ⟨a, b⟩ := makeCurrentSetup_flag st s num hs
        rw [a, b]
        show _ = _ + coalescedNotifications _ ((match st.currSet with
          | some set => if set.getSetup ≠ num then StepKind.change else StepKind.same
          | none => StepKind.same) :: _)
        cases hcs : st.currSet with
        | none => rfl
        | some set =>
          simp only []
          by_cases hc : set.getSetup ≠ num
          · rw [if_pos hc, if_pos hc]; rfl
          · rw [if_neg hc, if_neg hc]; rfl
      | draw =>
        obtain ⟨a, b⟩ := drawNormalMode_flag st s hs
        rw [a, b]
        show _ = _ + ((if st._setupChanged = true then 1 else 0) +
          coalescedNotifications false _)
        omega
  have e := key ops st h
  refine ⟨e, ?_, ?_, ?_⟩
  · rw [e]
    have := coalescedNotifications_le st._setupChanged (stepKinds st ops)
    omega
  · intro st0 now h0
    rw [e]
    subst h0
    rfl
  · intro s s1 hd
    exact drawNormalMode_flag s s1 hd

/-- Witness of C19: on `exampleEngine`, where no change is pending, a draw, a
setup change and two draws raise one callback; after the start of `mainLoop`
two draws, a setup change and a draw raise two, the first for the start and the
second for the setup change. -/
theorem postCamChange_coalesced_witness :
    (∃ st1, runSceneOps exampleEngine [.draw, .makeCurrentSetup 1, .draw, .draw] = .ok st1 ∧
      postCamChangeCount st1.log = 1) ∧
    (∃ st1, runSceneOps (mainLoop_init exampleEngine 0)
        [.draw, .draw, .makeCurrentSetup 1, .draw] = .ok st1 ∧
      postCamChangeCount st1.log = 2) := by
  constructor
  · have hok : (runSceneOps exampleEngine
        [.draw, .makeCurrentSetup 1, .draw, .draw]).toBool = true := rfl
    cases hr : runSceneOps exampleEngine [.draw, .makeCurrentSetup 1, .draw, .draw] with
    | error e => rw [hr] at hok; cases hok
    | ok st1 =>
      exact ⟨st1, rfl, ((postCamChange_coalesced exampleEngine st1 _ hr).1).trans rfl⟩
  · have hok : (runSceneOps (mainLoop_init exampleEngine 0)
        [.draw, .draw, .makeCurrentSetup 1, .draw]).toBool = true := rfl
    cases hr : runSceneOps (mainLoop_init exampleEngine 0)
        [.draw, .draw, .makeCurrentSetup 1, .draw] with
    | error e => rw [hr] at hok; cases hok
    | ok st1 =>
      exact ⟨st1, rfl,
        ((postCamChange_coalesced (mainLoop_init exampleEngine 0) st1 _ hr).2.2.1
          exampleEngine 0 rfl).trans rfl⟩

/-- C19, counterexample: on `exampleEngine` the setup of the current Set is
changed, then the scene is changed, then the scene is drawn: two setup changes,
one post-camera-change callback. After the start of `mainLoop` the scene is
drawn: no setup change, one callback. -/
theorem postCamChange_counterexample :
    (∃ st1, runSceneOps exampleEngine [.makeCurrentSetup 1, .setSet 2, .draw] = .ok st1 ∧
      (stepKinds exampleEngine [.makeCurrentSetup 1, .setSet 2, .draw]).count .change = 2 ∧
      postCamChangeCount st1.log = 1) ∧
    (∃ st1, runSceneOps (mainLoop_init exampleEngine 0) [.draw] = .ok st1 ∧
      (stepKinds (mainLoop_init exampleEngine 0) [.draw]).count .change = 0 ∧
      postCamChangeCount (mainLoop_init exampleEngine 0).log = 0 ∧
      postCamChangeCount st1.log = 1) :=
  ⟨⟨_, rfl, rfl, rfl⟩, ⟨_, rfl, rfl, rfl, rfl⟩⟩

/-! ### C20: text speed -/

/-- What `setTextSpeed` stores is the speed it is given. -/
theorem setTextSpeed_stores (st : GrimEngine) (speed : Int) :
    (setTextSpeed st speed)._textSpeed = speed := rfl

/-- C20, at the failing inputs: `setTextSpeed` with 0, with 11 and with -3
stores 0, 11 and -3: the two clamping assignments are overwritten by the
assignment that follows them. -/
theorem setTextSpeed_does_not_clamp :
    (setTextSpeed exampleEngine 0)._textSpeed = 0 ∧
    (setTextSpeed exampleEngine 11)._textSpeed = 11 ∧
    (setTextSpeed exampleEngine (-3))._textSpeed = -3 :=
  ⟨rfl, rfl, rfl⟩

/-! ### C21: the speed limit of the constructor -/

/-- A value below 2^32 is unchanged by the conversion to an unsigned 32-bit
integer. -/
theorem toUint32_natCast (n : Nat) (h : n < 2 ^ 32) : toUint32 (n : Int) = n := by
  unfold toUint32
  omega

/-- A value below 2^31 is unchanged by the conversion to a signed 32-bit
integer. -/
theorem toSint32_small (n : Nat) (h : n < 2 ^ 31) : toSint32 n = n := by
  unfold toSint32
  split <;> omega

/-- The budget of the constructor in closed form: the quotient of 1000 by the
configured speed when that is between 1 and 100, and 1000 / 60 otherwise. -/
theorem GrimEngine_speedLimitMs_eq (speed : Int) :
    GrimEngine_speedLimitMs speed =
      (if 1 ≤ speed ∧ speed ≤ 100 then 1000 / speed.toNat else 1000 / 60) := by
  unfold GrimEngine_speedLimitMs
  by_cases h : speed ≤ 0 ∨ speed > 100
  · rw [if_pos h, if_neg (by omega)]
    rfl
  · rw [if_neg h, if_pos (by omega)]
    obtain ⟨n, rfl⟩ := Int.eq_ofNat_of_zero_le (show 0 ≤ speed by omega)
    have e : Int.tdiv 1000 (n : Int) = ((1000 / n : Nat) : Int) := rfl
    rw [e, toUint32_natCast _ (lt_of_le_of_lt (Nat.div_le_self _ _) (by norm_num))]
    rfl

/-- The value written back for a budget other than 0 is the quotient of 1000
by the budget. -/
theorem GrimEngine_engineSpeed_eq (b : Nat) (h : b ≠ 0) :
    GrimEngine_engineSpeed b = .ok ((1000 / b : Nat) : Int) := by
  unfold GrimEngine_engineSpeed
  rw [if_neg h]
  have e : toUint32 1000 = 1000 := rfl
  rw [e, toSint32_small _ (lt_of_le_of_lt (Nat.div_le_self _ _) (by norm_num))]

/-- The quotients of 1000 by a speed between 1 and 100: the budget is between
10 and 1000, the speed computed back from it between 1 and 100, and that speed
gives the same budget. -/
theorem budget_bounds (s : Nat) (h1 : 1 ≤ s) (h2 : s ≤ 100) :
    10 ≤ 1000 / s ∧ 1000 / s ≤ 1000 ∧
    1 ≤ 1000 / (1000 / s) ∧ 1000 / (1000 / s) ≤ 100 ∧
    1000 / (1000 / (1000 / s)) = 1000 / s := by
  have hb1 : 10 ≤ 1000 / s := by
    rw [Nat.le_div_iff_mul_le (by omega)]
    omega
  have hb2 : 1000 / s ≤ 1000 := Nat.div_le_self _ _
  have hv1 : 1 ≤ 1000 / (1000 / s) := by
    rw [Nat.le_div_iff_mul_le (by omega)]
    omega
  have hv2 : 1000 / (1000 / s) ≤ 100 := by
    calc 1000 / (1000 / s) ≤ 1000 / 10 := Nat.div_le_div_left hb1 (by norm_num)
      _ = 100 := by norm_num
  have hsv : s ≤ 1000 / (1000 / s) := by
    rw [Nat.le_div_iff_mul_le (by omega)]
    exact Nat.mul_div_le 1000 s
  have hle : 1000 / (1000 / (1000 / s)) ≤ 1000 / s := Nat.div_le_div_left hsv (by omega)
  have hge : 1000 / s ≤ 1000 / (1000 / (1000 / s)) := by
    rw [Nat.le_div_iff_mul_le (by omega)]
    exact Nat.mul_div_le 1000 (1000 / s)
  exact ⟨hb1, hb2, hv1, hv2, le_antisymm hle hge⟩

/-- C21: speed-limit normalisation. For every configured `engine_speed` the
budget `_speedLimitMs` the constructor computes is 1000 / speed when the speed
is between 1 and 100 and 1000 / 60 otherwise; it is between 10 and 1000, so it
is not 0 and the write-back `1000 / _speedLimitMs` does not divide by zero. The
written-back value is between 1 and 100 and gives the same budget again, both
as the quotient 1000 / v and as the budget the constructor computes from v. The
statements of the constructor complete: they store the budget and write the
value back. -/
theorem speedLimit_normalisation (st : GrimEngine) (speed : Int) :
    GrimEngine_speedLimitMs speed =
      (if 1 ≤ speed ∧ speed ≤ 100 then 1000 / speed.toNat else 1000 / 60) ∧
    10 ≤ GrimEngine_speedLimitMs speed ∧ GrimEngine_speedLimitMs speed ≤ 1000 ∧
    GrimEngine_speedLimitMs speed ≠ 0 ∧
    ∃ v : Int,
      GrimEngine_engineSpeed (GrimEngine_speedLimitMs speed) = .ok v ∧
      v = ((1000 / GrimEngine_speedLimitMs speed : Nat) : Int) ∧
      1 ≤ v ∧ v ≤ 100 ∧
      1000 / v.toNat = GrimEngine_speedLimitMs speed ∧
      GrimEngine_speedLimitMs v = GrimEngine_speedLimitMs speed ∧
      GrimEngine_speedLimit st speed = .ok { st with
        _speedLimitMs := GrimEngine_speedLimitMs speed,
        log := st.log ++ [Ev.confSetInt "engine_speed" v] } := by
  have key : ∃ s : Nat, 1 ≤ s ∧ s ≤ 100 ∧ GrimEngine_speedLimitMs speed = 1000 / s := by
    rw [GrimEngine_speedLimitMs_eq]
    by_cases h : 1 ≤ speed ∧ speed ≤ 100
    · rw [if_pos h]
      exact ⟨speed.toNat, by omega, by omega, rfl⟩
    · rw [if_neg h]
      exact ⟨60, by norm_num, by norm_num, rfl⟩
  obtain ⟨s, h1, h2, hb⟩ := key
  obtain ⟨b1, b2, v1, v2, hst⟩ := budget_bounds s h1 h2
  have hne : GrimEngine_speedLimitMs speed ≠ 0 := by omega
  have hv : GrimEngine_engineSpeed (GrimEngine_speedLimitMs speed) =
      .ok ((1000 / GrimEngine_speedLimitMs speed : Nat) : Int) :=
    GrimEngine_engineSpeed_eq _ hne
  refine ⟨GrimEngine_speedLimitMs_eq speed, by omega, by omega, hne,
    ((1000 / GrimEngine_speedLimitMs speed : Nat) : Int), hv, rfl, ?_, ?_, ?_, ?_, ?_⟩
  · rw [hb]; omega
  · rw [hb]; omega
  · rw [Int.toNat_ofNat, hb]; exact hst
  · rw [GrimEngine_speedLimitMs_eq, if_pos (by rw [hb]; omega), Int.toNat_ofNat, hb]
    exact hst
  · unfold GrimEngine_speedLimit
    simp only [bind, Except.bind, pure, Except.pure]
    rw [hv]

/-- The budgets of some speeds: the default 60 gives 16 and is written back as
62, which gives 16 again; 0, -5 and 101 are out of range and give 16; 1 and 100
give 1000 and 10; 7 gives 142, which is written back as 7. -/
theorem speedLimit_examples :
    GrimEngine_speedLimitMs 60 = 16 ∧ GrimEngine_engineSpeed 16 = .ok 62 ∧
    GrimEngine_speedLimitMs 62 = 16 ∧
    GrimEngine_speedLimitMs 0 = 16 ∧ GrimEngine_speedLimitMs (-5) = 16 ∧
    GrimEngine_speedLimitMs 101 = 16 ∧
    GrimEngine_speedLimitMs 1 = 1000 ∧ GrimEngine_speedLimitMs 100 = 10 ∧
    GrimEngine_speedLimitMs 7 = 142 ∧ GrimEngine_engineSpeed 142 = .ok 7 :=
  ⟨rfl, rfl, rfl, rfl, rfl, rfl, rfl, rfl, rfl, rfl⟩

end Grim
